import Mathlib

/-!
# GATT JNI bridge (`jni/com_android_bluetooth_gatt.cpp`)

A shallow embedding of the identifier codec (128-bit UUIDs, device addresses)
and of the command dispatch facade of the bridge, with the properties the
specification states about them.

Conventions of the embedding:
* `jlong` / `jint` values are `Int`s (two's complement, arithmetic `>>`);
* `uint8_t` / `uint64_t` values are `Nat`s, truncated with an explicit `%`;
* a C array is a `List` of its cells; a C string is the `List Char` of the
  characters before its terminating NUL.
-/

namespace GattJni

/-! ## Machine integers -/

/-- A value fits the signed 64-bit type `jlong`. -/
def IsJlong (x : Int) : Prop := -(2 ^ 63) ≤ x ∧ x < 2 ^ 63

instance (x : Int) : Decidable (IsJlong x) := by unfold IsJlong; infer_instance

/-- Conversion of an integer value to `uint8_t` (truncation modulo 2^8). -/
def toU8 (x : Int) : Nat := (x % 256).toNat

/-- Conversion of a `jint` to `uint16_t`, as on assignment to a `uint16_t` field: the low
16 bits, a value in 0..65535. -/
def jintToU16 (x : Int) : Int := x % 65536

/-- Conversion of a `jint` to `uint8_t`, as on assignment to a `uint8_t` field: the low 8
bits, a value in 0..255. -/
def jintToU8 (x : Int) : Int := x % 256

/-- Conversion of a `jlong` to `uint64_t`: its 64-bit pattern. -/
def toU64 (x : Int) : Nat := (x % 2 ^ 64).toNat

/-- Conversion of a `uint64_t` to `jlong`: the same 64 bits read as signed. -/
def toJlong (n : Nat) : Int :=
  if n % 2 ^ 64 < 2 ^ 63 then ((n % 2 ^ 64 : Nat) : Int) else ((n % 2 ^ 64 : Nat) : Int) - 2 ^ 64

/-! ## UUID codec (`set_uuid`, `uuid_lsb`, `uuid_msb`) -/

/-- Source: `set_uuid`. For `i = 0 .. 7`:
`uuid[i] = (uuid_lsb >> (8 * i)) & 0xFF; uuid[i + 8] = (uuid_msb >> (8 * i)) & 0xFF;`
The first argument is the 16-byte buffer that is written to. -/
def set_uuid (uuid : List Nat) (uuid_msb uuid_lsb : Int) : List Nat :=
  (List.range 8).foldl
    (fun uuid i =>
      let uuid := uuid.set i (toU8 (Int.land (uuid_lsb >>> (8 * i)) 0xFF))
      uuid.set (i + 8) (toU8 (Int.land (uuid_msb >>> (8 * i)) 0xFF)))
    uuid

/-- Source: `uuid_lsb`. `lsb = 0; for (i = 7; i >= 0; i--) { lsb <<= 8; lsb |= uu[i]; }`
on a `uint64_t` accumulator. -/
def uuid_lsb (uu : List Nat) : Nat :=
  (List.range 8).reverse.foldl (fun lsb i => ((lsb <<< 8) % 2 ^ 64) ||| uu.getD i 0) 0

/-- Source: `uuid_msb`. `msb = 0; for (i = 15; i >= 8; i--) { msb <<= 8; msb |= uu[i]; }`
on a `uint64_t` accumulator. -/
def uuid_msb (uu : List Nat) : Nat :=
  ((List.range 8).map (· + 8)).reverse.foldl
    (fun msb i => ((msb <<< 8) % 2 ^ 64) ||| uu.getD i 0) 0

/-- A 16-byte UUID buffer (`bt_uuid_t::uu`): 16 cells, each a `uint8_t`. -/
def IsUuid16 (u : List Nat) : Prop := u.length = 16 ∧ ∀ b ∈ u, b < 256

instance (u : List Nat) : Decidable (IsUuid16 u) := by unfold IsUuid16; infer_instance

/-- The eight bytes of a 64-bit pattern, least-significant byte first. -/
def leBytes (n : Nat) : List Nat := (List.range 8).map (fun i => n / 2 ^ (8 * i) % 256)

/-! ## Device address codec (`bd_addr_str_to_addr`, `jstr2bdaddr`, `bdaddr2newjstr`) -/

/-- Source: `#define BD_ADDR_LEN 6`. -/
def BD_ADDR_LEN : Nat := 6

/-- What the bridge cannot control: the contents of memory it reads without having
written it, and the answers of the stack. -/
structure Env where
  /-- the memory cells that follow the terminating NUL of a C string -/
  past : Nat → Char
  /-- the indeterminate initial contents of a local `bt_bdaddr_t` (6 cells) -/
  uninit_bda : List Nat
  /-- the indeterminate initial contents of a local `bt_uuid_t` (16 cells) -/
  uninit_uuid : List Nat
  /-- the indeterminate initial contents of `btgatt_response_t::attr_value.value` -/
  uninit_value : List Nat
  /-- the stack's answer to `get_device_type` -/
  get_device_type : List Nat → Int

/-- The memory behind a `const char*` that points to the C string `s`: the characters of
`s`, the terminating NUL, then whatever follows in memory. -/
def cstr (s : List Char) (past : Nat → Char) (p : Nat) : Char :=
  if p < s.length then s.getD p '\x00'
  else if p = s.length then '\x00'
  else past (p - s.length - 1)

/-- The `int` value of the digit expression in `bd_addr_str_to_addr`:
`c - '0'` if `c >= '0' && c <= '9'`, `c - 'a' + 10` if `c >= 'a' && c <= 'z'`,
else `c - 'A' + 10`. A character is taken by its code; for a code of 128 or more all the
range tests fail and the byte stored (the value modulo 256) is the same whether `char`
is signed or unsigned. -/
def hexDigit (c : Char) : Int :=
  if '0' ≤ c ∧ c ≤ '9' then (c.toNat : Int) - ('0'.toNat : Int)
  else if 'a' ≤ c ∧ c ≤ 'z' then (c.toNat : Int) - ('a'.toNat : Int) + 10
  else (c.toNat : Int) - ('A'.toNat : Int) + 10

/-- The variables of `bd_addr_str_to_addr`: the read pointer `str` (as an offset into
the string's memory), the current character `c`, and the output buffer. -/
structure AddrScan where
  str : Nat
  c : Char
  bd_addr : List Nat

/-- One iteration of the `for` loop of `bd_addr_str_to_addr`, for index `i`. -/
def bd_addr_step (mem : Nat → Char) (st : AddrScan) (i : Nat) : AddrScan :=
  -- bd_addr[i] = <digit of c>;
  let bd := st.bd_addr.set i (toU8 (hexDigit st.c))
  -- c = *str++;
  let c := mem st.str
  let str := st.str + 1
  let st1 : AddrScan :=
    if c ≠ ':' then
      -- bd_addr[i] <<= 4;  bd_addr[i] |= <digit of c>;  c = *str++;
      let bd := bd.set i ((bd.getD i 0 <<< 4) % 256)
      let bd := bd.set i (toU8 (Int.lor ((bd.getD i 0 : Nat) : Int) (hexDigit c)))
      { str := str + 1, c := mem str, bd_addr := bd }
    else
      { str := str, c := c, bd_addr := bd }
  -- c = *str++;
  { str := st1.str + 1, c := mem st1.str, bd_addr := st1.bd_addr }

/-- Source: `bd_addr_str_to_addr(const char* str, uint8_t* bd_addr)`. `mem` is the memory
`str` points to; the result is the buffer `bd_addr` after the call. -/
def bd_addr_str_to_addr (mem : Nat → Char) (bd_addr : List Nat) : List Nat :=
  ((List.range BD_ADDR_LEN).foldl (bd_addr_step mem)
    { str := 1, c := mem 0, bd_addr := bd_addr }).bd_addr

/-- Source: `jstr2bdaddr(env, bda, address)`. `address` is what `GetStringUTFChars`
returns for the Java string: `none` for NULL, else the C string. The result is the
buffer `bda->address` after the call (callers always pass the address of a local). -/
def jstr2bdaddr (env : Env) (bda : List Nat) (address : Option (List Char)) : List Nat :=
  match address with
  | some c_bda =>
    if c_bda.length = 17 then bd_addr_str_to_addr (cstr c_bda env.past) bda else bda
  | none => bda

/-- The conversion `%02X` of `printf` for an unsigned value: uppercase hexadecimal,
padded with zeros on the left to at least two digits. -/
def fmt02X (n : Nat) : List Char :=
  let ds := (Nat.toDigits 16 n).map Char.toUpper
  List.replicate (2 - ds.length) '0' ++ ds

/-- Source: `bdaddr2newjstr`: `snprintf(c_address, 32, "%02X:%02X:%02X:%02X:%02X:%02X",
address[0], .., address[5])`, returned as a new Java string. -/
def bdaddr2newjstr (bda : List Nat) : List Char :=
  (fmt02X (bda.getD 0 0) ++ ':' :: fmt02X (bda.getD 1 0) ++ ':' :: fmt02X (bda.getD 2 0) ++
    ':' :: fmt02X (bda.getD 3 0) ++ ':' :: fmt02X (bda.getD 4 0) ++
    ':' :: fmt02X (bda.getD 5 0)).take 31

/-- A 6-byte device address (`bt_bdaddr_t::address`). -/
def IsBdAddr (a : List Nat) : Prop := a.length = 6 ∧ ∀ b ∈ a, b < 256

instance (a : List Nat) : Decidable (IsBdAddr a) := by unfold IsBdAddr; infer_instance

/-- A hexadecimal digit, in either case. -/
def IsHexChar (c : Char) : Prop := c ∈ "0123456789abcdefABCDEF".toList

instance (c : Char) : Decidable (IsHexChar c) := by unfold IsHexChar; infer_instance

/-- A well-formed address text: 17 characters, six groups of two hexadecimal digits
separated by colons (at positions 2, 5, 8, 11 and 14). -/
def IsAddrText (s : List Char) : Prop :=
  s.length = 17 ∧
  ∀ k, k < 17 → if k % 3 = 2 then s.getD k ' ' = ':' else IsHexChar (s.getD k ' ')

instance (s : List Char) : Decidable (IsAddrText s) := by unfold IsAddrText; infer_instance

/-- The uppercase hexadecimal digit for a value below 16. -/
def upperHexDigit (d : Nat) : Char := "0123456789ABCDEF".toList.getD d '?'

/-- The byte that one iteration of `bd_addr_str_to_addr` leaves in `bd_addr[i]`, from the
current character `c` and the read offset `str`. -/
def scanByte (mem : Nat → Char) (str : Nat) (c : Char) : Nat :=
  if mem str ≠ ':' then
    toU8 (Int.lor ((((toU8 (hexDigit c) <<< 4) % 256 : Nat)) : Int) (hexDigit (mem str)))
  else toU8 (hexDigit c)

/-- The read offset and current character after one iteration of `bd_addr_str_to_addr`. -/
def scanNext (mem : Nat → Char) (str : Nat) : Nat × Char :=
  if mem str ≠ ':' then (str + 3, mem (str + 2)) else (str + 2, mem (str + 1))

/-- The bytes that `n` iterations of `bd_addr_str_to_addr` produce. -/
def scanBytes (mem : Nat → Char) : Nat → Nat → Char → List Nat
  | 0, _, _ => []
  | n + 1, str, c =>
    scanByte mem str c :: scanBytes mem n (scanNext mem str).1 (scanNext mem str).2

/-- A sample environment. -/
def Env.sample : Env :=
  { past := fun _ => 'Z', uninit_bda := [1, 2, 3, 4, 5, 6], uninit_uuid := List.replicate 16 9,
    uninit_value := List.replicate 600 0, get_device_type := fun _ => 1 }


/-! ## The bridge state and the stack interface -/

/-- The process-wide references of the bridge: `btIf`, `sGattIf` and `mCallbacksObj`
(`none` is NULL; the number identifies the object referred to). -/
structure Bridge where
  btIf : Option Nat
  sGattIf : Option Nat
  mCallbacksObj : Option Nat
  deriving DecidableEq, Repr

/-- The `btgatt_filt_param_setup_t` built by `gattClientScanFilterParamAddNative`, with the
value each field is assigned. -/
structure FiltParams where
  feat_seln : Int
  list_logic_type : Int
  filt_logic_type : Int
  dely_mode : Int
  found_timeout : Int
  lost_timeout : Int
  found_timeout_cnt : Int
  num_of_tracking_entries : Int
  rssi_high_thres : Int
  rssi_low_thres : Int
  deriving DecidableEq, Repr

/-- The `AdvertiseParameters` built by `startAdvertiserNative`. -/
structure AdvertiseParameters where
  advertising_event_properties : Int
  min_interval : Int
  max_interval : Int
  channel_map : Int
  tx_power : Int
  primary_advertising_phy : Int
  secondary_advertising_phy : Int
  scan_request_notification_enable : Int
  deriving DecidableEq, Repr

/-- One `btgatt_db_element_t`, with the value each field holds. The fields `id`,
`attribute_handle`, `start_handle`, `end_handle` and `permissions` are `uint16_t`,
`properties` is `uint8_t` and `type` is an enumeration of `int` size. -/
structure DbElement where
  id : Int
  uuid : List Nat
  type : Int
  attribute_handle : Int
  start_handle : Int
  end_handle : Int
  properties : Int
  permissions : Int
  deriving DecidableEq, Repr

/-- The `btgatt_response_t` passed to `send_response`: the fields of `attr_value` that
`gattServerSendResponseNative` assigns, and the contents of the `value` array. The fields
`handle`, `offset` and `len` are `uint16_t` and `auth_req` is `uint8_t`. -/
structure Response where
  handle : Int
  auth_req : Int
  offset : Int
  len : Nat
  value : List Nat
  deriving DecidableEq, Repr

/-- The `btgatt_test_params_t` passed to `test_command`. -/
structure TestParams where
  bda1 : List Nat
  uuid1 : List Nat
  u1 : Int
  u2 : Int
  u3 : Int
  u4 : Int
  u5 : Int
  deriving DecidableEq, Repr

/-- A callback bound with `base::Bind` to its leading arguments and handed to the stack. -/
inductive BoundCb where
  | btgattc_register_scanner_cb (app_uuid : List Nat)
  | ble_advertiser_register_cb (uuid : List Nat)
  | ble_advertiser_start_cb (advertiser_id : Int)
  | ble_advertiser_enable_cb (enable : Bool) (advertiser_id : Int)
  deriving DecidableEq, Repr

/-- A call through `sGattIf->client`, with its arguments. A pointer argument is the object
pointed to, `none` for NULL. -/
inductive ClientCall where
  | get_device_type (bda : List Nat)
  | register_client (uuid : List Nat)
  | unregister_client (clientIf : Int)
  | connect (clientif : Int) (bda : List Nat) (isDirect : Bool) (transport : Int)
  | disconnect (clientIf : Int) (bda : List Nat) (conn_id : Int)
  | refresh (clientIf : Int) (bda : List Nat)
  | search_service (conn_id : Int) (uuid : Option (List Nat))
  | get_gatt_db (conn_id : Int)
  | read_characteristic (conn_id handle authReq : Int)
  | read_descriptor (conn_id handle authReq : Int)
  | write_characteristic (conn_id handle write_type auth_req : Int) (value : List Nat)
  | execute_write (conn_id : Int) (execute : Int)
  | write_descriptor (conn_id handle auth_req : Int) (value : List Nat)
  | register_for_notification (clientIf : Int) (bd_addr : List Nat) (handle : Int)
  | deregister_for_notification (clientIf : Int) (bd_addr : List Nat) (handle : Int)
  | read_remote_rssi (clientif : Int) (bda : List Nat)
  | configure_mtu (conn_id mtu : Int)
  | conn_parameter_update (bda : List Nat) (min_interval max_interval latency timeout : Int)
  | test_command (command : Int) (params : TestParams)
  deriving DecidableEq, Repr

/-- A call through `sGattIf->scanner`. -/
inductive ScannerCall where
  | RegisterScanner (cb : BoundCb)
  | Unregister (scanner_id : Int)
  | Scan (start : Bool)
  | SetScanParameters (client_if scan_interval_unit scan_window_unit : Int)
  | ScanFilterParamSetup (client_if : Int) (action : Int) (filt_index : Int)
      (filt_params : Option FiltParams)
  | ScanFilterAddRemove (client_if action filt_type filt_index company_id
      company_id_mask : Int) (p_uuid p_uuid_mask bd_addr : Option (List Nat))
      (addr_type : Int) (data mask : List Nat)
  | ScanFilterClear (client_if filt_index : Int)
  | ScanFilterEnable (client_if : Int) (enable : Bool)
  | BatchscanConfigStorage (client_if max_full_reports_percent
      max_trunc_reports_percent notify_threshold_level_percent : Int)
  | BatchscanEnable (client_if scan_mode scan_interval_unit scan_window_unit
      addr_type discard_rule : Int)
  | BatchscanDisable (client_if : Int)
  | BatchscanReadReports (client_if scan_type : Int)
  deriving DecidableEq, Repr

/-- A call through `sGattIf->advertiser`. -/
inductive AdvertiserCall where
  | RegisterAdvertiser (cb : BoundCb)
  | StartAdvertising (advertiser_id : Int) (cb : BoundCb)
      (params : AdvertiseParameters) (advertise_data scan_response_data : List Nat)
      (timeout_s : Int) (timeout_cb : BoundCb)
  | Unregister (advertiser_id : Int)
  | Enable (advertiser_id : Int) (enable : Bool) (cb : BoundCb) (timeout_s : Int)
      (timeout_cb : BoundCb)
  deriving DecidableEq, Repr

/-- A call through `sGattIf->server`. -/
inductive ServerCall where
  | register_server (uuid : List Nat)
  | unregister_server (serverIf : Int)
  | connect (server_if : Int) (bd_addr : List Nat) (is_direct : Bool) (transport : Int)
  | disconnect (serverIf : Int) (bda : List Nat) (conn_id : Int)
  | add_service (server_if : Int) (db : List DbElement)
  | stop_service (server_if svc_handle : Int)
  | delete_service (server_if svc_handle : Int)
  | send_indication (server_if attr_handle conn_id : Int) (confirm : Int) (value : List Nat)
  | send_response (conn_id trans_id status : Int) (response : Response)
  deriving DecidableEq, Repr

/-- A call made through the stack handle `sGattIf`. -/
inductive StackCall where
  | client (c : ClientCall)
  | scanner (c : ScannerCall)
  | advertiser (c : AdvertiserCall)
  | server (c : ServerCall)
  deriving DecidableEq, Repr

/-- Why a native function has no defined result. -/
inductive Fault where
  /-- a NULL pointer or a null Java reference is dereferenced -/
  | null_reference
  /-- a write goes beyond the end of a fixed-size array -/
  | buffer_overrun
  deriving DecidableEq, Repr

/-- What a native function does: it returns (`done`) leaving the bridge state `bridge`,
having made the stack calls `calls` in order, with return value `ret` (0 for a `void`
function); or it runs into undefined behaviour (`fault`). -/
inductive Result where
  | done (bridge : Bridge) (calls : List StackCall) (ret : Int)
  | fault (f : Fault)
  deriving DecidableEq, Repr


/-! ## Java-side arguments -/

/-- The Java object `FilterParams`, by the values its getters return. -/
structure JFilterParams where
  getClientIf : Int
  getFiltIndex : Int
  getFeatSeln : Int
  getListLogicType : Int
  getFiltLogicType : Int
  getDelyMode : Int
  getFoundTimeout : Int
  getLostTimeout : Int
  getFoundTimeOutCnt : Int
  getNumOfTrackEntries : Int
  getRSSIHighValue : Int
  getRSSILowValue : Int
  deriving DecidableEq, Repr

/-- The Java object `java.util.UUID`, by the values of `getMostSignificantBits` and
`getLeastSignificantBits`. -/
structure JUuid where
  msb : Int
  lsb : Int
  deriving DecidableEq, Repr

/-- The Java object `GattDbElement`, by its fields (`uuid` may be a null reference). -/
structure JGattDbElement where
  id : Int
  uuid : Option JUuid
  type : Int
  attributeHandle : Int
  startHandle : Int
  endHandle : Int
  properties : Int
  permissions : Int
  deriving DecidableEq, Repr

/-! ## Command dispatch facade (the native functions) -/

/-- Conversion of a length to `uint16_t`. -/
def toU16 (n : Nat) : Nat := n % 65536

/-- The vector `std::vector<uint8_t>(p, p + len)` built from the elements of a Java byte
array (`len` never exceeds the array's length in the source). -/
def vectorOf (array : List Nat) (len : Nat) : List Nat := array.take len

/-- The capacity `BTGATT_MAX_ATTR_LEN` of `btgatt_response_t::attr_value.value`. The
constant is declared in a header of the stack; here it is the length of that array. -/
def BTGATT_MAX_ATTR_LEN (env : Env) : Nat := env.uninit_value.length

/-- Source: `gattClientGetDeviceTypeNative`. -/
def gattClientGetDeviceTypeNative (b : Bridge) (env : Env) (address : Option (List Char)) :
    Result :=
  if b.sGattIf.isNone then .done b [] 0
  else
    let bda := jstr2bdaddr env env.uninit_bda address
    .done b [.client (.get_device_type bda)] (env.get_device_type bda)

/-- Source: `gattClientRegisterAppNative`. -/
def gattClientRegisterAppNative (b : Bridge) (env : Env) (app_uuid_lsb app_uuid_msb : Int) :
    Result :=
  if b.sGattIf.isNone then .done b [] 0
  else
    let uuid := set_uuid env.uninit_uuid app_uuid_msb app_uuid_lsb
    .done b [.client (.register_client uuid)] 0

/-- Source: `gattClientUnregisterAppNative`. -/
def gattClientUnregisterAppNative (b : Bridge) (_env : Env) (clientIf : Int) : Result :=
  if b.sGattIf.isNone then .done b [] 0
  else .done b [.client (.unregister_client clientIf)] 0

/-- Source: `registerScannerNative`. -/
def registerScannerNative (b : Bridge) (env : Env) (app_uuid_lsb app_uuid_msb : Int) :
    Result :=
  if b.sGattIf.isNone then .done b [] 0
  else
    let uuid := set_uuid env.uninit_uuid app_uuid_msb app_uuid_lsb
    .done b [.scanner (.RegisterScanner (.btgattc_register_scanner_cb uuid))] 0

/-- Source: `unregisterScannerNative`. -/
def unregisterScannerNative (b : Bridge) (_env : Env) (scanner_id : Int) : Result :=
  if b.sGattIf.isNone then .done b [] 0
  else .done b [.scanner (.Unregister scanner_id)] 0

/-- Source: `gattClientScanNative`. -/
def gattClientScanNative (b : Bridge) (_env : Env) (start : Bool) : Result :=
  if b.sGattIf.isNone then .done b [] 0
  else .done b [.scanner (.Scan start)] 0

/-- Source: `gattClientConnectNative`. -/
def gattClientConnectNative (b : Bridge) (env : Env) (clientif : Int)
    (address : Option (List Char)) (isDirect : Bool) (transport : Int) : Result :=
  if b.sGattIf.isNone then .done b [] 0
  else
    let bda := jstr2bdaddr env env.uninit_bda address
    .done b [.client (.connect clientif bda isDirect transport)] 0

/-- Source: `gattClientDisconnectNative`. -/
def gattClientDisconnectNative (b : Bridge) (env : Env) (clientIf : Int)
    (address : Option (List Char)) (conn_id : Int) : Result :=
  if b.sGattIf.isNone then .done b [] 0
  else
    let bda := jstr2bdaddr env env.uninit_bda address
    .done b [.client (.disconnect clientIf bda conn_id)] 0

/-- Source: `gattClientRefreshNative`. -/
def gattClientRefreshNative (b : Bridge) (env : Env) (clientIf : Int)
    (address : Option (List Char)) : Result :=
  if b.sGattIf.isNone then .done b [] 0
  else
    let bda := jstr2bdaddr env env.uninit_bda address
    .done b [.client (.refresh clientIf bda)] 0

/-- Source: `gattClientSearchServiceNative`. -/
def gattClientSearchServiceNative (b : Bridge) (env : Env) (conn_id : Int) (search_all : Bool)
    (service_uuid_lsb service_uuid_msb : Int) : Result :=
  if b.sGattIf.isNone then .done b [] 0
  else
    let uuid := set_uuid env.uninit_uuid service_uuid_msb service_uuid_lsb
    .done b [.client (.search_service conn_id (if search_all then none else some uuid))] 0

/-- Source: `gattClientGetGattDbNative`. -/
def gattClientGetGattDbNative (b : Bridge) (_env : Env) (conn_id : Int) : Result :=
  if b.sGattIf.isNone then .done b [] 0
  else .done b [.client (.get_gatt_db conn_id)] 0

/-- Source: `gattClientReadCharacteristicNative`. -/
def gattClientReadCharacteristicNative (b : Bridge) (_env : Env)
    (conn_id handle authReq : Int) : Result :=
  if b.sGattIf.isNone then .done b [] 0
  else .done b [.client (.read_characteristic conn_id handle authReq)] 0

/-- Source: `gattClientReadDescriptorNative`. -/
def gattClientReadDescriptorNative (b : Bridge) (_env : Env)
    (conn_id handle authReq : Int) : Result :=
  if b.sGattIf.isNone then .done b [] 0
  else .done b [.client (.read_descriptor conn_id handle authReq)] 0

/-- Source: `gattClientWriteCharacteristicNative`. A null `value` is ignored; the vector
passed on holds the first `(uint16_t) length` bytes of the array. (`GetByteArrayElements`
is taken to succeed on a non-null array, here and in the other native functions.) -/
def gattClientWriteCharacteristicNative (b : Bridge) (_env : Env)
    (conn_id handle write_type auth_req : Int) (value : Option (List Nat)) : Result :=
  if b.sGattIf.isNone then .done b [] 0
  else
    match value with
    | none => .done b [] 0
    | some p_value =>
      let len := toU16 p_value.length
      let vect_val := vectorOf p_value len
      .done b [.client (.write_characteristic conn_id handle write_type auth_req vect_val)] 0

/-- Source: `gattClientExecuteWriteNative`. -/
def gattClientExecuteWriteNative (b : Bridge) (_env : Env) (conn_id : Int) (execute : Bool) :
    Result :=
  if b.sGattIf.isNone then .done b [] 0
  else .done b [.client (.execute_write conn_id (if execute then 1 else 0))] 0

/-- Source: `gattClientWriteDescriptorNative`. -/
def gattClientWriteDescriptorNative (b : Bridge) (_env : Env)
    (conn_id handle auth_req : Int) (value : Option (List Nat)) : Result :=
  if b.sGattIf.isNone then .done b [] 0
  else
    match value with
    | none => .done b [] 0
    | some p_value =>
      let len := toU16 p_value.length
      let vect_val := vectorOf p_value len
      .done b [.client (.write_descriptor conn_id handle auth_req vect_val)] 0

/-- Source: `gattClientRegisterForNotificationsNative`. The address text goes to
`bd_addr_str_to_addr` without any check. -/
def gattClientRegisterForNotificationsNative (b : Bridge) (env : Env) (clientIf : Int)
    (address : Option (List Char)) (handle : Int) (enable : Bool) : Result :=
  if b.sGattIf.isNone then .done b [] 0
  else
    match address with
    | none => .fault .null_reference
    | some c_address =>
      let bd_addr := bd_addr_str_to_addr (cstr c_address env.past) env.uninit_bda
      if enable then .done b [.client (.register_for_notification clientIf bd_addr handle)] 0
      else .done b [.client (.deregister_for_notification clientIf bd_addr handle)] 0

/-- Source: `gattClientReadRemoteRssiNative`. -/
def gattClientReadRemoteRssiNative (b : Bridge) (env : Env) (clientif : Int)
    (address : Option (List Char)) : Result :=
  if b.sGattIf.isNone then .done b [] 0
  else
    let bda := jstr2bdaddr env env.uninit_bda address
    .done b [.client (.read_remote_rssi clientif bda)] 0

/-- Source: `gattSetScanParametersNative`. -/
def gattSetScanParametersNative (b : Bridge) (_env : Env)
    (client_if scan_interval_unit scan_window_unit : Int) : Result :=
  if b.sGattIf.isNone then .done b [] 0
  else .done b [.scanner (.SetScanParameters client_if scan_interval_unit scan_window_unit)] 0


/-- Source: `gattClientScanFilterParamAddNative`. `params` is the Java `FilterParams`
object (`none` for a null reference, on which the getters cannot be called). -/
def gattClientScanFilterParamAddNative (b : Bridge) (_env : Env)
    (params : Option JFilterParams) : Result :=
  if b.sGattIf.isNone then .done b [] 0
  else
    match params with
    | none => .fault .null_reference
    | some params =>
      let add_scan_filter_params_action : Int := 0
      let client_if := toU8 params.getClientIf
      let filt_index := toU8 params.getFiltIndex
      let filt_params : FiltParams :=
        { feat_seln := params.getFeatSeln
          list_logic_type := params.getListLogicType
          filt_logic_type := params.getFiltLogicType
          dely_mode := params.getDelyMode
          found_timeout := params.getFoundTimeout
          lost_timeout := params.getLostTimeout
          found_timeout_cnt := params.getFoundTimeOutCnt
          num_of_tracking_entries := params.getNumOfTrackEntries
          rssi_high_thres := params.getRSSIHighValue
          rssi_low_thres := params.getRSSILowValue }
      .done b [.scanner (.ScanFilterParamSetup client_if add_scan_filter_params_action
        filt_index (some filt_params))] 0

/-- Source: `gattClientScanFilterParamDeleteNative`. -/
def gattClientScanFilterParamDeleteNative (b : Bridge) (_env : Env)
    (client_if filt_index : Int) : Result :=
  if b.sGattIf.isNone then .done b [] 0
  else
    let delete_scan_filter_params_action : Int := 1
    .done b [.scanner (.ScanFilterParamSetup client_if delete_scan_filter_params_action
      filt_index none)] 0

/-- Source: `gattClientScanFilterParamClearAllNative`. -/
def gattClientScanFilterParamClearAllNative (b : Bridge) (_env : Env) (client_if : Int) :
    Result :=
  if b.sGattIf.isNone then .done b [] 0
  else
    let clear_scan_filter_params_action : Int := 2
    .done b [.scanner (.ScanFilterParamSetup client_if clear_scan_filter_params_action
      0 none)] 0

/-- Source: `gattClientScanFilterAddRemoveNative`, the `switch (filt_type)`. The function
does not test `sGattIf` itself: every branch that makes a call dereferences it. -/
def gattClientScanFilterAddRemoveNative (b : Bridge) (env : Env)
    (client_if action filt_type filt_index company_id company_id_mask : Int)
    (uuid_lsb uuid_msb uuid_mask_lsb uuid_mask_msb : Int)
    (name address : Option (List Char)) (addr_type : Int)
    (data mask : Option (List Nat)) : Result :=
  if filt_type = 0 then
    -- case 0: BTM_BLE_PF_ADDR_FILTER
    let bda := jstr2bdaddr env env.uninit_bda address
    if b.sGattIf.isNone then .fault .null_reference
    else .done b [.scanner (.ScanFilterAddRemove client_if action filt_type filt_index 0 0
      none none (some bda) addr_type [] [])] 0
  else if filt_type = 1 then
    -- case 1: BTM_BLE_PF_SRVC_DATA
    match data, mask with
    | some data_array, some mask_array =>
      let data_len := data_array.length
      let vec_data := vectorOf data_array data_len
      let mask_len := toU16 mask_array.length
      let vec_mask := vectorOf mask_array mask_len
      if b.sGattIf.isNone then .fault .null_reference
      else .done b [.scanner (.ScanFilterAddRemove client_if action filt_type filt_index 0 0
        none none none 0 vec_data vec_mask)] 0
    | _, _ => .fault .null_reference
  else if filt_type = 2 ∨ filt_type = 3 then
    -- case 2: BTM_BLE_PF_SRVC_UUID, case 3: BTM_BLE_PF_SRVC_SOL_UUID
    let uuid := set_uuid env.uninit_uuid uuid_msb uuid_lsb
    let uuid_mask := set_uuid env.uninit_uuid uuid_mask_msb uuid_mask_lsb
    if b.sGattIf.isNone then .fault .null_reference
    else if uuid_mask_lsb ≠ 0 ∧ uuid_mask_msb ≠ 0 then
      .done b [.scanner (.ScanFilterAddRemove client_if action filt_type filt_index 0 0
        (some uuid) (some uuid_mask) none 0 [] [])] 0
    else
      .done b [.scanner (.ScanFilterAddRemove client_if action filt_type filt_index 0 0
        (some uuid) none none 0 [] [])] 0
  else if filt_type = 4 then
    -- case 4: BTM_BLE_PF_LOCAL_NAME
    match name with
    | some c_name =>
      if c_name.length ≠ 0 then
        let vec_name := c_name.map Char.toNat
        if b.sGattIf.isNone then .fault .null_reference
        else .done b [.scanner (.ScanFilterAddRemove client_if action filt_type filt_index 0 0
          none none none 0 vec_name [])] 0
      else .done b [] 0
    | none => .done b [] 0
  else if filt_type = 5 ∨ filt_type = 6 then
    -- case 5: BTM_BLE_PF_MANU_DATA, case 6: BTM_BLE_PF_SRVC_DATA_PATTERN
    match data, mask with
    | some data_array, some mask_array =>
      let data_len := data_array.length
      let vec_data := vectorOf data_array data_len
      let mask_len := toU16 mask_array.length
      let vec_mask := vectorOf mask_array mask_len
      if b.sGattIf.isNone then .fault .null_reference
      else .done b [.scanner (.ScanFilterAddRemove client_if action filt_type filt_index
        company_id company_id_mask none none none 0 vec_data vec_mask)] 0
    | _, _ => .fault .null_reference
  else
    -- default: break
    .done b [] 0

/-- Source: `gattClientScanFilterAddNative`. -/
def gattClientScanFilterAddNative (b : Bridge) (env : Env)
    (client_if filt_type filt_index company_id company_id_mask : Int)
    (uuid_lsb uuid_msb uuid_mask_lsb uuid_mask_msb : Int)
    (name address : Option (List Char)) (addr_type : Int)
    (data mask : Option (List Nat)) : Result :=
  if b.sGattIf.isNone then .done b [] 0
  else
    let action : Int := 0
    gattClientScanFilterAddRemoveNative b env client_if action filt_type filt_index company_id
      company_id_mask uuid_lsb uuid_msb uuid_mask_lsb uuid_mask_msb name address addr_type
      data mask

/-- Source: `gattClientScanFilterDeleteNative`. -/
def gattClientScanFilterDeleteNative (b : Bridge) (env : Env)
    (client_if filt_type filt_index company_id company_id_mask : Int)
    (uuid_lsb uuid_msb uuid_mask_lsb uuid_mask_msb : Int)
    (name address : Option (List Char)) (addr_type : Int)
    (data mask : Option (List Nat)) : Result :=
  if b.sGattIf.isNone then .done b [] 0
  else
    let action : Int := 1
    gattClientScanFilterAddRemoveNative b env client_if action filt_type filt_index company_id
      company_id_mask uuid_lsb uuid_msb uuid_mask_lsb uuid_mask_msb name address addr_type
      data mask

/-- Source: `gattClientScanFilterClearNative`. -/
def gattClientScanFilterClearNative (b : Bridge) (_env : Env) (client_if filt_index : Int) :
    Result :=
  if b.sGattIf.isNone then .done b [] 0
  else .done b [.scanner (.ScanFilterClear client_if filt_index)] 0

/-- Source: `gattClientScanFilterEnableNative`. -/
def gattClientScanFilterEnableNative (b : Bridge) (_env : Env) (client_if : Int)
    (enable : Bool) : Result :=
  if b.sGattIf.isNone then .done b [] 0
  else .done b [.scanner (.ScanFilterEnable client_if enable)] 0

/-- Source: `gattClientConfigureMTUNative`. -/
def gattClientConfigureMTUNative (b : Bridge) (_env : Env) (conn_id mtu : Int) : Result :=
  if b.sGattIf.isNone then .done b [] 0
  else .done b [.client (.configure_mtu conn_id mtu)] 0

/-- Source: `gattConnectionParameterUpdateNative`. -/
def gattConnectionParameterUpdateNative (b : Bridge) (env : Env) (_client_if : Int)
    (address : Option (List Char)) (min_interval max_interval latency timeout : Int) :
    Result :=
  if b.sGattIf.isNone then .done b [] 0
  else
    let bda := jstr2bdaddr env env.uninit_bda address
    .done b [.client (.conn_parameter_update bda min_interval max_interval latency timeout)] 0


/-- Source: `registerAdvertiserNative`. -/
def registerAdvertiserNative (b : Bridge) (env : Env) (app_uuid_lsb app_uuid_msb : Int) :
    Result :=
  if b.sGattIf.isNone then .done b [] 0
  else
    let uuid := set_uuid env.uninit_uuid app_uuid_msb app_uuid_lsb
    .done b [.advertiser (.RegisterAdvertiser (.ble_advertiser_register_cb uuid))] 0

/-- Source: `startAdvertiserNative`. Both byte arrays are read without a null check. -/
def startAdvertiserNative (b : Bridge) (_env : Env) (advertiser_id : Int)
    (advertising_event_properties min_interval max_interval chnl_map tx_power
      primary_advertising_phy secondary_advertising_phy
      scan_request_notification_enable : Int)
    (adv_data scan_resp : Option (List Nat)) (timeout_s : Int) : Result :=
  if b.sGattIf.isNone then .done b [] 0
  else
    let params : AdvertiseParameters :=
      { advertising_event_properties := advertising_event_properties
        min_interval := min_interval
        max_interval := max_interval
        channel_map := chnl_map
        tx_power := tx_power
        primary_advertising_phy := primary_advertising_phy
        secondary_advertising_phy := secondary_advertising_phy
        scan_request_notification_enable := scan_request_notification_enable }
    match adv_data, scan_resp with
    | some adv_data_data, some scan_resp_data =>
      let adv_data_len := toU16 adv_data_data.length
      let data_vec := vectorOf adv_data_data adv_data_len
      let scan_resp_len := toU16 scan_resp_data.length
      let scan_resp_vec := vectorOf scan_resp_data scan_resp_len
      .done b [.advertiser (.StartAdvertising advertiser_id
        (.ble_advertiser_start_cb advertiser_id) params data_vec scan_resp_vec timeout_s
        (.ble_advertiser_enable_cb false advertiser_id))] 0
    | _, _ => .fault .null_reference

/-- Source: `unregisterAdvertiserNative`. -/
def unregisterAdvertiserNative (b : Bridge) (_env : Env) (advertiser_id : Int) : Result :=
  if b.sGattIf.isNone then .done b [] 0
  else .done b [.advertiser (.Unregister advertiser_id)] 0

/-- Source: `gattClientEnableAdvNative`. -/
def gattClientEnableAdvNative (b : Bridge) (_env : Env) (advertiser_id : Int) (enable : Bool)
    (timeout_s : Int) : Result :=
  if b.sGattIf.isNone then .done b [] 0
  else
    .done b [.advertiser (.Enable advertiser_id enable
      (.ble_advertiser_enable_cb enable advertiser_id) timeout_s
      (.ble_advertiser_enable_cb false advertiser_id))] 0

/-- Source: `gattClientConfigBatchScanStorageNative`. -/
def gattClientConfigBatchScanStorageNative (b : Bridge) (_env : Env)
    (client_if max_full_reports_percent max_trunc_reports_percent
      notify_threshold_level_percent : Int) : Result :=
  if b.sGattIf.isNone then .done b [] 0
  else .done b [.scanner (.BatchscanConfigStorage client_if max_full_reports_percent
    max_trunc_reports_percent notify_threshold_level_percent)] 0

/-- Source: `gattClientStartBatchScanNative`. -/
def gattClientStartBatchScanNative (b : Bridge) (_env : Env)
    (client_if scan_mode scan_interval_unit scan_window_unit addr_type discard_rule : Int) :
    Result :=
  if b.sGattIf.isNone then .done b [] 0
  else .done b [.scanner (.BatchscanEnable client_if scan_mode scan_interval_unit
    scan_window_unit addr_type discard_rule)] 0

/-- Source: `gattClientStopBatchScanNative`. -/
def gattClientStopBatchScanNative (b : Bridge) (_env : Env) (client_if : Int) : Result :=
  if b.sGattIf.isNone then .done b [] 0
  else .done b [.scanner (.BatchscanDisable client_if)] 0

/-- Source: `gattClientReadScanReportsNative`. -/
def gattClientReadScanReportsNative (b : Bridge) (_env : Env) (client_if scan_type : Int) :
    Result :=
  if b.sGattIf.isNone then .done b [] 0
  else .done b [.scanner (.BatchscanReadReports client_if scan_type)] 0

/-- Source: `gattServerRegisterAppNative`. -/
def gattServerRegisterAppNative (b : Bridge) (env : Env) (app_uuid_lsb app_uuid_msb : Int) :
    Result :=
  if b.sGattIf.isNone then .done b [] 0
  else
    let uuid := set_uuid env.uninit_uuid app_uuid_msb app_uuid_lsb
    .done b [.server (.register_server uuid)] 0

/-- Source: `gattServerUnregisterAppNative`. -/
def gattServerUnregisterAppNative (b : Bridge) (_env : Env) (serverIf : Int) : Result :=
  if b.sGattIf.isNone then .done b [] 0
  else .done b [.server (.unregister_server serverIf)] 0

/-- Source: `gattServerConnectNative`. The address text goes to `bd_addr_str_to_addr`
without any check. -/
def gattServerConnectNative (b : Bridge) (env : Env) (server_if : Int)
    (address : Option (List Char)) (is_direct : Bool) (transport : Int) : Result :=
  if b.sGattIf.isNone then .done b [] 0
  else
    match address with
    | none => .fault .null_reference
    | some c_address =>
      let bd_addr := bd_addr_str_to_addr (cstr c_address env.past) env.uninit_bda
      .done b [.server (.connect server_if bd_addr is_direct transport)] 0

/-- Source: `gattServerDisconnectNative`. -/
def gattServerDisconnectNative (b : Bridge) (env : Env) (serverIf : Int)
    (address : Option (List Char)) (conn_id : Int) : Result :=
  if b.sGattIf.isNone then .done b [] 0
  else
    let bda := jstr2bdaddr env env.uninit_bda address
    .done b [.server (.disconnect serverIf bda conn_id)] 0

/-- The body of the `for` loop of `gattServerAddServiceNative` for one element: the
`btgatt_db_element_t` it pushes, or `none` when the element's `uuid` is a null reference.
Each `GetIntField` result is a `jint`; assigning it to a `uint16_t` or `uint8_t` field of
`curr` keeps its low 16 or 8 bits, and `type` is cast to the enumeration. -/
def encodeElement (env : Env) (element : JGattDbElement) : Option DbElement :=
  match element.uuid with
  | none => none
  | some uuid =>
    some
      { id := jintToU16 element.id
        uuid := set_uuid env.uninit_uuid uuid.msb uuid.lsb
        type := element.type
        attribute_handle := jintToU16 element.attributeHandle
        start_handle := jintToU16 element.startHandle
        end_handle := jintToU16 element.endHandle
        properties := jintToU8 element.properties
        permissions := jintToU16 element.permissions }

/-- The `for` loop of `gattServerAddServiceNative`: the vector `db`, element by element in
list order. -/
def encodeElements (env : Env) : List JGattDbElement → Option (List DbElement)
  | [] => some []
  | element :: rest =>
    match encodeElement env element, encodeElements env rest with
    | some curr, some db => some (curr :: db)
    | _, _ => none

/-- Source: `gattServerAddServiceNative`. `gatt_db_elements` is the Java list (`none` for a
null reference); the class of the elements is looked up through `mCallbacksObj`. -/
def gattServerAddServiceNative (b : Bridge) (env : Env) (server_if : Int)
    (gatt_db_elements : Option (List JGattDbElement)) : Result :=
  if b.sGattIf.isNone then .done b [] 0
  else
    match gatt_db_elements, b.mCallbacksObj with
    | some elements, some _ =>
      match encodeElements env elements with
      | some db => .done b [.server (.add_service server_if db)] 0
      | none => .fault .null_reference
    | _, _ => .fault .null_reference

/-- Source: `gattServerStopServiceNative`. -/
def gattServerStopServiceNative (b : Bridge) (_env : Env) (server_if svc_handle : Int) :
    Result :=
  if b.sGattIf.isNone then .done b [] 0
  else .done b [.server (.stop_service server_if svc_handle)] 0

/-- Source: `gattServerDeleteServiceNative`. -/
def gattServerDeleteServiceNative (b : Bridge) (_env : Env) (server_if svc_handle : Int) :
    Result :=
  if b.sGattIf.isNone then .done b [] 0
  else .done b [.server (.delete_service server_if svc_handle)] 0

/-- Source: `gattServerSendIndicationNative` (`confirm` is 1). -/
def gattServerSendIndicationNative (b : Bridge) (_env : Env)
    (server_if attr_handle conn_id : Int) (val : Option (List Nat)) : Result :=
  if b.sGattIf.isNone then .done b [] 0
  else
    match val with
    | none => .fault .null_reference
    | some array =>
      let val_len := array.length
      let vect_val := vectorOf array val_len
      .done b [.server (.send_indication server_if attr_handle conn_id 1 vect_val)] 0

/-- Source: `gattServerSendNotificationNative` (`confirm` is 0). -/
def gattServerSendNotificationNative (b : Bridge) (_env : Env)
    (server_if attr_handle conn_id : Int) (val : Option (List Nat)) : Result :=
  if b.sGattIf.isNone then .done b [] 0
  else
    match val with
    | none => .fault .null_reference
    | some array =>
      let val_len := array.length
      let vect_val := vectorOf array val_len
      .done b [.server (.send_indication server_if attr_handle conn_id 0 vect_val)] 0

/-- Source: `gattServerSendResponseNative`. The `jint` arguments handle, offset and
auth_req are assigned to the `uint16_t`, `uint16_t` and `uint8_t` fields of
`response.attr_value`, which keeps their low 16, 16 and 8 bits. The loop
`for (i = 0; i != len; ++i) value[i] = array[i]` writes `len` cells of the `value` array,
which has `BTGATT_MAX_ATTR_LEN` cells; no bound is tested. -/
def gattServerSendResponseNative (b : Bridge) (env : Env)
    (_server_if conn_id trans_id status handle offset : Int) (val : Option (List Nat))
    (auth_req : Int) : Result :=
  if b.sGattIf.isNone then .done b [] 0
  else
    match val with
    | none =>
      .done b [.server (.send_response conn_id trans_id status
        { handle := jintToU16 handle, auth_req := jintToU8 auth_req,
          offset := jintToU16 offset, len := 0, value := env.uninit_value })] 0
    | some array =>
      let len := toU16 array.length
      if len > BTGATT_MAX_ATTR_LEN env then .fault .buffer_overrun
      else
        let value := (List.range len).foldl (fun value i => value.set i (array.getD i 0))
          env.uninit_value
        .done b [.server (.send_response conn_id trans_id status
          { handle := jintToU16 handle, auth_req := jintToU8 auth_req,
            offset := jintToU16 offset, len := len, value := value })] 0

/-- Source: `gattTestNative`. -/
def gattTestNative (b : Bridge) (env : Env) (command : Int) (uuid1_lsb uuid1_msb : Int)
    (bda1 : Option (List Char)) (p1 p2 p3 p4 p5 : Int) : Result :=
  if b.sGattIf.isNone then .done b [] 0
  else
    let bt_bda1 := jstr2bdaddr env env.uninit_bda bda1
    let uuid1 := set_uuid env.uninit_uuid uuid1_msb uuid1_lsb
    let params : TestParams :=
      { bda1 := bt_bda1, uuid1 := uuid1, u1 := p1, u2 := p2, u3 := p3, u4 := p4, u5 := p5 }
    .done b [.client (.test_command command params)] 0


/-- The arguments that `gattClientScanFilterAddNative` and
`gattClientScanFilterDeleteNative` share. -/
structure ScanFilterArgs where
  client_if : Int
  filt_type : Int
  filt_index : Int
  company_id : Int
  company_id_mask : Int
  uuid_lsb : Int
  uuid_msb : Int
  uuid_mask_lsb : Int
  uuid_mask_msb : Int
  name : Option (List Char)
  address : Option (List Char)
  addr_type : Int
  data : Option (List Nat)
  mask : Option (List Nat)
  deriving DecidableEq, Repr

/-- The arguments of `startAdvertiserNative`. -/
structure StartAdvertiserArgs where
  advertiser_id : Int
  advertising_event_properties : Int
  min_interval : Int
  max_interval : Int
  chnl_map : Int
  tx_power : Int
  primary_advertising_phy : Int
  secondary_advertising_phy : Int
  scan_request_notification_enable : Int
  adv_data : Option (List Nat)
  scan_resp : Option (List Nat)
  timeout_s : Int
  deriving DecidableEq, Repr

/-- An outward call: one of the native methods that `sMethods`, `sScanMethods` and
`sAdvertiseMethods` register, with its arguments. The three lifecycle methods
(`classInitNative`, `initializeNative`, `cleanupNative`) are not outward calls. -/
inductive NativeCall where
  | gattClientGetDeviceTypeNative (address : Option (List Char))
  | gattClientRegisterAppNative (app_uuid_lsb app_uuid_msb : Int)
  | gattClientUnregisterAppNative (clientIf : Int)
  | registerScannerNative (app_uuid_lsb app_uuid_msb : Int)
  | unregisterScannerNative (scanner_id : Int)
  | gattClientScanNative (start : Bool)
  | gattClientConnectNative (clientif : Int) (address : Option (List Char)) (isDirect : Bool)
      (transport : Int)
  | gattClientDisconnectNative (clientIf : Int) (address : Option (List Char)) (conn_id : Int)
  | gattClientRefreshNative (clientIf : Int) (address : Option (List Char))
  | gattClientSearchServiceNative (conn_id : Int) (search_all : Bool)
      (service_uuid_lsb service_uuid_msb : Int)
  | gattClientGetGattDbNative (conn_id : Int)
  | gattClientReadCharacteristicNative (conn_id handle authReq : Int)
  | gattClientReadDescriptorNative (conn_id handle authReq : Int)
  | gattClientWriteCharacteristicNative (conn_id handle write_type auth_req : Int)
      (value : Option (List Nat))
  | gattClientExecuteWriteNative (conn_id : Int) (execute : Bool)
  | gattClientWriteDescriptorNative (conn_id handle auth_req : Int) (value : Option (List Nat))
  | gattClientRegisterForNotificationsNative (clientIf : Int) (address : Option (List Char))
      (handle : Int) (enable : Bool)
  | gattClientReadRemoteRssiNative (clientif : Int) (address : Option (List Char))
  | gattSetScanParametersNative (client_if scan_interval_unit scan_window_unit : Int)
  | gattClientScanFilterParamAddNative (params : Option JFilterParams)
  | gattClientScanFilterParamDeleteNative (client_if filt_index : Int)
  | gattClientScanFilterParamClearAllNative (client_if : Int)
  | gattClientScanFilterAddNative (args : ScanFilterArgs)
  | gattClientScanFilterDeleteNative (args : ScanFilterArgs)
  | gattClientScanFilterClearNative (client_if filt_index : Int)
  | gattClientScanFilterEnableNative (client_if : Int) (enable : Bool)
  | gattClientConfigureMTUNative (conn_id mtu : Int)
  | gattConnectionParameterUpdateNative (client_if : Int) (address : Option (List Char))
      (min_interval max_interval latency timeout : Int)
  | registerAdvertiserNative (app_uuid_lsb app_uuid_msb : Int)
  | startAdvertiserNative (args : StartAdvertiserArgs)
  | unregisterAdvertiserNative (advertiser_id : Int)
  | gattClientEnableAdvNative (advertiser_id : Int) (enable : Bool) (timeout_s : Int)
  | gattClientConfigBatchScanStorageNative (client_if max_full_reports_percent
      max_trunc_reports_percent notify_threshold_level_percent : Int)
  | gattClientStartBatchScanNative (client_if scan_mode scan_interval_unit scan_window_unit
      addr_type discard_rule : Int)
  | gattClientStopBatchScanNative (client_if : Int)
  | gattClientReadScanReportsNative (client_if scan_type : Int)
  | gattServerRegisterAppNative (app_uuid_lsb app_uuid_msb : Int)
  | gattServerUnregisterAppNative (serverIf : Int)
  | gattServerConnectNative (server_if : Int) (address : Option (List Char)) (is_direct : Bool)
      (transport : Int)
  | gattServerDisconnectNative (serverIf : Int) (address : Option (List Char)) (conn_id : Int)
  | gattServerAddServiceNative (server_if : Int)
      (gatt_db_elements : Option (List JGattDbElement))
  | gattServerStopServiceNative (server_if svc_handle : Int)
  | gattServerDeleteServiceNative (server_if svc_handle : Int)
  | gattServerSendIndicationNative (server_if attr_handle conn_id : Int)
      (val : Option (List Nat))
  | gattServerSendNotificationNative (server_if attr_handle conn_id : Int)
      (val : Option (List Nat))
  | gattServerSendResponseNative (server_if conn_id trans_id status handle offset : Int)
      (val : Option (List Nat)) (auth_req : Int)
  | gattTestNative (command : Int) (uuid1_lsb uuid1_msb : Int) (bda1 : Option (List Char))
      (p1 p2 p3 p4 p5 : Int)

/-- The native function behind each outward call (the tables `sMethods`, `sScanMethods`
and `sAdvertiseMethods`). -/
def NativeCall.run (b : Bridge) (env : Env) : NativeCall → Result
  | .gattClientGetDeviceTypeNative address => GattJni.gattClientGetDeviceTypeNative b env address
  | .gattClientRegisterAppNative l m => GattJni.gattClientRegisterAppNative b env l m
  | .gattClientUnregisterAppNative clientIf => GattJni.gattClientUnregisterAppNative b env clientIf
  | .registerScannerNative l m => GattJni.registerScannerNative b env l m
  | .unregisterScannerNative scanner_id => GattJni.unregisterScannerNative b env scanner_id
  | .gattClientScanNative start => GattJni.gattClientScanNative b env start
  | .gattClientConnectNative clientif address isDirect transport =>
    GattJni.gattClientConnectNative b env clientif address isDirect transport
  | .gattClientDisconnectNative clientIf address conn_id =>
    GattJni.gattClientDisconnectNative b env clientIf address conn_id
  | .gattClientRefreshNative clientIf address =>
    GattJni.gattClientRefreshNative b env clientIf address
  | .gattClientSearchServiceNative conn_id search_all l m =>
    GattJni.gattClientSearchServiceNative b env conn_id search_all l m
  | .gattClientGetGattDbNative conn_id => GattJni.gattClientGetGattDbNative b env conn_id
  | .gattClientReadCharacteristicNative conn_id handle authReq =>
    GattJni.gattClientReadCharacteristicNative b env conn_id handle authReq
  | .gattClientReadDescriptorNative conn_id handle authReq =>
    GattJni.gattClientReadDescriptorNative b env conn_id handle authReq
  | .gattClientWriteCharacteristicNative conn_id handle write_type auth_req value =>
    GattJni.gattClientWriteCharacteristicNative b env conn_id handle write_type auth_req value
  | .gattClientExecuteWriteNative conn_id execute =>
    GattJni.gattClientExecuteWriteNative b env conn_id execute
  | .gattClientWriteDescriptorNative conn_id handle auth_req value =>
    GattJni.gattClientWriteDescriptorNative b env conn_id handle auth_req value
  | .gattClientRegisterForNotificationsNative clientIf address handle enable =>
    GattJni.gattClientRegisterForNotificationsNative b env clientIf address handle enable
  | .gattClientReadRemoteRssiNative clientif address =>
    GattJni.gattClientReadRemoteRssiNative b env clientif address
  | .gattSetScanParametersNative client_if i w =>
    GattJni.gattSetScanParametersNative b env client_if i w
  | .gattClientScanFilterParamAddNative params =>
    GattJni.gattClientScanFilterParamAddNative b env params
  | .gattClientScanFilterParamDeleteNative client_if filt_index =>
    GattJni.gattClientScanFilterParamDeleteNative b env client_if filt_index
  | .gattClientScanFilterParamClearAllNative client_if =>
    GattJni.gattClientScanFilterParamClearAllNative b env client_if
  | .gattClientScanFilterAddNative a =>
    GattJni.gattClientScanFilterAddNative b env a.client_if a.filt_type a.filt_index
      a.company_id a.company_id_mask a.uuid_lsb a.uuid_msb a.uuid_mask_lsb a.uuid_mask_msb
      a.name a.address a.addr_type a.data a.mask
  | .gattClientScanFilterDeleteNative a =>
    GattJni.gattClientScanFilterDeleteNative b env a.client_if a.filt_type a.filt_index
      a.company_id a.company_id_mask a.uuid_lsb a.uuid_msb a.uuid_mask_lsb a.uuid_mask_msb
      a.name a.address a.addr_type a.data a.mask
  | .gattClientScanFilterClearNative client_if filt_index =>
    GattJni.gattClientScanFilterClearNative b env client_if filt_index
  | .gattClientScanFilterEnableNative client_if enable =>
    GattJni.gattClientScanFilterEnableNative b env client_if enable
  | .gattClientConfigureMTUNative conn_id mtu =>
    GattJni.gattClientConfigureMTUNative b env conn_id mtu
  | .gattConnectionParameterUpdateNative client_if address mn mx latency timeout =>
    GattJni.gattConnectionParameterUpdateNative b env client_if address mn mx latency timeout
  | .registerAdvertiserNative l m => GattJni.registerAdvertiserNative b env l m
  | .startAdvertiserNative a =>
    GattJni.startAdvertiserNative b env a.advertiser_id a.advertising_event_properties
      a.min_interval a.max_interval a.chnl_map a.tx_power a.primary_advertising_phy
      a.secondary_advertising_phy a.scan_request_notification_enable a.adv_data a.scan_resp
      a.timeout_s
  | .unregisterAdvertiserNative advertiser_id =>
    GattJni.unregisterAdvertiserNative b env advertiser_id
  | .gattClientEnableAdvNative advertiser_id enable timeout_s =>
    GattJni.gattClientEnableAdvNative b env advertiser_id enable timeout_s
  | .gattClientConfigBatchScanStorageNative client_if f t n =>
    GattJni.gattClientConfigBatchScanStorageNative b env client_if f t n
  | .gattClientStartBatchScanNative client_if scan_mode i w addr_type discard_rule =>
    GattJni.gattClientStartBatchScanNative b env client_if scan_mode i w addr_type discard_rule
  | .gattClientStopBatchScanNative client_if =>
    GattJni.gattClientStopBatchScanNative b env client_if
  | .gattClientReadScanReportsNative client_if scan_type =>
    GattJni.gattClientReadScanReportsNative b env client_if scan_type
  | .gattServerRegisterAppNative l m => GattJni.gattServerRegisterAppNative b env l m
  | .gattServerUnregisterAppNative serverIf =>
    GattJni.gattServerUnregisterAppNative b env serverIf
  | .gattServerConnectNative server_if address is_direct transport =>
    GattJni.gattServerConnectNative b env server_if address is_direct transport
  | .gattServerDisconnectNative serverIf address conn_id =>
    GattJni.gattServerDisconnectNative b env serverIf address conn_id
  | .gattServerAddServiceNative server_if gatt_db_elements =>
    GattJni.gattServerAddServiceNative b env server_if gatt_db_elements
  | .gattServerStopServiceNative server_if svc_handle =>
    GattJni.gattServerStopServiceNative b env server_if svc_handle
  | .gattServerDeleteServiceNative server_if svc_handle =>
    GattJni.gattServerDeleteServiceNative b env server_if svc_handle
  | .gattServerSendIndicationNative server_if attr_handle conn_id val =>
    GattJni.gattServerSendIndicationNative b env server_if attr_handle conn_id val
  | .gattServerSendNotificationNative server_if attr_handle conn_id val =>
    GattJni.gattServerSendNotificationNative b env server_if attr_handle conn_id val
  | .gattServerSendResponseNative server_if conn_id trans_id status handle offset val auth_req =>
    GattJni.gattServerSendResponseNative b env server_if conn_id trans_id status handle offset
      val auth_req
  | .gattTestNative command l m bda1 p1 p2 p3 p4 p5 =>
    GattJni.gattTestNative b env command l m bda1 p1 p2 p3 p4 p5

/-- A sample live bridge: all three references installed. -/
def Bridge.sample : Bridge := { btIf := some 1, sGattIf := some 2, mCallbacksObj := some 3 }


/-! ## Stack callbacks (the callback router) -/

/-- The JNI side of a stack callback (`CallbackEnv sCallbackEnv(__func__)`): the answer of
`sCallbackEnv.valid()`, and the object that the Java constructor of `GattDbElement`
builds, by its fields. -/
structure CallbackEnv where
  valid : Bool
  new_GattDbElement : JGattDbElement
  /-- whether the Java method `CreateonTrackAdvFoundLostObject` returns an object (not
  null) -/
  trackadv_obj_created : Bool := true

/-- The stack's `btgatt_unformatted_value_t`: the cells of the array `value` and the
length `len`. -/
structure UnformattedValue where
  value : List Nat
  len : Nat
  deriving DecidableEq, Repr

/-- The stack's `btgatt_read_params_t`, by the fields the callbacks read. -/
structure ReadParams where
  handle : Int
  value : UnformattedValue
  deriving DecidableEq, Repr

/-- The arguments of the Java method `CreateonTrackAdvFoundLostObject`; the object it
builds is taken by these arguments. -/
structure TrackAdvArgs where
  client_if : Int
  adv_pkt_len : Int
  jb_adv_pkt : List Nat
  scan_rsp_len : Int
  jb_scan_rsp : List Nat
  filt_index : Int
  advertiser_state : Int
  advertiser_info_present : Int
  address : List Char
  addr_type : Int
  tx_power : Int
  rssi_value : Int
  time_stamp : Int
  deriving DecidableEq, Repr

set_option maxHeartbeats 4000000 in
/-- A notification to the consumer: the Java method called on `mCallbacksObj`, with its
arguments. -/
inductive Event where
  | onReadCharacteristic (conn_id status handle : Int) (data : List Nat)
  | onReadDescriptor (conn_id status handle : Int) (data : List Nat)
  | onGetGattDb (conn_id : Int) (db : List JGattDbElement)
  | onServiceAdded (status server_if : Int) (service : List JGattDbElement)
  | onClientRegistered (status clientIf : Int) (uuid_lsb uuid_msb : Int)
  | onScannerRegistered (status scannerId : Int) (uuid_lsb uuid_msb : Int)
  | onScanResult (address : List Char) (rssi : Int) (adv_data : List Nat)
  | onConnected (clientIf conn_id status : Int) (address : List Char)
  | onDisconnected (clientIf conn_id status : Int) (address : List Char)
  | onSearchCompleted (conn_id status : Int)
  | onRegisterForNotifications (conn_id status registered handle : Int)
  | onNotify (conn_id : Int) (address : List Char) (handle : Int) (isNotify : Bool)
      (data : List Nat)
  | onWriteCharacteristic (conn_id status handle : Int)
  | onExecuteCompleted (conn_id status : Int)
  | onWriteDescriptor (conn_id status handle : Int)
  | onReadRemoteRssi (client_if : Int) (address : List Char) (rssi status : Int)
  | onConfigureMTU (conn_id status mtu : Int)
  | onScanFilterConfig (action status client_if filt_type avbl_space : Int)
  | onScanFilterParamsConfigured (action status client_if avbl_space : Int)
  | onScanFilterEnableDisabled (action status client_if : Int)
  | onClientCongestion (conn_id : Int) (congested : Bool)
  | onBatchScanStorageConfigured (status client_if : Int)
  | onBatchScanStartStopped (startstop_action status client_if : Int)
  | onBatchScanReports (status client_if report_format num_records : Int) (data : List Nat)
  | onBatchScanThresholdCrossed (client_if : Int)
  | CreateonTrackAdvFoundLostObject (args : TrackAdvArgs)
  | onTrackAdvFoundLost (trackadv_obj : TrackAdvArgs)
  | onScanParamSetupCompleted (status client_if : Int)
  | onAdvertiserRegistered (status advertiser_id : Int) (uuid_lsb uuid_msb : Int)
  | onMultiAdvEnable (status advertiser_id : Int) (enable : Bool)
  | onAdvertiserStarted (status advertiser_id : Int)
  | onServerRegistered (status server_if : Int) (uuid_lsb uuid_msb : Int)
  | onClientConnected (address : List Char) (connected conn_id server_if : Int)
  | onServiceStopped (status server_if srvc_handle : Int)
  | onServiceDeleted (status server_if srvc_handle : Int)
  | onServerReadCharacteristic (address : List Char) (conn_id trans_id attr_handle
      offset : Int) (is_long : Bool)
  | onServerReadDescriptor (address : List Char) (conn_id trans_id attr_handle
      offset : Int) (is_long : Bool)
  | onServerWriteCharacteristic (address : List Char) (conn_id trans_id attr_handle offset
      length : Int) (need_rsp is_prep : Bool) (value : List Nat)
  | onServerWriteDescriptor (address : List Char) (conn_id trans_id attr_handle offset
      length : Int) (need_rsp is_prep : Bool) (value : List Nat)
  | onExecuteWrite (address : List Char) (conn_id trans_id exec_write : Int)
  | onResponseSendCompleted (status handle : Int)
  | onNotificationSent (conn_id status : Int)
  | onServerCongestion (conn_id : Int) (congested : Bool)
  | onServerMtuChanged (conn_id mtu : Int)
  deriving DecidableEq, Repr

/-- What a stack callback does: it returns without a notification (`dropped`), it calls
one method on the delivery sink `sink` (`delivered`) or two in a row (`deliveredBoth`), or
it runs into undefined behaviour (`fault`). -/
inductive CbResult where
  | dropped
  | delivered (sink : Nat) (event : Event)
  | fault (f : Fault)
  | deliveredBoth (sink : Nat) (first second : Event)
  deriving DecidableEq, Repr

/-- JNI `NewByteArray(n)`: a new Java byte array of `n` zero bytes. -/
def NewByteArray (n : Nat) : List Nat := List.replicate n 0

/-- JNI `SetByteArrayRegion(array, start, len, buf)`: copies `buf[0 .. len)` into
`array[start .. start + len)`. -/
def SetByteArrayRegion (array : List Nat) (start len : Nat) (buf : List Nat) : List Nat :=
  (List.range len).foldl (fun array i => array.set (start + i) (buf.getD i 0)) array

/-- The call `sCallbackEnv->CallVoidMethod(mCallbacksObj, method, args..)`: the event goes
to the object `mCallbacksObj` refers to; the reference is not tested. -/
def CallVoidMethod (b : Bridge) (event : Event) : CbResult :=
  match b.mCallbacksObj with
  | some sink => .delivered sink event
  | none => .fault .null_reference

/-- Source: `btgattc_read_characteristic_cb`. -/
def btgattc_read_characteristic_cb (b : Bridge) (sCallbackEnv : CallbackEnv)
    (conn_id status : Int) (p_data : ReadParams) : CbResult :=
  if !sCallbackEnv.valid then .dropped
  else
    let jb :=
      if status = 0 then
        SetByteArrayRegion (NewByteArray p_data.value.len) 0 p_data.value.len
          p_data.value.value
      else
        let value : Nat := 0
        SetByteArrayRegion (NewByteArray 1) 0 1 [value]
    CallVoidMethod b (.onReadCharacteristic conn_id status p_data.handle jb)

/-- Source: `btgattc_read_descriptor_cb`. -/
def btgattc_read_descriptor_cb (b : Bridge) (sCallbackEnv : CallbackEnv)
    (conn_id status : Int) (p_data : ReadParams) : CbResult :=
  if !sCallbackEnv.valid then .dropped
  else
    let jb :=
      if p_data.value.len ≠ 0 then
        SetByteArrayRegion (NewByteArray p_data.value.len) 0 p_data.value.len
          p_data.value.value
      else
        NewByteArray 1
    CallVoidMethod b (.onReadDescriptor conn_id status p_data.handle jb)

/-- The body of the `for` loop of `fillGattDbElementArray` for the element `curr`: a new
`GattDbElement` with the fields `id`, `attributeHandle`, `uuid`, `type`, `attributeHandle`
(again), `startHandle`, `endHandle` and `properties` set, in this order. -/
def fillElement (sCallbackEnv : CallbackEnv) (curr : DbElement) : JGattDbElement :=
  let element := sCallbackEnv.new_GattDbElement
  let element := { element with id := curr.id }
  let element := { element with attributeHandle := curr.attribute_handle }
  let uuid : JUuid := { msb := toJlong (uuid_msb curr.uuid), lsb := toJlong (uuid_lsb curr.uuid) }
  let element := { element with uuid := some uuid }
  let element := { element with type := curr.type }
  let element := { element with attributeHandle := curr.attribute_handle }
  let element := { element with startHandle := curr.start_handle }
  let element := { element with endHandle := curr.end_handle }
  let element := { element with properties := curr.properties }
  element

/-- The `for (i = 0; i < count; i++)` loop of `fillGattDbElementArray`, from index `i` on,
with `n` iterations left: element `db[i]` is decoded and added at the end of `array`. -/
def fillLoop (sCallbackEnv : CallbackEnv) (db : List DbElement) :
    Nat → Nat → List JGattDbElement → Except Fault (List JGattDbElement)
  | 0, _, array => .ok array
  | n + 1, i, array =>
    match db.get? i with
    | none => .error .buffer_overrun
    | some curr => fillLoop sCallbackEnv db n (i + 1) (array ++ [fillElement sCallbackEnv curr])

/-- Source: `fillGattDbElementArray(env, array, db, count)`. The result is the Java list
`array` after the call. The class of the elements is looked up through `mCallbacksObj`,
which is not tested. -/
def fillGattDbElementArray (b : Bridge) (sCallbackEnv : CallbackEnv)
    (array : List JGattDbElement) (db : List DbElement) (count : Nat) :
    Except Fault (List JGattDbElement) :=
  match b.mCallbacksObj with
  | none => .error .null_reference
  | some _ => fillLoop sCallbackEnv db count 0 array

/-- Source: `btgattc_get_gatt_db_cb(conn_id, db, count)`. -/
def btgattc_get_gatt_db_cb (b : Bridge) (sCallbackEnv : CallbackEnv) (conn_id : Int)
    (db : List DbElement) (count : Nat) : CbResult :=
  if !sCallbackEnv.valid then .dropped
  else
    match fillGattDbElementArray b sCallbackEnv [] db count with
    | .ok array => CallVoidMethod b (.onGetGattDb conn_id array)
    | .error f => .fault f

/-- Source: `btgatts_service_added_cb(status, server_if, service)`; `service` is a vector,
its element count is `service.size()`. -/
def btgatts_service_added_cb (b : Bridge) (sCallbackEnv : CallbackEnv) (status server_if : Int)
    (service : List DbElement) : CbResult :=
  if !sCallbackEnv.valid then .dropped
  else
    match fillGattDbElementArray b sCallbackEnv [] service service.length with
    | .ok array => CallVoidMethod b (.onServiceAdded status server_if array)
    | .error f => .fault f

/-- A sample callback environment: the callback thread is attached, and a new
`GattDbElement` has all fields zero and no UUID. -/
def CallbackEnv.sample : CallbackEnv :=
  { valid := true
    new_GattDbElement :=
      { id := 0, uuid := none, type := 0, attributeHandle := 0, startHandle := 0,
        endHandle := 0, properties := 0, permissions := 0 } }

/-! ## Comparing the calls of two native functions -/

/-- The call with the `action` argument of a `ScanFilterAddRemove` replaced. -/
def ScannerCall.withAction (action : Int) : ScannerCall → ScannerCall
  | .ScanFilterAddRemove client_if _ filt_type filt_index company_id company_id_mask p_uuid
      p_uuid_mask bd_addr addr_type data mask =>
    .ScanFilterAddRemove client_if action filt_type filt_index company_id company_id_mask
      p_uuid p_uuid_mask bd_addr addr_type data mask
  | c => c

/-- The stack call with the `action` argument of a `ScanFilterAddRemove` replaced; any
other call is left as it is. -/
def StackCall.withAction (action : Int) : StackCall → StackCall
  | .scanner c => .scanner (c.withAction action)
  | c => c

/-- The `action` argument of a stack call that is a `ScanFilterAddRemove`. -/
def StackCall.filterAction : StackCall → Option Int
  | .scanner (.ScanFilterAddRemove _ action _ _ _ _ _ _ _ _ _ _) => some action
  | _ => none

/-- The stack calls a native function made (none when it faulted). -/
def Result.calls : Result → List StackCall
  | .done _ calls _ => calls
  | .fault _ => []

/-- The result with every stack call mapped through `f`. -/
def Result.mapCalls (f : StackCall → StackCall) : Result → Result
  | .done b calls ret => .done b (calls.map f) ret
  | .fault e => .fault e

/-- A well-formed attribute-table row: its UUID is present and both halves are `jlong`
values. -/
def IsRow (r : JGattDbElement) : Prop :=
  ∃ u : JUuid, r.uuid = some u ∧ IsJlong u.msb ∧ IsJlong u.lsb

/-- The numeric fields of a row that `fillGattDbElementArray` reads back are kept by the
`uint16_t` and `uint8_t` fields of `btgatt_db_element_t`. -/
def FitsElement (r : JGattDbElement) : Prop :=
  jintToU16 r.id = r.id ∧ jintToU16 r.attributeHandle = r.attributeHandle ∧
  jintToU16 r.startHandle = r.startHandle ∧ jintToU16 r.endHandle = r.endHandle ∧
  jintToU8 r.properties = r.properties

/-- A sample attribute-table row, with a permissions field that is not zero. -/
def JGattDbElement.sample : JGattDbElement :=
  { id := 1, uuid := some { msb := 0x0102030405060708, lsb := 0x0a0b0c0d0e0f1011 }, type := 3,
    attributeHandle := 4, startHandle := 5, endHandle := 6, properties := 7,
    permissions := 17 }

/-! ## Stack callbacks: the remaining client, scanner, advertiser and server callbacks -/

/-- The stack's `btgatt_notify_params_t`. -/
structure NotifyParams where
  value : List Nat
  bda : List Nat
  handle : Int
  len : Nat
  is_notify : Bool
  deriving DecidableEq, Repr

/-- The stack's `btgatt_track_adv_info_t`. -/
structure TrackAdvInfo where
  client_if : Int
  filt_index : Int
  advertiser_state : Int
  advertiser_info_present : Int
  addr_type : Int
  tx_power : Int
  rssi_value : Int
  time_stamp : Int
  bd_addr : List Nat
  adv_pkt_len : Nat
  p_adv_pkt_data : List Nat
  scan_rsp_len : Nat
  p_scan_rsp_data : List Nat
  deriving DecidableEq, Repr

/-- Source: `btgattc_register_app_cb`; `UUID_PARAMS(app_uuid)` is `uuid_lsb(app_uuid),
uuid_msb(app_uuid)`, received by the Java method as two `long`s. -/
def btgattc_register_app_cb (b : Bridge) (sCallbackEnv : CallbackEnv) (status clientIf : Int)
    (app_uuid : List Nat) : CbResult :=
  if !sCallbackEnv.valid then .dropped
  else CallVoidMethod b (.onClientRegistered status clientIf
    (toJlong (uuid_lsb app_uuid)) (toJlong (uuid_msb app_uuid)))

/-- Source: `btgattc_scan_result_cb`: 62 bytes are copied from `adv_data.data()`. -/
def btgattc_scan_result_cb (b : Bridge) (sCallbackEnv : CallbackEnv) (bda : List Nat)
    (rssi : Int) (adv_data : List Nat) : CbResult :=
  if !sCallbackEnv.valid then .dropped
  else if adv_data.length < 62 then .fault .buffer_overrun
  else
    let address := bdaddr2newjstr bda
    let jb := SetByteArrayRegion (NewByteArray 62) 0 62 adv_data
    CallVoidMethod b (.onScanResult address rssi jb)

/-- Source: `btgattc_open_cb`. -/
def btgattc_open_cb (b : Bridge) (sCallbackEnv : CallbackEnv) (conn_id status clientIf : Int)
    (bda : List Nat) : CbResult :=
  if !sCallbackEnv.valid then .dropped
  else CallVoidMethod b (.onConnected clientIf conn_id status (bdaddr2newjstr bda))

/-- Source: `btgattc_close_cb`. -/
def btgattc_close_cb (b : Bridge) (sCallbackEnv : CallbackEnv) (conn_id status clientIf : Int)
    (bda : List Nat) : CbResult :=
  if !sCallbackEnv.valid then .dropped
  else CallVoidMethod b (.onDisconnected clientIf conn_id status (bdaddr2newjstr bda))

/-- Source: `btgattc_search_complete_cb`. -/
def btgattc_search_complete_cb (b : Bridge) (sCallbackEnv : CallbackEnv)
    (conn_id status : Int) : CbResult :=
  if !sCallbackEnv.valid then .dropped
  else CallVoidMethod b (.onSearchCompleted conn_id status)

/-- Source: `btgattc_register_for_notification_cb`. -/
def btgattc_register_for_notification_cb (b : Bridge) (sCallbackEnv : CallbackEnv)
    (conn_id registered status handle : Int) : CbResult :=
  if !sCallbackEnv.valid then .dropped
  else CallVoidMethod b (.onRegisterForNotifications conn_id status registered handle)

/-- Source: `btgattc_notify_cb`. -/
def btgattc_notify_cb (b : Bridge) (sCallbackEnv : CallbackEnv) (conn_id : Int)
    (p_data : NotifyParams) : CbResult :=
  if !sCallbackEnv.valid then .dropped
  else
    let address := bdaddr2newjstr p_data.bda
    let jb := SetByteArrayRegion (NewByteArray p_data.len) 0 p_data.len p_data.value
    CallVoidMethod b (.onNotify conn_id address p_data.handle p_data.is_notify jb)

/-- Source: `btgattc_write_characteristic_cb`. -/
def btgattc_write_characteristic_cb (b : Bridge) (sCallbackEnv : CallbackEnv)
    (conn_id status handle : Int) : CbResult :=
  if !sCallbackEnv.valid then .dropped
  else CallVoidMethod b (.onWriteCharacteristic conn_id status handle)

/-- Source: `btgattc_execute_write_cb`. -/
def btgattc_execute_write_cb (b : Bridge) (sCallbackEnv : CallbackEnv)
    (conn_id status : Int) : CbResult :=
  if !sCallbackEnv.valid then .dropped
  else CallVoidMethod b (.onExecuteCompleted conn_id status)

/-- Source: `btgattc_write_descriptor_cb`. -/
def btgattc_write_descriptor_cb (b : Bridge) (sCallbackEnv : CallbackEnv)
    (conn_id status handle : Int) : CbResult :=
  if !sCallbackEnv.valid then .dropped
  else CallVoidMethod b (.onWriteDescriptor conn_id status handle)

/-- Source: `btgattc_remote_rssi_cb`. -/
def btgattc_remote_rssi_cb (b : Bridge) (sCallbackEnv : CallbackEnv) (client_if : Int)
    (bda : List Nat) (rssi status : Int) : CbResult :=
  if !sCallbackEnv.valid then .dropped
  else CallVoidMethod b (.onReadRemoteRssi client_if (bdaddr2newjstr bda) rssi status)

/-- Source: `btgattc_configure_mtu_cb`. -/
def btgattc_configure_mtu_cb (b : Bridge) (sCallbackEnv : CallbackEnv)
    (conn_id status mtu : Int) : CbResult :=
  if !sCallbackEnv.valid then .dropped
  else CallVoidMethod b (.onConfigureMTU conn_id status mtu)

/-- Source: `btgattc_scan_filter_cfg_cb`. -/
def btgattc_scan_filter_cfg_cb (b : Bridge) (sCallbackEnv : CallbackEnv)
    (action client_if status filt_type avbl_space : Int) : CbResult :=
  if !sCallbackEnv.valid then .dropped
  else CallVoidMethod b (.onScanFilterConfig action status client_if filt_type avbl_space)

/-- Source: `btgattc_scan_filter_param_cb`. -/
def btgattc_scan_filter_param_cb (b : Bridge) (sCallbackEnv : CallbackEnv)
    (action client_if status avbl_space : Int) : CbResult :=
  if !sCallbackEnv.valid then .dropped
  else CallVoidMethod b (.onScanFilterParamsConfigured action status client_if avbl_space)

/-- Source: `btgattc_scan_filter_status_cb`. -/
def btgattc_scan_filter_status_cb (b : Bridge) (sCallbackEnv : CallbackEnv)
    (action client_if status : Int) : CbResult :=
  if !sCallbackEnv.valid then .dropped
  else CallVoidMethod b (.onScanFilterEnableDisabled action status client_if)

/-- Source: `btgattc_congestion_cb`. -/
def btgattc_congestion_cb (b : Bridge) (sCallbackEnv : CallbackEnv) (conn_id : Int)
    (congested : Bool) : CbResult :=
  if !sCallbackEnv.valid then .dropped
  else CallVoidMethod b (.onClientCongestion conn_id congested)

/-- Source: `btgattc_batchscan_cfg_storage_cb`. -/
def btgattc_batchscan_cfg_storage_cb (b : Bridge) (sCallbackEnv : CallbackEnv)
    (client_if status : Int) : CbResult :=
  if !sCallbackEnv.valid then .dropped
  else CallVoidMethod b (.onBatchScanStorageConfigured status client_if)

/-- Source: `btgattc_batchscan_startstop_cb`. -/
def btgattc_batchscan_startstop_cb (b : Bridge) (sCallbackEnv : CallbackEnv)
    (startstop_action client_if status : Int) : CbResult :=
  if !sCallbackEnv.valid then .dropped
  else CallVoidMethod b (.onBatchScanStartStopped startstop_action status client_if)

/-- Source: `btgattc_batchscan_reports_cb`. -/
def btgattc_batchscan_reports_cb (b : Bridge) (sCallbackEnv : CallbackEnv)
    (client_if status report_format num_records : Int) (data : List Nat) : CbResult :=
  if !sCallbackEnv.valid then .dropped
  else
    let jb := SetByteArrayRegion (NewByteArray data.length) 0 data.length data
    CallVoidMethod b (.onBatchScanReports status client_if report_format num_records jb)

/-- Source: `btgattc_batchscan_threshold_cb`. -/
def btgattc_batchscan_threshold_cb (b : Bridge) (sCallbackEnv : CallbackEnv)
    (client_if : Int) : CbResult :=
  if !sCallbackEnv.valid then .dropped
  else CallVoidMethod b (.onBatchScanThresholdCrossed client_if)

/-- Source: `btgattc_track_adv_event_cb`: the Java object is built by a first call on
`mCallbacksObj`, and passed to `onTrackAdvFoundLost` when it is not null. -/
def btgattc_track_adv_event_cb (b : Bridge) (sCallbackEnv : CallbackEnv)
    (p_adv_track_info : TrackAdvInfo) : CbResult :=
  if !sCallbackEnv.valid then .dropped
  else
    let address := bdaddr2newjstr p_adv_track_info.bd_addr
    let jb_adv_pkt := SetByteArrayRegion (NewByteArray p_adv_track_info.adv_pkt_len) 0
      p_adv_track_info.adv_pkt_len p_adv_track_info.p_adv_pkt_data
    let jb_scan_rsp := SetByteArrayRegion (NewByteArray p_adv_track_info.scan_rsp_len) 0
      p_adv_track_info.scan_rsp_len p_adv_track_info.p_scan_rsp_data
    let args : TrackAdvArgs :=
      { client_if := p_adv_track_info.client_if
        adv_pkt_len := p_adv_track_info.adv_pkt_len
        jb_adv_pkt := jb_adv_pkt
        scan_rsp_len := p_adv_track_info.scan_rsp_len
        jb_scan_rsp := jb_scan_rsp
        filt_index := p_adv_track_info.filt_index
        advertiser_state := p_adv_track_info.advertiser_state
        advertiser_info_present := p_adv_track_info.advertiser_info_present
        address := address
        addr_type := p_adv_track_info.addr_type
        tx_power := p_adv_track_info.tx_power
        rssi_value := p_adv_track_info.rssi_value
        time_stamp := p_adv_track_info.time_stamp }
    match b.mCallbacksObj with
    | none => .fault .null_reference
    | some sink =>
      if sCallbackEnv.trackadv_obj_created then
        .deliveredBoth sink (.CreateonTrackAdvFoundLostObject args) (.onTrackAdvFoundLost args)
      else .delivered sink (.CreateonTrackAdvFoundLostObject args)

/-- Source: `btgattc_scan_parameter_setup_completed_cb`. -/
def btgattc_scan_parameter_setup_completed_cb (b : Bridge) (sCallbackEnv : CallbackEnv)
    (client_if status : Int) : CbResult :=
  if !sCallbackEnv.valid then .dropped
  else CallVoidMethod b (.onScanParamSetupCompleted status client_if)

/-- Source: `btgattc_register_scanner_cb(app_uuid, scannerId, status)`. -/
def btgattc_register_scanner_cb (b : Bridge) (sCallbackEnv : CallbackEnv)
    (app_uuid : List Nat) (scannerId status : Int) : CbResult :=
  if !sCallbackEnv.valid then .dropped
  else CallVoidMethod b (.onScannerRegistered status scannerId
    (toJlong (uuid_lsb app_uuid)) (toJlong (uuid_msb app_uuid)))

/-- Source: `ble_advertiser_register_cb(uuid, advertiser_id, status)`. -/
def ble_advertiser_register_cb (b : Bridge) (sCallbackEnv : CallbackEnv)
    (uuid : List Nat) (advertiser_id status : Int) : CbResult :=
  if !sCallbackEnv.valid then .dropped
  else CallVoidMethod b (.onAdvertiserRegistered status advertiser_id
    (toJlong (uuid_lsb uuid)) (toJlong (uuid_msb uuid)))

/-- Source: `ble_advertiser_enable_cb(enable, advertiser_id, status)`. -/
def ble_advertiser_enable_cb (b : Bridge) (sCallbackEnv : CallbackEnv)
    (enable : Bool) (advertiser_id status : Int) : CbResult :=
  if !sCallbackEnv.valid then .dropped
  else CallVoidMethod b (.onMultiAdvEnable status advertiser_id enable)

/-- Source: `ble_advertiser_start_cb(advertiser_id, status)`. -/
def ble_advertiser_start_cb (b : Bridge) (sCallbackEnv : CallbackEnv)
    (advertiser_id status : Int) : CbResult :=
  if !sCallbackEnv.valid then .dropped
  else CallVoidMethod b (.onAdvertiserStarted status advertiser_id)


/-- Source: `btgatts_register_app_cb`. -/
def btgatts_register_app_cb (b : Bridge) (sCallbackEnv : CallbackEnv) (status server_if : Int)
    (uuid : List Nat) : CbResult :=
  if !sCallbackEnv.valid then .dropped
  else CallVoidMethod b (.onServerRegistered status server_if
    (toJlong (uuid_lsb uuid)) (toJlong (uuid_msb uuid)))

/-- Source: `btgatts_connection_cb`. -/
def btgatts_connection_cb (b : Bridge) (sCallbackEnv : CallbackEnv)
    (conn_id server_if connected : Int) (bda : List Nat) : CbResult :=
  if !sCallbackEnv.valid then .dropped
  else CallVoidMethod b (.onClientConnected (bdaddr2newjstr bda) connected conn_id server_if)

/-- Source: `btgatts_service_stopped_cb`. -/
def btgatts_service_stopped_cb (b : Bridge) (sCallbackEnv : CallbackEnv)
    (status server_if srvc_handle : Int) : CbResult :=
  if !sCallbackEnv.valid then .dropped
  else CallVoidMethod b (.onServiceStopped status server_if srvc_handle)

/-- Source: `btgatts_service_deleted_cb`. -/
def btgatts_service_deleted_cb (b : Bridge) (sCallbackEnv : CallbackEnv)
    (status server_if srvc_handle : Int) : CbResult :=
  if !sCallbackEnv.valid then .dropped
  else CallVoidMethod b (.onServiceDeleted status server_if srvc_handle)

/-- Source: `btgatts_request_read_characteristic_cb`. -/
def btgatts_request_read_characteristic_cb (b : Bridge) (sCallbackEnv : CallbackEnv)
    (conn_id trans_id : Int) (bda : List Nat) (attr_handle offset : Int) (is_long : Bool) :
    CbResult :=
  if !sCallbackEnv.valid then .dropped
  else CallVoidMethod b (.onServerReadCharacteristic (bdaddr2newjstr bda) conn_id trans_id
    attr_handle offset is_long)

/-- Source: `btgatts_request_read_descriptor_cb`. -/
def btgatts_request_read_descriptor_cb (b : Bridge) (sCallbackEnv : CallbackEnv)
    (conn_id trans_id : Int) (bda : List Nat) (attr_handle offset : Int) (is_long : Bool) :
    CbResult :=
  if !sCallbackEnv.valid then .dropped
  else CallVoidMethod b (.onServerReadDescriptor (bdaddr2newjstr bda) conn_id trans_id
    attr_handle offset is_long)

/-- Source: `btgatts_request_write_characteristic_cb` (`NewByteArray` is taken to
succeed). -/
def btgatts_request_write_characteristic_cb (b : Bridge) (sCallbackEnv : CallbackEnv)
    (conn_id trans_id : Int) (bda : List Nat) (attr_handle offset : Int)
    (need_rsp is_prep : Bool) (value : List Nat) : CbResult :=
  if !sCallbackEnv.valid then .dropped
  else
    let address := bdaddr2newjstr bda
    let val := SetByteArrayRegion (NewByteArray value.length) 0 value.length value
    CallVoidMethod b (.onServerWriteCharacteristic address conn_id trans_id attr_handle offset
      value.length need_rsp is_prep val)

/-- Source: `btgatts_request_write_descriptor_cb` (`NewByteArray` is taken to succeed). -/
def btgatts_request_write_descriptor_cb (b : Bridge) (sCallbackEnv : CallbackEnv)
    (conn_id trans_id : Int) (bda : List Nat) (attr_handle offset : Int)
    (need_rsp is_prep : Bool) (value : List Nat) : CbResult :=
  if !sCallbackEnv.valid then .dropped
  else
    let address := bdaddr2newjstr bda
    let val := SetByteArrayRegion (NewByteArray value.length) 0 value.length value
    CallVoidMethod b (.onServerWriteDescriptor address conn_id trans_id attr_handle offset
      value.length need_rsp is_prep val)

/-- Source: `btgatts_request_exec_write_cb`. -/
def btgatts_request_exec_write_cb (b : Bridge) (sCallbackEnv : CallbackEnv)
    (conn_id trans_id : Int) (bda : List Nat) (exec_write : Int) : CbResult :=
  if !sCallbackEnv.valid then .dropped
  else CallVoidMethod b (.onExecuteWrite (bdaddr2newjstr bda) conn_id trans_id exec_write)

/-- Source: `btgatts_response_confirmation_cb`. -/
def btgatts_response_confirmation_cb (b : Bridge) (sCallbackEnv : CallbackEnv)
    (status handle : Int) : CbResult :=
  if !sCallbackEnv.valid then .dropped
  else CallVoidMethod b (.onResponseSendCompleted status handle)

/-- Source: `btgatts_indication_sent_cb`. -/
def btgatts_indication_sent_cb (b : Bridge) (sCallbackEnv : CallbackEnv)
    (conn_id status : Int) : CbResult :=
  if !sCallbackEnv.valid then .dropped
  else CallVoidMethod b (.onNotificationSent conn_id status)

/-- Source: `btgatts_congestion_cb`. -/
def btgatts_congestion_cb (b : Bridge) (sCallbackEnv : CallbackEnv) (conn_id : Int)
    (congested : Bool) : CbResult :=
  if !sCallbackEnv.valid then .dropped
  else CallVoidMethod b (.onServerCongestion conn_id congested)

/-- Source: `btgatts_mtu_changed_cb`. -/
def btgatts_mtu_changed_cb (b : Bridge) (sCallbackEnv : CallbackEnv) (conn_id mtu : Int) :
    CbResult :=
  if !sCallbackEnv.valid then .dropped
  else CallVoidMethod b (.onServerMtuChanged conn_id mtu)

/-- A stack callback with its arguments: the entries of `sGattScannerCallbacks`,
`sGattClientCallbacks` and `sGattServerCallbacks`, and the four callbacks handed to the
stack through `base::Bind`. -/
inductive StackCallback where
  | btgattc_scan_result_cb (bda : List Nat) (rssi : Int) (adv_data : List Nat)
  | btgattc_batchscan_cfg_storage_cb (client_if status : Int)
  | btgattc_batchscan_startstop_cb (startstop_action client_if status : Int)
  | btgattc_batchscan_reports_cb (client_if status report_format num_records : Int)
      (data : List Nat)
  | btgattc_batchscan_threshold_cb (client_if : Int)
  | btgattc_track_adv_event_cb (p_adv_track_info : TrackAdvInfo)
  | btgattc_scan_parameter_setup_completed_cb (client_if status : Int)
  | btgattc_scan_filter_cfg_cb (action client_if status filt_type avbl_space : Int)
  | btgattc_scan_filter_param_cb (action client_if status avbl_space : Int)
  | btgattc_scan_filter_status_cb (action client_if status : Int)
  | btgattc_register_app_cb (status clientIf : Int) (app_uuid : List Nat)
  | btgattc_open_cb (conn_id status clientIf : Int) (bda : List Nat)
  | btgattc_close_cb (conn_id status clientIf : Int) (bda : List Nat)
  | btgattc_search_complete_cb (conn_id status : Int)
  | btgattc_register_for_notification_cb (conn_id registered status handle : Int)
  | btgattc_notify_cb (conn_id : Int) (p_data : NotifyParams)
  | btgattc_read_characteristic_cb (conn_id status : Int) (p_data : ReadParams)
  | btgattc_write_characteristic_cb (conn_id status handle : Int)
  | btgattc_read_descriptor_cb (conn_id status : Int) (p_data : ReadParams)
  | btgattc_write_descriptor_cb (conn_id status handle : Int)
  | btgattc_execute_write_cb (conn_id status : Int)
  | btgattc_remote_rssi_cb (client_if : Int) (bda : List Nat) (rssi status : Int)
  | btgattc_configure_mtu_cb (conn_id status mtu : Int)
  | btgattc_congestion_cb (conn_id : Int) (congested : Bool)
  | btgattc_get_gatt_db_cb (conn_id : Int) (db : List DbElement) (count : Nat)
  | btgattc_register_scanner_cb (app_uuid : List Nat) (scannerId status : Int)
  | ble_advertiser_register_cb (uuid : List Nat) (advertiser_id status : Int)
  | ble_advertiser_enable_cb (enable : Bool) (advertiser_id status : Int)
  | ble_advertiser_start_cb (advertiser_id status : Int)
  | btgatts_register_app_cb (status server_if : Int) (uuid : List Nat)
  | btgatts_connection_cb (conn_id server_if connected : Int) (bda : List Nat)
  | btgatts_service_added_cb (status server_if : Int) (service : List DbElement)
  | btgatts_service_stopped_cb (status server_if srvc_handle : Int)
  | btgatts_service_deleted_cb (status server_if srvc_handle : Int)
  | btgatts_request_read_characteristic_cb (conn_id trans_id : Int) (bda : List Nat)
      (attr_handle offset : Int) (is_long : Bool)
  | btgatts_request_read_descriptor_cb (conn_id trans_id : Int) (bda : List Nat)
      (attr_handle offset : Int) (is_long : Bool)
  | btgatts_request_write_characteristic_cb (conn_id trans_id : Int) (bda : List Nat)
      (attr_handle offset : Int) (need_rsp is_prep : Bool) (value : List Nat)
  | btgatts_request_write_descriptor_cb (conn_id trans_id : Int) (bda : List Nat)
      (attr_handle offset : Int) (need_rsp is_prep : Bool) (value : List Nat)
  | btgatts_request_exec_write_cb (conn_id trans_id : Int) (bda : List Nat) (exec_write : Int)
  | btgatts_response_confirmation_cb (status handle : Int)
  | btgatts_indication_sent_cb (conn_id status : Int)
  | btgatts_congestion_cb (conn_id : Int) (congested : Bool)
  | btgatts_mtu_changed_cb (conn_id mtu : Int)

/-- The callback function behind each stack callback. -/
def StackCallback.run (b : Bridge) (e : CallbackEnv) : StackCallback → CbResult
  | .btgattc_scan_result_cb bda rssi adv_data =>
    GattJni.btgattc_scan_result_cb b e bda rssi adv_data
  | .btgattc_batchscan_cfg_storage_cb client_if status =>
    GattJni.btgattc_batchscan_cfg_storage_cb b e client_if status
  | .btgattc_batchscan_startstop_cb a client_if status =>
    GattJni.btgattc_batchscan_startstop_cb b e a client_if status
  | .btgattc_batchscan_reports_cb client_if status f n data =>
    GattJni.btgattc_batchscan_reports_cb b e client_if status f n data
  | .btgattc_batchscan_threshold_cb client_if =>
    GattJni.btgattc_batchscan_threshold_cb b e client_if
  | .btgattc_track_adv_event_cb info => GattJni.btgattc_track_adv_event_cb b e info
  | .btgattc_scan_parameter_setup_completed_cb client_if status =>
    GattJni.btgattc_scan_parameter_setup_completed_cb b e client_if status
  | .btgattc_scan_filter_cfg_cb action client_if status filt_type avbl_space =>
    GattJni.btgattc_scan_filter_cfg_cb b e action client_if status filt_type avbl_space
  | .btgattc_scan_filter_param_cb action client_if status avbl_space =>
    GattJni.btgattc_scan_filter_param_cb b e action client_if status avbl_space
  | .btgattc_scan_filter_status_cb action client_if status =>
    GattJni.btgattc_scan_filter_status_cb b e action client_if status
  | .btgattc_register_app_cb status clientIf app_uuid =>
    GattJni.btgattc_register_app_cb b e status clientIf app_uuid
  | .btgattc_open_cb conn_id status clientIf bda =>
    GattJni.btgattc_open_cb b e conn_id status clientIf bda
  | .btgattc_close_cb conn_id status clientIf bda =>
    GattJni.btgattc_close_cb b e conn_id status clientIf bda
  | .btgattc_search_complete_cb conn_id status =>
    GattJni.btgattc_search_complete_cb b e conn_id status
  | .btgattc_register_for_notification_cb conn_id registered status handle =>
    GattJni.btgattc_register_for_notification_cb b e conn_id registered status handle
  | .btgattc_notify_cb conn_id p_data => GattJni.btgattc_notify_cb b e conn_id p_data
  | .btgattc_read_characteristic_cb conn_id status p_data =>
    GattJni.btgattc_read_characteristic_cb b e conn_id status p_data
  | .btgattc_write_characteristic_cb conn_id status handle =>
    GattJni.btgattc_write_characteristic_cb b e conn_id status handle
  | .btgattc_read_descriptor_cb conn_id status p_data =>
    GattJni.btgattc_read_descriptor_cb b e conn_id status p_data
  | .btgattc_write_descriptor_cb conn_id status handle =>
    GattJni.btgattc_write_descriptor_cb b e conn_id status handle
  | .btgattc_execute_write_cb conn_id status =>
    GattJni.btgattc_execute_write_cb b e conn_id status
  | .btgattc_remote_rssi_cb client_if bda rssi status =>
    GattJni.btgattc_remote_rssi_cb b e client_if bda rssi status
  | .btgattc_configure_mtu_cb conn_id status mtu =>
    GattJni.btgattc_configure_mtu_cb b e conn_id status mtu
  | .btgattc_congestion_cb conn_id congested =>
    GattJni.btgattc_congestion_cb b e conn_id congested
  | .btgattc_get_gatt_db_cb conn_id db count =>
    GattJni.btgattc_get_gatt_db_cb b e conn_id db count
  | .btgattc_register_scanner_cb app_uuid scannerId status =>
    GattJni.btgattc_register_scanner_cb b e app_uuid scannerId status
  | .ble_advertiser_register_cb uuid advertiser_id status =>
    GattJni.ble_advertiser_register_cb b e uuid advertiser_id status
  | .ble_advertiser_enable_cb enable advertiser_id status =>
    GattJni.ble_advertiser_enable_cb b e enable advertiser_id status
  | .ble_advertiser_start_cb advertiser_id status =>
    GattJni.ble_advertiser_start_cb b e advertiser_id status
  | .btgatts_register_app_cb status server_if uuid =>
    GattJni.btgatts_register_app_cb b e status server_if uuid
  | .btgatts_connection_cb conn_id server_if connected bda =>
    GattJni.btgatts_connection_cb b e conn_id server_if connected bda
  | .btgatts_service_added_cb status server_if service =>
    GattJni.btgatts_service_added_cb b e status server_if service
  | .btgatts_service_stopped_cb status server_if srvc_handle =>
    GattJni.btgatts_service_stopped_cb b e status server_if srvc_handle
  | .btgatts_service_deleted_cb status server_if srvc_handle =>
    GattJni.btgatts_service_deleted_cb b e status server_if srvc_handle
  | .btgatts_request_read_characteristic_cb conn_id trans_id bda attr_handle offset is_long =>
    GattJni.btgatts_request_read_characteristic_cb b e conn_id trans_id bda attr_handle offset
      is_long
  | .btgatts_request_read_descriptor_cb conn_id trans_id bda attr_handle offset is_long =>
    GattJni.btgatts_request_read_descriptor_cb b e conn_id trans_id bda attr_handle offset
      is_long
  | .btgatts_request_write_characteristic_cb conn_id trans_id bda attr_handle offset need_rsp
      is_prep value =>
    GattJni.btgatts_request_write_characteristic_cb b e conn_id trans_id bda attr_handle offset
      need_rsp is_prep value
  | .btgatts_request_write_descriptor_cb conn_id trans_id bda attr_handle offset need_rsp
      is_prep value =>
    GattJni.btgatts_request_write_descriptor_cb b e conn_id trans_id bda attr_handle offset
      need_rsp is_prep value
  | .btgatts_request_exec_write_cb conn_id trans_id bda exec_write =>
    GattJni.btgatts_request_exec_write_cb b e conn_id trans_id bda exec_write
  | .btgatts_response_confirmation_cb status handle =>
    GattJni.btgatts_response_confirmation_cb b e status handle
  | .btgatts_indication_sent_cb conn_id status =>
    GattJni.btgatts_indication_sent_cb b e conn_id status
  | .btgatts_congestion_cb conn_id congested =>
    GattJni.btgatts_congestion_cb b e conn_id congested
  | .btgatts_mtu_changed_cb conn_id mtu => GattJni.btgatts_mtu_changed_cb b e conn_id mtu

/-! ## Read completions in sequence -/

/-- One invocation of `btgattc_read_characteristic_cb` by the stack. -/
structure ReadCompletion where
  conn_id : Int
  status : Int
  p_data : ReadParams
  deriving DecidableEq, Repr

/-- The stack's read completions handled one after the other, in the order given. -/
def deliverReadCompletions (b : Bridge) (sCallbackEnv : CallbackEnv)
    (completions : List ReadCompletion) : List CbResult :=
  completions.map fun c => btgattc_read_characteristic_cb b sCallbackEnv c.conn_id c.status c.p_data

/-- The payload of a read completion according to the `from_stack` convention: the
`value.len` bytes of the value on success, the single byte 0 on failure. -/
def fromStack (status : Int) (p_data : ReadParams) : List Nat :=
  if status = 0 then p_data.value.value.take p_data.value.len else [0]

/-! ## Lifecycle (`initializeNative`, `cleanupNative`) -/

/-- What the platform answers during one `initializeNative`: the result of
`getBluetoothInterface()`, the result of `btIf->get_profile_interface(BT_PROFILE_GATT_ID)`,
whether `sGattIf->init(&sGattCallbacks)` returns `BT_STATUS_SUCCESS`, and the global
reference that `NewGlobalRef(object)` returns (taken to succeed). -/
structure InitEnv where
  getBluetoothInterface : Option Nat
  get_profile_interface : Option Nat
  init_success : Bool
  NewGlobalRef : Nat
  deriving DecidableEq, Repr

/-- A call that `initializeNative` or `cleanupNative` makes to the platform or the stack. -/
inductive LifecycleCall where
  | getBluetoothInterface
  /-- the stack call `sGattIf->cleanup()` -/
  | cleanup (sGattIf : Nat)
  /-- the release of the delivery sink, `env->DeleteGlobalRef(mCallbacksObj)` -/
  | DeleteGlobalRef (mCallbacksObj : Nat)
  | get_profile_interface (btIf : Nat)
  /-- the stack call `sGattIf->init(&sGattCallbacks)` -/
  | init (sGattIf : Nat)
  | NewGlobalRef
  deriving DecidableEq, Repr

/-- Source: the block `if (sGattIf != NULL) { ALOGW("Cleaning up Bluetooth GATT Interface
before initializing..."); sGattIf->cleanup(); sGattIf = NULL; }`. -/
def cleanGattIf (b : Bridge) : Bridge × List LifecycleCall :=
  match b.sGattIf with
  | some gattIf => ({ b with sGattIf := none }, [.cleanup gattIf])
  | none => (b, [])

/-- Source: the block `if (mCallbacksObj != NULL) { ALOGW("Cleaning up Bluetooth GATT
callback object"); env->DeleteGlobalRef(mCallbacksObj); mCallbacksObj = NULL; }`. -/
def cleanCallbacksObj (b : Bridge) : Bridge × List LifecycleCall :=
  match b.mCallbacksObj with
  | some obj => ({ b with mCallbacksObj := none }, [.DeleteGlobalRef obj])
  | none => (b, [])

/-- Source: `initializeNative`. The result is the bridge state after the call and the
calls made, in order. -/
def initializeNative (b : Bridge) (env : InitEnv) : Bridge × List LifecycleCall :=
  -- if (btIf) return;
  if b.btIf.isSome then (b, [])
  else
    -- btIf = getBluetoothInterface(); if (btIf == NULL) return;
    match env.getBluetoothInterface with
    | none => ({ b with btIf := none }, [.getBluetoothInterface])
    | some btIf =>
      let b0 : Bridge := { b with btIf := some btIf }
      let (b1, calls1) := cleanGattIf b0
      let (b2, calls2) := cleanCallbacksObj b1
      -- sGattIf = btIf->get_profile_interface(BT_PROFILE_GATT_ID);
      match env.get_profile_interface with
      | none =>
        ({ b2 with sGattIf := none },
          [.getBluetoothInterface] ++ calls1 ++ calls2 ++ [.get_profile_interface btIf])
      | some gattIf =>
        -- status = sGattIf->init(&sGattCallbacks);
        if !env.init_success then
          ({ b2 with sGattIf := none },
            [.getBluetoothInterface] ++ calls1 ++ calls2 ++
              [.get_profile_interface btIf, .init gattIf])
        else
          -- mCallbacksObj = env->NewGlobalRef(object);
          ({ b2 with sGattIf := some gattIf, mCallbacksObj := some env.NewGlobalRef },
            [.getBluetoothInterface] ++ calls1 ++ calls2 ++
              [.get_profile_interface btIf, .init gattIf, .NewGlobalRef])

/-- Source: `cleanupNative`. -/
def cleanupNative (b : Bridge) : Bridge × List LifecycleCall :=
  -- if (!btIf) return;
  if b.btIf.isNone then (b, [])
  else
    let (b1, calls1) := cleanGattIf b
    let (b2, calls2) := cleanCallbacksObj b1
    ({ b2 with btIf := none }, calls1 ++ calls2)

/-- A lifecycle call from the consumer. -/
inductive LifecycleOp where
  | initializeNative (env : InitEnv)
  | cleanupNative
  deriving DecidableEq, Repr

/-- The bridge state after one lifecycle call. -/
def LifecycleOp.step (b : Bridge) : LifecycleOp → Bridge
  | .initializeNative env => (GattJni.initializeNative b env).1
  | .cleanupNative => (GattJni.cleanupNative b).1

/-- The bridge state after a sequence of lifecycle calls. -/
def runLifecycle (b : Bridge) (ops : List LifecycleOp) : Bridge :=
  ops.foldl LifecycleOp.step b

/-- The initial state: `btIf`, `sGattIf` and `mCallbacksObj` are all NULL. -/
def Bridge.initial : Bridge := { btIf := none, sGattIf := none, mCallbacksObj := none }

/-- A sample of platform answers: everything succeeds, with new handles. -/
def InitEnv.sample : InitEnv :=
  { getBluetoothInterface := some 10, get_profile_interface := some 20, init_success := true,
    NewGlobalRef := 30 }

/-! ## Lemmas: machine integers -/

theorem int_land_255 (y : Int) : Int.land y 0xFF = y % 256 := by
  cases y with
  | ofNat m =>
    show ((m &&& 255 : Nat) : Int) = _
    have := Nat.and_pow_two_sub_one_eq_mod m 8
    norm_num at this
    rw [this]; rfl
  | negSucc m =>
    show ((Nat.ldiff 255 m : Nat) : Int) = _
    have h : Nat.ldiff 255 m = 255 - m % 256 := by
      apply Nat.eq_of_testBit_eq
      intro i
      have h2 : 255 - m % 256 = 2 ^ 8 - (m % 2 ^ 8 + 1) := by omega
      rw [h2, Nat.testBit_two_pow_sub_succ (Nat.mod_lt _ (by norm_num)), Nat.testBit_ldiff]
      have h3 : (255 : Nat) = 2 ^ 8 - 1 := by norm_num
      rw [h3, Nat.testBit_two_pow_sub_one, Nat.testBit_mod_two_pow]
      by_cases hi : i < 8 <;> simp [hi]
    rw [h, Int.negSucc_eq]
    omega

theorem byte_of_jlong (x : Int) (i : Nat) (hi : i < 8) :
    toU8 (Int.land (x >>> (8 * i)) 0xFF) = toU64 x / 2 ^ (8 * i) % 256 := by
  rw [int_land_255, Int.shiftRight_eq_div_pow]
  unfold toU8 toU64
  interval_cases i <;> norm_num <;> omega

theorem toU64_lt (x : Int) : toU64 x < 2 ^ 64 := by unfold toU64; omega

theorem toJlong_toU64 (x : Int) (hx : IsJlong x) : toJlong (toU64 x) = x := by
  unfold IsJlong at hx
  unfold toJlong toU64
  split <;> omega

theorem toU64_toJlong (n : Nat) (hn : n < 2 ^ 64) : toU64 (toJlong n) = n := by
  unfold toJlong toU64
  split <;> omega

theorem shl8_or (acc b : Nat) (hb : b < 256) :
    ((acc <<< 8) % 2 ^ 64) ||| b = acc % 2 ^ 56 * 256 + b := by
  have h1 : (acc <<< 8) % 2 ^ 64 = 2 ^ 8 * (acc % 2 ^ 56) := by
    rw [Nat.shiftLeft_eq]; omega
  rw [h1, ← Nat.mul_add_lt_is_or (by simpa using hb)]
  omega

/-! ## Lemmas: UUID codec -/

theorem length_16_cases {α : Type} (l : List α) (h : l.length = 16) :
    ∃ a0 a1 a2 a3 a4 a5 a6 a7 a8 a9 a10 a11 a12 a13 a14 a15,
      l = [a0, a1, a2, a3, a4, a5, a6, a7, a8, a9, a10, a11, a12, a13, a14, a15] := by
  match l, h with
  | [a0, a1, a2, a3, a4, a5, a6, a7, a8, a9, a10, a11, a12, a13, a14, a15], _ =>
    exact ⟨a0, a1, a2, a3, a4, a5, a6, a7, a8, a9, a10, a11, a12, a13, a14, a15, rfl⟩

/-- The buffer after `set_uuid`: the little-endian bytes of the least-significant half,
then those of the most-significant half. -/
theorem set_uuid_cells (buf : List Nat) (h : buf.length = 16) (msb lsb : Int) :
    set_uuid buf msb lsb = leBytes (toU64 lsb) ++ leBytes (toU64 msb) := by
  obtain ⟨a0, a1, a2, a3, a4, a5, a6, a7, a8, a9, a10, a11, a12, a13, a14, a15, rfl⟩ :=
    length_16_cases buf h
  have e : set_uuid [a0, a1, a2, a3, a4, a5, a6, a7, a8, a9, a10, a11, a12, a13, a14, a15]
      msb lsb =
      (List.range 8).map (fun i : Nat => toU8 (Int.land (lsb >>> (8 * i)) 0xFF)) ++
      (List.range 8).map (fun i : Nat => toU8 (Int.land (msb >>> (8 * i)) 0xFF)) := by
    simp [set_uuid, List.range, List.range.loop]
  rw [e]
  unfold leBytes
  congr 1 <;>
  · apply List.map_congr_left
    intro i hi
    exact byte_of_jlong _ i (List.mem_range.mp hi)

theorem uuid_lsb_cells (a0 a1 a2 a3 a4 a5 a6 a7 : Nat) (r : List Nat)
    (h0 : a0 < 256) (h1 : a1 < 256) (h2 : a2 < 256) (h3 : a3 < 256)
    (h4 : a4 < 256) (h5 : a5 < 256) (h6 : a6 < 256) (h7 : a7 < 256) :
    uuid_lsb (a0 :: a1 :: a2 :: a3 :: a4 :: a5 :: a6 :: a7 :: r) =
      a0 + 2 ^ 8 * a1 + 2 ^ 16 * a2 + 2 ^ 24 * a3 + 2 ^ 32 * a4 + 2 ^ 40 * a5
        + 2 ^ 48 * a6 + 2 ^ 56 * a7 := by
  simp only [uuid_lsb, List.range, List.range.loop, List.reverse_cons, List.reverse_nil,
    List.nil_append, List.cons_append, List.foldl_cons, List.foldl_nil, List.getD_cons_zero,
    List.getD_cons_succ]
  rw [shl8_or _ _ h7, shl8_or _ _ h6, shl8_or _ _ h5, shl8_or _ _ h4, shl8_or _ _ h3,
    shl8_or _ _ h2, shl8_or _ _ h1, shl8_or _ _ h0]
  omega

theorem uuid_msb_cells (b0 b1 b2 b3 b4 b5 b6 b7 a0 a1 a2 a3 a4 a5 a6 a7 : Nat) (r : List Nat)
    (h0 : a0 < 256) (h1 : a1 < 256) (h2 : a2 < 256) (h3 : a3 < 256)
    (h4 : a4 < 256) (h5 : a5 < 256) (h6 : a6 < 256) (h7 : a7 < 256) :
    uuid_msb (b0 :: b1 :: b2 :: b3 :: b4 :: b5 :: b6 :: b7 ::
        a0 :: a1 :: a2 :: a3 :: a4 :: a5 :: a6 :: a7 :: r) =
      a0 + 2 ^ 8 * a1 + 2 ^ 16 * a2 + 2 ^ 24 * a3 + 2 ^ 32 * a4 + 2 ^ 40 * a5
        + 2 ^ 48 * a6 + 2 ^ 56 * a7 := by
  simp only [uuid_msb, List.range, List.range.loop, List.map_cons, List.map_nil,
    List.reverse_cons, List.reverse_nil,
    List.nil_append, List.cons_append, List.foldl_cons, List.foldl_nil, List.getD_cons_zero,
    List.getD_cons_succ, Nat.zero_add]
  rw [shl8_or _ _ h7, shl8_or _ _ h6, shl8_or _ _ h5, shl8_or _ _ h4, shl8_or _ _ h3,
    shl8_or _ _ h2, shl8_or _ _ h1, shl8_or _ _ h0]
  omega

theorem leBytes_eq (n : Nat) : leBytes n =
    [n % 256, n / 2 ^ 8 % 256, n / 2 ^ 16 % 256, n / 2 ^ 24 % 256, n / 2 ^ 32 % 256,
     n / 2 ^ 40 % 256, n / 2 ^ 48 % 256, n / 2 ^ 56 % 256] := by
  simp [leBytes, List.range, List.range.loop]

theorem uuid_lsb_leBytes (L : Nat) (hL : L < 2 ^ 64) (r : List Nat) :
    uuid_lsb (leBytes L ++ r) = L := by
  rw [leBytes_eq]
  simp only [List.cons_append, List.nil_append]
  rw [uuid_lsb_cells] <;> omega

theorem uuid_msb_leBytes (M L : Nat) (hM : M < 2 ^ 64) :
    uuid_msb (leBytes L ++ leBytes M) = M := by
  rw [leBytes_eq, leBytes_eq]
  simp only [List.cons_append, List.nil_append]
  rw [uuid_msb_cells] <;> omega

/-! ## Claims: UUID codec -/

/-- C1: for every pair of 64-bit values (msb, lsb), writing them into a 16-byte buffer with
`set_uuid` and reading the buffer back with `uuid_msb` and `uuid_lsb` returns exactly
(msb, lsb): the same bit patterns, hence the same signed values. -/
theorem C1_uuid_decode_encode (buf : List Nat) (msb lsb : Int)
    (hbuf : buf.length = 16) (hmsb : IsJlong msb) (hlsb : IsJlong lsb) :
    uuid_msb (set_uuid buf msb lsb) = toU64 msb ∧
    uuid_lsb (set_uuid buf msb lsb) = toU64 lsb ∧
    toJlong (uuid_msb (set_uuid buf msb lsb)) = msb ∧
    toJlong (uuid_lsb (set_uuid buf msb lsb)) = lsb := by
  have hm : uuid_msb (set_uuid buf msb lsb) = toU64 msb := by
    rw [set_uuid_cells buf hbuf]; exact uuid_msb_leBytes _ _ (toU64_lt _)
  have hl : uuid_lsb (set_uuid buf msb lsb) = toU64 lsb := by
    rw [set_uuid_cells buf hbuf]; exact uuid_lsb_leBytes _ (toU64_lt _) _
  refine ⟨hm, hl, ?_, ?_⟩
  · rw [hm]; exact toJlong_toU64 _ hmsb
  · rw [hl]; exact toJlong_toU64 _ hlsb

theorem C1_uuid_decode_encode_witness :
    (List.replicate 16 7).length = 16 ∧ IsJlong 0x0102030405060708 ∧ IsJlong (-2) ∧
    uuid_msb (set_uuid (List.replicate 16 7) 0x0102030405060708 (-2))
      = toU64 0x0102030405060708 ∧
    uuid_lsb (set_uuid (List.replicate 16 7) 0x0102030405060708 (-2)) = toU64 (-2) ∧
    toJlong (uuid_msb (set_uuid (List.replicate 16 7) 0x0102030405060708 (-2)))
      = 0x0102030405060708 ∧
    toJlong (uuid_lsb (set_uuid (List.replicate 16 7) 0x0102030405060708 (-2))) = -2 :=
  ⟨by decide, by decide, by decide,
    C1_uuid_decode_encode (List.replicate 16 7) 0x0102030405060708 (-2)
      (by decide) (by decide) (by decide)⟩

/-- C2: for every 16-byte UUID `u`, `set_uuid` applied to (`uuid_msb u`, `uuid_lsb u`)
reproduces `u` byte for byte, whatever the buffer held before. -/
theorem C2_uuid_encode_decode (buf u : List Nat) (hbuf : buf.length = 16) (hu : IsUuid16 u) :
    set_uuid buf (toJlong (uuid_msb u)) (toJlong (uuid_lsb u)) = u := by
  obtain ⟨hlen, hlt⟩ := hu
  obtain ⟨a0, a1, a2, a3, a4, a5, a6, a7, a8, a9, a10, a11, a12, a13, a14, a15, rfl⟩ :=
    length_16_cases u hlen
  simp only [List.mem_cons, List.mem_singleton, forall_eq_or_imp, forall_eq] at hlt
  obtain ⟨h0, h1, h2, h3, h4, h5, h6, h7, h8, h9, h10, h11, h12, h13, h14, h15, -⟩ := hlt
  rw [set_uuid_cells buf hbuf, uuid_lsb_cells _ _ _ _ _ _ _ _ _ h0 h1 h2 h3 h4 h5 h6 h7,
    uuid_msb_cells _ _ _ _ _ _ _ _ _ _ _ _ _ _ _ _ _ h8 h9 h10 h11 h12 h13 h14 h15,
    toU64_toJlong _ (by omega), toU64_toJlong _ (by omega), leBytes_eq, leBytes_eq]
  simp only [List.cons_append, List.nil_append, List.cons.injEq, and_true]
  refine ⟨?_, ?_, ?_, ?_, ?_, ?_, ?_, ?_, ?_, ?_, ?_, ?_, ?_, ?_, ?_, ?_⟩ <;> omega

theorem C2_uuid_encode_decode_witness :
    (List.replicate 16 0).length = 16 ∧
    IsUuid16 [1, 2, 3, 4, 5, 6, 7, 8, 9, 10, 11, 12, 13, 14, 15, 255] ∧
    set_uuid (List.replicate 16 0)
        (toJlong (uuid_msb [1, 2, 3, 4, 5, 6, 7, 8, 9, 10, 11, 12, 13, 14, 15, 255]))
        (toJlong (uuid_lsb [1, 2, 3, 4, 5, 6, 7, 8, 9, 10, 11, 12, 13, 14, 15, 255]))
      = [1, 2, 3, 4, 5, 6, 7, 8, 9, 10, 11, 12, 13, 14, 15, 255] :=
  ⟨by decide, by decide,
    C2_uuid_encode_decode (List.replicate 16 0)
      [1, 2, 3, 4, 5, 6, 7, 8, 9, 10, 11, 12, 13, 14, 15, 255] (by decide) (by decide)⟩

/-- C3: for every (msb, lsb) and every i in 0..7, after `set_uuid` byte i of the 16-byte
buffer equals bits 8i..8i+7 of lsb and byte 8+i equals bits 8i..8i+7 of msb (each half is
stored little-endian, least-significant half first). -/
theorem C3_set_uuid_layout (buf : List Nat) (msb lsb : Int) (i : Nat)
    (hbuf : buf.length = 16) (hi : i < 8) :
    (set_uuid buf msb lsb)[i]? = some (toU64 lsb / 2 ^ (8 * i) % 256) ∧
    (set_uuid buf msb lsb)[8 + i]? = some (toU64 msb / 2 ^ (8 * i) % 256) ∧
    (∀ j, j < 8 → Nat.testBit (toU64 lsb / 2 ^ (8 * i) % 256) j
        = Nat.testBit (toU64 lsb) (8 * i + j)) ∧
    (∀ j, j < 8 → Nat.testBit (toU64 msb / 2 ^ (8 * i) % 256) j
        = Nat.testBit (toU64 msb) (8 * i + j)) := by
  have hbits : ∀ n j : Nat, j < 8 →
      Nat.testBit (n / 2 ^ (8 * i) % 256) j = Nat.testBit n (8 * i + j) := by
    intro n j hj
    have h256 : (256 : Nat) = 2 ^ 8 := by norm_num
    rw [h256, Nat.testBit_mod_two_pow, ← Nat.shiftRight_eq_div_pow, Nat.testBit_shiftRight]
    simp [hj]
  refine ⟨?_, ?_, fun j hj => hbits _ j hj, fun j hj => hbits _ j hj⟩
  · rw [set_uuid_cells buf hbuf, leBytes_eq, leBytes_eq]
    interval_cases i <;> simp
  · rw [set_uuid_cells buf hbuf, leBytes_eq, leBytes_eq]
    interval_cases i <;> simp

theorem C3_set_uuid_layout_witness :
    (List.replicate 16 0).length = 16 ∧ 3 < 8 ∧
    (set_uuid (List.replicate 16 0) 0x0102030405060708 0x0a0b0c0d0e0f1011)[3]?
      = some (toU64 0x0a0b0c0d0e0f1011 / 2 ^ (8 * 3) % 256) ∧
    (set_uuid (List.replicate 16 0) 0x0102030405060708 0x0a0b0c0d0e0f1011)[8 + 3]?
      = some (toU64 0x0102030405060708 / 2 ^ (8 * 3) % 256) ∧
    (∀ j, j < 8 → Nat.testBit (toU64 0x0a0b0c0d0e0f1011 / 2 ^ (8 * 3) % 256) j
        = Nat.testBit (toU64 0x0a0b0c0d0e0f1011) (8 * 3 + j)) ∧
    (∀ j, j < 8 → Nat.testBit (toU64 0x0102030405060708 / 2 ^ (8 * 3) % 256) j
        = Nat.testBit (toU64 0x0102030405060708) (8 * 3 + j)) :=
  ⟨by decide, by decide,
    C3_set_uuid_layout (List.replicate 16 0) 0x0102030405060708 0x0a0b0c0d0e0f1011 3
      (by decide) (by decide)⟩

/-! ## Lemmas: device address codec -/

theorem bd_addr_step_eq (mem : Nat → Char) (st : AddrScan) (i : Nat)
    (hi : i < st.bd_addr.length) :
    bd_addr_step mem st i =
      { str := (scanNext mem st.str).1, c := (scanNext mem st.str).2,
        bd_addr := st.bd_addr.set i (scanByte mem st.str st.c) } := by
  unfold bd_addr_step scanNext scanByte
  by_cases h : mem st.str = ':'
  · simp [h]
  · simp [h, hi, List.getD_eq_getElem?_getD]

theorem bd_addr_fold (mem : Nat → Char) (n : Nat) :
    ∀ (pre rest : List Nat) (str : Nat) (c : Char), rest.length = n →
      ((List.range' pre.length n).foldl (bd_addr_step mem)
          { str := str, c := c, bd_addr := pre ++ rest }).bd_addr
        = pre ++ scanBytes mem n str c := by
  induction n with
  | zero =>
    intro pre rest str c h
    have : rest = [] := List.length_eq_zero.mp h
    simp [this, scanBytes]
  | succ n ih =>
    intro pre rest str c h
    match rest, h with
    | r :: rest, h =>
      have hlen : pre.length < ({ str := str, c := c, bd_addr := pre ++ r :: rest } :
          AddrScan).bd_addr.length := by simp
      rw [List.range'_succ, List.foldl_cons, bd_addr_step_eq mem _ _ hlen]
      have hset : (pre ++ r :: rest).set pre.length (scanByte mem str c)
          = (pre ++ [scanByte mem str c]) ++ rest := by
        simp [List.set_append]
      have hl : pre.length + 1 = (pre ++ [scanByte mem str c]).length := by simp
      simp only [hset]
      rw [hl, ih _ rest _ _ (by simpa using h)]
      simp [scanBytes]

theorem bd_addr_str_to_addr_eq (mem : Nat → Char) (buf : List Nat) (h : buf.length = 6) :
    bd_addr_str_to_addr mem buf = scanBytes mem 6 1 (mem 0) := by
  have := bd_addr_fold mem 6 [] buf 1 (mem 0) h
  simpa [bd_addr_str_to_addr, BD_ADDR_LEN, List.range_eq_range'] using this


theorem hexDigit_upperHexDigit (d : Nat) (h : d < 16) :
    hexDigit (upperHexDigit d) = (d : Int) ∧ upperHexDigit d ≠ ':' := by
  interval_cases d <;> decide

theorem pair_byte (hv lv : Nat) (hh : hv < 16) (hl : lv < 16) :
    toU8 (Int.lor ((((toU8 (hv : Int) <<< 4) % 256 : Nat)) : Int) (lv : Int)) = hv * 16 + lv := by
  interval_cases hv <;> interval_cases lv <;> decide

theorem fmt02X_byte (n : Nat) (h : n < 256) :
    fmt02X n = [upperHexDigit (n / 16), upperHexDigit (n % 16)] := by
  interval_cases n <;> decide

theorem hexChar_cases (c : Char) (h : IsHexChar c) :
    ∃ v : Nat, v < 16 ∧ hexDigit c = (v : Int) ∧ upperHexDigit v = c.toUpper ∧ c ≠ ':' := by
  unfold IsHexChar at h
  simp only [String.toList, List.mem_cons, List.mem_singleton, List.not_mem_nil, or_false] at h
  rcases h with rfl | rfl | rfl | rfl | rfl | rfl | rfl | rfl | rfl | rfl | rfl | rfl | rfl | rfl
      | rfl | rfl | rfl | rfl | rfl | rfl | rfl | rfl
  · exact ⟨0, by decide⟩
  · exact ⟨1, by decide⟩
  · exact ⟨2, by decide⟩
  · exact ⟨3, by decide⟩
  · exact ⟨4, by decide⟩
  · exact ⟨5, by decide⟩
  · exact ⟨6, by decide⟩
  · exact ⟨7, by decide⟩
  · exact ⟨8, by decide⟩
  · exact ⟨9, by decide⟩
  · exact ⟨10, by decide⟩
  · exact ⟨11, by decide⟩
  · exact ⟨12, by decide⟩
  · exact ⟨13, by decide⟩
  · exact ⟨14, by decide⟩
  · exact ⟨15, by decide⟩
  · exact ⟨10, by decide⟩
  · exact ⟨11, by decide⟩
  · exact ⟨12, by decide⟩
  · exact ⟨13, by decide⟩
  · exact ⟨14, by decide⟩
  · exact ⟨15, by decide⟩

/-- The byte parsed from a group of two characters. -/
theorem scanBytes_groups (past : Nat → Char)
    (h0 l0 h1 l1 h2 l2 h3 l3 h4 l4 h5 l5 : Char)
    (n0 : l0 ≠ ':') (n1 : l1 ≠ ':') (n2 : l2 ≠ ':') (n3 : l3 ≠ ':') (n4 : l4 ≠ ':')
    (n5 : l5 ≠ ':') :
    scanBytes (cstr [h0, l0, ':', h1, l1, ':', h2, l2, ':', h3, l3, ':', h4, l4, ':', h5, l5]
        past) 6 1 h0 =
      [toU8 (Int.lor ((((toU8 (hexDigit h0) <<< 4) % 256 : Nat)) : Int) (hexDigit l0)),
       toU8 (Int.lor ((((toU8 (hexDigit h1) <<< 4) % 256 : Nat)) : Int) (hexDigit l1)),
       toU8 (Int.lor ((((toU8 (hexDigit h2) <<< 4) % 256 : Nat)) : Int) (hexDigit l2)),
       toU8 (Int.lor ((((toU8 (hexDigit h3) <<< 4) % 256 : Nat)) : Int) (hexDigit l3)),
       toU8 (Int.lor ((((toU8 (hexDigit h4) <<< 4) % 256 : Nat)) : Int) (hexDigit l4)),
       toU8 (Int.lor ((((toU8 (hexDigit h5) <<< 4) % 256 : Nat)) : Int) (hexDigit l5))] := by
  simp [scanBytes, scanByte, scanNext, cstr, n0, n1, n2, n3, n4, n5]


theorem length_6_cases {α : Type} (l : List α) (h : l.length = 6) :
    ∃ a0 a1 a2 a3 a4 a5, l = [a0, a1, a2, a3, a4, a5] := by
  match l, h with
  | [a0, a1, a2, a3, a4, a5], _ => exact ⟨a0, a1, a2, a3, a4, a5, rfl⟩

theorem length_17_cases {α : Type} (l : List α) (h : l.length = 17) :
    ∃ c0 c1 c2 c3 c4 c5 c6 c7 c8 c9 c10 c11 c12 c13 c14 c15 c16,
      l = [c0, c1, c2, c3, c4, c5, c6, c7, c8, c9, c10, c11, c12, c13, c14, c15, c16] := by
  match l, h with
  | [c0, c1, c2, c3, c4, c5, c6, c7, c8, c9, c10, c11, c12, c13, c14, c15, c16], _ =>
    exact ⟨c0, c1, c2, c3, c4, c5, c6, c7, c8, c9, c10, c11, c12, c13, c14, c15, c16, rfl⟩

theorem upperHexDigit_mem (d : Nat) (h : d < 16) :
    upperHexDigit d ∈ "0123456789ABCDEF:".toList := by
  interval_cases d <;> decide

/-- The text `bdaddr2newjstr` produces for a 6-byte address. -/
theorem bdaddr2newjstr_eq (a0 a1 a2 a3 a4 a5 : Nat) (h0 : a0 < 256) (h1 : a1 < 256)
    (h2 : a2 < 256) (h3 : a3 < 256) (h4 : a4 < 256) (h5 : a5 < 256) :
    bdaddr2newjstr [a0, a1, a2, a3, a4, a5] =
      [upperHexDigit (a0 / 16), upperHexDigit (a0 % 16), ':',
       upperHexDigit (a1 / 16), upperHexDigit (a1 % 16), ':',
       upperHexDigit (a2 / 16), upperHexDigit (a2 % 16), ':',
       upperHexDigit (a3 / 16), upperHexDigit (a3 % 16), ':',
       upperHexDigit (a4 / 16), upperHexDigit (a4 % 16), ':',
       upperHexDigit (a5 / 16), upperHexDigit (a5 % 16)] := by
  simp [bdaddr2newjstr, fmt02X_byte, h0, h1, h2, h3, h4, h5]

/-- A group of two hexadecimal digits, parsed and formatted again, is the group in
upper case. -/
theorem group_roundtrip (h l : Char) (hh : IsHexChar h) (hl : IsHexChar l) :
    ∃ b : Nat, b < 256 ∧
      toU8 (Int.lor ((((toU8 (hexDigit h) <<< 4) % 256 : Nat)) : Int) (hexDigit l)) = b ∧
      upperHexDigit (b / 16) = h.toUpper ∧ upperHexDigit (b % 16) = l.toUpper := by
  obtain ⟨v, hv, hdv, huv, -⟩ := hexChar_cases h hh
  obtain ⟨w, hw, hdw, huw, -⟩ := hexChar_cases l hl
  refine ⟨v * 16 + w, by omega, ?_, ?_, ?_⟩
  · rw [hdv, hdw, pair_byte v w hv hw]
  · rw [← huv]; congr 1; omega
  · rw [← huw]; congr 1; omega

/-! ## Claims: device address codec -/

/-- C4: for every 6-byte device address, `bdaddr2newjstr` produces a text of exactly 17
characters: six two-digit hexadecimal groups for bytes 0..5 in order, separated by ':' at
positions 2, 5, 8, 11 and 14, with every hex letter uppercase. -/
theorem C4_format_address (a : List Nat) (ha : IsBdAddr a) :
    (bdaddr2newjstr a).length = 17 ∧
    (∀ k, k < 6 →
      (bdaddr2newjstr a)[3 * k]? = some (upperHexDigit (a.getD k 0 / 16)) ∧
      (bdaddr2newjstr a)[3 * k + 1]? = some (upperHexDigit (a.getD k 0 % 16))) ∧
    (∀ k, k < 5 → (bdaddr2newjstr a)[3 * k + 2]? = some ':') ∧
    (∀ c ∈ bdaddr2newjstr a, c ∈ "0123456789ABCDEF:".toList) := by
  obtain ⟨hlen, hlt⟩ := ha
  obtain ⟨a0, a1, a2, a3, a4, a5, rfl⟩ := length_6_cases a hlen
  simp only [List.mem_cons, List.mem_singleton, forall_eq_or_imp, forall_eq] at hlt
  obtain ⟨h0, h1, h2, h3, h4, h5, -⟩ := hlt
  rw [bdaddr2newjstr_eq a0 a1 a2 a3 a4 a5 h0 h1 h2 h3 h4 h5]
  refine ⟨rfl, ?_, ?_, ?_⟩
  · intro k hk
    interval_cases k <;> simp
  · intro k hk
    interval_cases k <;> simp
  · intro c hc
    simp only [List.mem_cons, List.mem_singleton, List.not_mem_nil, or_false] at hc
    rcases hc with rfl | rfl | rfl | rfl | rfl | rfl | rfl | rfl | rfl | rfl | rfl | rfl
      | rfl | rfl | rfl | rfl | rfl
    all_goals first
      | exact upperHexDigit_mem _ (by omega)
      | decide

theorem C4_format_address_witness :
    IsBdAddr [0xAA, 0x0B, 0, 0xD0, 0xEE, 0xFF] ∧
    (bdaddr2newjstr [0xAA, 0x0B, 0, 0xD0, 0xEE, 0xFF]).length = 17 ∧
    (∀ k, k < 6 →
      (bdaddr2newjstr [0xAA, 0x0B, 0, 0xD0, 0xEE, 0xFF])[3 * k]?
        = some (upperHexDigit ([0xAA, 0x0B, 0, 0xD0, 0xEE, 0xFF].getD k 0 / 16)) ∧
      (bdaddr2newjstr [0xAA, 0x0B, 0, 0xD0, 0xEE, 0xFF])[3 * k + 1]?
        = some (upperHexDigit ([0xAA, 0x0B, 0, 0xD0, 0xEE, 0xFF].getD k 0 % 16))) ∧
    (∀ k, k < 5 → (bdaddr2newjstr [0xAA, 0x0B, 0, 0xD0, 0xEE, 0xFF])[3 * k + 2]? = some ':') ∧
    (∀ c ∈ bdaddr2newjstr [0xAA, 0x0B, 0, 0xD0, 0xEE, 0xFF],
      c ∈ "0123456789ABCDEF:".toList) :=
  ⟨by decide, C4_format_address [0xAA, 0x0B, 0, 0xD0, 0xEE, 0xFF] (by decide)⟩


theorem scanBytes_congr (mem mem' : Nat → Char) (n : Nat) :
    ∀ (str : Nat) (c c' : Char), (n ≠ 0 → c = c') →
      (∀ p, str ≤ p → p + 2 ≤ str + 3 * n → mem p = mem' p) →
      scanBytes mem n str c = scanBytes mem' n str c' := by
  induction n with
  | zero => intro str c c' _ _; rfl
  | succ n ih =>
    intro str c c' hc hmem
    have hc' : c = c' := hc (by omega)
    have h0 : mem str = mem' str := hmem str (by omega) (by omega)
    have hb : scanByte mem str c = scanByte mem' str c' := by
      unfold scanByte; rw [h0, hc']
    have hn1 : (scanNext mem str).1 = (scanNext mem' str).1 := by
      by_cases h : mem' str = ':' <;> simp [scanNext, h0, h]
    have hstr : str + 2 ≤ (scanNext mem' str).1 ∧ (scanNext mem' str).1 ≤ str + 3 := by
      by_cases h : mem' str = ':' <;> simp [scanNext, h]
    simp only [scanBytes]
    rw [hb, hn1]
    congr 1
    apply ih
    · intro hn
      by_cases h : mem' str = ':'
      · simpa [scanNext, h0, h] using hmem (str + 1) (by omega) (by omega)
      · simpa [scanNext, h0, h] using hmem (str + 2) (by omega) (by omega)
    · intro p hp1 hp2
      exact hmem p (by omega) (by omega)

theorem scanBytes_length (mem : Nat → Char) (n : Nat) :
    ∀ (str : Nat) (c : Char), (scanBytes mem n str c).length = n := by
  induction n with
  | zero => intro str c; rfl
  | succ n ih => intro str c; simp [scanBytes, ih]

theorem toU8_lt (x : Int) : toU8 x < 256 := by unfold toU8; omega

theorem scanBytes_lt (mem : Nat → Char) (n : Nat) :
    ∀ (str : Nat) (c : Char), ∀ b ∈ scanBytes mem n str c, b < 256 := by
  induction n with
  | zero => intro str c b hb; simp [scanBytes] at hb
  | succ n ih =>
    intro str c b hb
    simp only [scanBytes, List.mem_cons] at hb
    rcases hb with rfl | hb
    · unfold scanByte; split <;> exact toU8_lt _
    · exact ih _ _ b hb

theorem cstr_lt (s : List Char) (past past' : Nat → Char) (p : Nat) (hp : p ≤ s.length) :
    cstr s past p = cstr s past' p := by
  unfold cstr
  by_cases h : p < s.length
  · simp [h]
  · have : p = s.length := by omega
    simp [this]

/-- For a 17-character text, `jstr2bdaddr` leaves in the buffer the bytes scanned from the
text. -/
theorem jstr2bdaddr_17 (env : Env) (buf : List Nat) (s : List Char) (hs : s.length = 17)
    (hbuf : buf.length = 6) :
    jstr2bdaddr env buf (some s) = scanBytes (cstr s env.past) 6 1 (cstr s env.past 0) := by
  simp only [jstr2bdaddr, hs, if_true]
  exact bd_addr_str_to_addr_eq _ _ hbuf

/-- C5: for every 17-character text `s` made of six two-hex-digit groups (digits in either
case) separated by colons, formatting the bytes that `jstr2bdaddr` parses from `s` with
`bdaddr2newjstr` gives `s` with its letters uppercased. -/
theorem C5_format_parse (env : Env) (buf : List Nat) (s : List Char)
    (hs : IsAddrText s) (hbuf : buf.length = 6) :
    bdaddr2newjstr (jstr2bdaddr env buf (some s)) = s.map Char.toUpper := by
  obtain ⟨hlen, hk⟩ := hs
  obtain ⟨c0, c1, c2, c3, c4, c5, c6, c7, c8, c9, c10, c11, c12, c13, c14, c15, c16, rfl⟩ :=
    length_17_cases s hlen
  have k0 := hk 0 (by norm_num)
  have k1 := hk 1 (by norm_num)
  have k2 := hk 2 (by norm_num)
  have k3 := hk 3 (by norm_num)
  have k4 := hk 4 (by norm_num)
  have k5 := hk 5 (by norm_num)
  have k6 := hk 6 (by norm_num)
  have k7 := hk 7 (by norm_num)
  have k8 := hk 8 (by norm_num)
  have k9 := hk 9 (by norm_num)
  have k10 := hk 10 (by norm_num)
  have k11 := hk 11 (by norm_num)
  have k12 := hk 12 (by norm_num)
  have k13 := hk 13 (by norm_num)
  have k14 := hk 14 (by norm_num)
  have k15 := hk 15 (by norm_num)
  have k16 := hk 16 (by norm_num)
  norm_num at k0 k1 k2 k3 k4 k5 k6 k7 k8 k9 k10 k11 k12 k13 k14 k15 k16
  subst k2 k5 k8 k11 k14
  obtain ⟨b0, hb0, e0, u0, v0⟩ := group_roundtrip c0 c1 k0 k1
  obtain ⟨b1, hb1, e1, u1, v1⟩ := group_roundtrip c3 c4 k3 k4
  obtain ⟨b2, hb2, e2, u2, v2⟩ := group_roundtrip c6 c7 k6 k7
  obtain ⟨b3, hb3, e3, u3, v3⟩ := group_roundtrip c9 c10 k9 k10
  obtain ⟨b4, hb4, e4, u4, v4⟩ := group_roundtrip c12 c13 k12 k13
  obtain ⟨b5, hb5, e5, u5, v5⟩ := group_roundtrip c15 c16 k15 k16
  rw [jstr2bdaddr_17 env buf _ hlen hbuf]
  have hc0 : cstr [c0, c1, ':', c3, c4, ':', c6, c7, ':', c9, c10, ':', c12, c13, ':',
      c15, c16] env.past 0 = c0 := by simp [cstr]
  rw [hc0, scanBytes_groups env.past c0 c1 c3 c4 c6 c7 c9 c10 c12 c13 c15 c16
    (hexChar_cases c1 k1).choose_spec.2.2.2 (hexChar_cases c4 k4).choose_spec.2.2.2
    (hexChar_cases c7 k7).choose_spec.2.2.2 (hexChar_cases c10 k10).choose_spec.2.2.2
    (hexChar_cases c13 k13).choose_spec.2.2.2 (hexChar_cases c16 k16).choose_spec.2.2.2,
    e0, e1, e2, e3, e4, e5, bdaddr2newjstr_eq b0 b1 b2 b3 b4 b5 hb0 hb1 hb2 hb3 hb4 hb5,
    u0, u1, u2, u3, u4, u5, v0, v1, v2, v3, v4, v5]
  have hcolon : Char.toUpper ':' = ':' := by decide
  simp [hcolon]

theorem C5_format_parse_witness :
    IsAddrText "aa:0b:c1:Dd:eE:f9".toList ∧ [1, 2, 3, 4, 5, 6].length = 6 ∧
    bdaddr2newjstr (jstr2bdaddr Env.sample [1, 2, 3, 4, 5, 6] (some "aa:0b:c1:Dd:eE:f9".toList))
      = "aa:0b:c1:Dd:eE:f9".toList.map Char.toUpper :=
  ⟨by decide, by decide,
    C5_format_parse Env.sample [1, 2, 3, 4, 5, 6] "aa:0b:c1:Dd:eE:f9".toList
      (by decide) (by decide)⟩


/-- C6: for every 6-byte address `a`, parsing the text `bdaddr2newjstr a` with
`jstr2bdaddr` yields exactly `a`; in particular the text "AA:BB:CC:DD:EE:FF" parses to the
bytes [0xAA, 0xBB, 0xCC, 0xDD, 0xEE, 0xFF]. -/
theorem C6_parse_format (env : Env) (buf a : List Nat) (ha : IsBdAddr a)
    (hbuf : buf.length = 6) :
    jstr2bdaddr env buf (some (bdaddr2newjstr a)) = a ∧
    jstr2bdaddr env buf (some "AA:BB:CC:DD:EE:FF".toList)
      = [0xAA, 0xBB, 0xCC, 0xDD, 0xEE, 0xFF] := by
  have main : ∀ a : List Nat, IsBdAddr a → jstr2bdaddr env buf (some (bdaddr2newjstr a)) = a := by
    intro a ha
    obtain ⟨hlen, hlt⟩ := ha
    obtain ⟨a0, a1, a2, a3, a4, a5, rfl⟩ := length_6_cases a hlen
    simp only [List.mem_cons, List.mem_singleton, forall_eq_or_imp, forall_eq] at hlt
    obtain ⟨h0, h1, h2, h3, h4, h5, -⟩ := hlt
    have d : ∀ x : Nat, x < 256 →
        toU8 (Int.lor ((((toU8 (hexDigit (upperHexDigit (x / 16))) <<< 4) % 256 : Nat)) : Int)
          (hexDigit (upperHexDigit (x % 16)))) = x := by
      intro x hx
      rw [(hexDigit_upperHexDigit (x / 16) (by omega)).1,
        (hexDigit_upperHexDigit (x % 16) (by omega)).1, pair_byte _ _ (by omega) (by omega)]
      omega
    have nc : ∀ x : Nat, upperHexDigit (x % 16) ≠ ':' := fun x =>
      (hexDigit_upperHexDigit (x % 16) (by omega)).2
    rw [bdaddr2newjstr_eq a0 a1 a2 a3 a4 a5 h0 h1 h2 h3 h4 h5, jstr2bdaddr_17 env buf _ (by simp) hbuf]
    have hc0 : ∀ (c : Char) (t : List Char), cstr (c :: t) env.past 0 = c := by
      intro c t; simp [cstr]
    rw [hc0, scanBytes_groups env.past _ _ _ _ _ _ _ _ _ _ _ _ (nc a0) (nc a1) (nc a2) (nc a3)
      (nc a4) (nc a5), d a0 h0, d a1 h1, d a2 h2, d a3 h3, d a4 h4, d a5 h5]
  refine ⟨main a ha, ?_⟩
  have hfmt : "AA:BB:CC:DD:EE:FF".toList = bdaddr2newjstr [0xAA, 0xBB, 0xCC, 0xDD, 0xEE, 0xFF] := by
    decide
  rw [hfmt]
  exact main _ (by decide)

theorem C6_parse_format_witness :
    IsBdAddr [0, 0x1F, 0xA0, 9, 0xFF, 0x5C] ∧ [9, 9, 9, 9, 9, 9].length = 6 ∧
    jstr2bdaddr Env.sample [9, 9, 9, 9, 9, 9] (some (bdaddr2newjstr [0, 0x1F, 0xA0, 9, 0xFF, 0x5C]))
      = [0, 0x1F, 0xA0, 9, 0xFF, 0x5C] ∧
    jstr2bdaddr Env.sample [9, 9, 9, 9, 9, 9] (some "AA:BB:CC:DD:EE:FF".toList)
      = [0xAA, 0xBB, 0xCC, 0xDD, 0xEE, 0xFF] :=
  ⟨by decide, by decide,
    C6_parse_format Env.sample [9, 9, 9, 9, 9, 9] [0, 0x1F, 0xA0, 9, 0xFF, 0x5C]
      (by decide) (by decide)⟩

/-- C7: for every address text whose length is not exactly 17 characters, `jstr2bdaddr`
does not parse it and leaves all 6 bytes of the output address buffer unchanged. -/
theorem C7_wrong_length_untouched (env : Env) (bda : List Nat) (s : List Char)
    (hs : s.length ≠ 17) :
    jstr2bdaddr env bda (some s) = bda := by
  simp [jstr2bdaddr, hs]

theorem C7_wrong_length_untouched_witness :
    "AA:BB:CC:DD:EE".toList.length ≠ 17 ∧
    jstr2bdaddr Env.sample [1, 2, 3, 4, 5, 6] (some "AA:BB:CC:DD:EE".toList)
      = [1, 2, 3, 4, 5, 6] :=
  ⟨by decide,
    C7_wrong_length_untouched Env.sample [1, 2, 3, 4, 5, 6] "AA:BB:CC:DD:EE".toList (by decide)⟩

/-- C8 (as stated, refuted): a 17-character text with letters beyond F, and one with a
colon in a digit position, are parsed all the same; the output buffer is overwritten. -/
theorem C8_counterexample :
    ("GG:GG:GG:GG:GG:GG".toList.length = 17 ∧ ¬ IsAddrText "GG:GG:GG:GG:GG:GG".toList ∧
      jstr2bdaddr Env.sample [0, 0, 0, 0, 0, 0] (some "GG:GG:GG:GG:GG:GG".toList)
        = [16, 16, 16, 16, 16, 16]) ∧
    ("A:B:C:D:E:F:12345".toList.length = 17 ∧ ¬ IsAddrText "A:B:C:D:E:F:12345".toList ∧
      jstr2bdaddr Env.sample [0, 0, 0, 0, 0, 0] (some "A:B:C:D:E:F:12345".toList)
        = [10, 11, 12, 13, 14, 15]) ∧
    ¬ (∀ (env : Env) (buf : List Nat) (s : List Char), buf.length = 6 → s.length = 17 →
        ¬ IsAddrText s → jstr2bdaddr env buf (some s) = buf) := by
  refine ⟨by decide, by decide, ?_⟩
  intro h
  have := h Env.sample [0, 0, 0, 0, 0, 0] "GG:GG:GG:GG:GG:GG".toList (by decide) (by decide)
    (by decide)
  revert this
  decide

/-- C8 (amended): for every 17-character address text, well-formed or not, address
parsing has no failure path: `jstr2bdaddr` checks neither the digits nor the colon
positions and overwrites all six bytes of the output buffer with byte values computed
from the text alone, whatever the buffer held and whatever follows the text in memory. -/
theorem C8_parse_overwrites (env env' : Env) (buf buf' : List Nat) (s : List Char)
    (hs : s.length = 17) (hbuf : buf.length = 6) (hbuf' : buf'.length = 6) :
    IsBdAddr (jstr2bdaddr env buf (some s)) ∧
    jstr2bdaddr env buf (some s) = jstr2bdaddr env' buf' (some s) := by
  rw [jstr2bdaddr_17 env buf s hs hbuf, jstr2bdaddr_17 env' buf' s hs hbuf']
  refine ⟨⟨scanBytes_length _ _ _ _, scanBytes_lt _ _ _ _⟩, ?_⟩
  apply scanBytes_congr
  · intro _; exact cstr_lt s _ _ 0 (by omega)
  · intro p _ hp; exact cstr_lt s _ _ p (by omega)

theorem C8_parse_overwrites_witness :
    "GG:GG:GG:GG:GG:GG".toList.length = 17 ∧ [0, 0, 0, 0, 0, 0].length = 6 ∧
    [1, 2, 3, 4, 5, 6].length = 6 ∧
    IsBdAddr (jstr2bdaddr Env.sample [0, 0, 0, 0, 0, 0] (some "GG:GG:GG:GG:GG:GG".toList)) ∧
    jstr2bdaddr Env.sample [0, 0, 0, 0, 0, 0] (some "GG:GG:GG:GG:GG:GG".toList)
      = jstr2bdaddr Env.sample [1, 2, 3, 4, 5, 6] (some "GG:GG:GG:GG:GG:GG".toList) :=
  ⟨by decide, by decide, by decide,
    C8_parse_overwrites Env.sample Env.sample [0, 0, 0, 0, 0, 0] [1, 2, 3, 4, 5, 6]
      "GG:GG:GG:GG:GG:GG".toList (by decide) (by decide) (by decide)⟩


/-! ## Claims: command dispatch facade -/

/-- C9 (the code at a failing input): on a live bridge, with the malformed address text
"AA:BB" (5 characters), `gattClientConnectNative`, `gattClientDisconnectNative`,
`gattServerDisconnectNative` and `gattClientReadRemoteRssiNative` each still issue their
stack call; the address passed is the unparsed, never-initialised local buffer. -/
theorem C9_malformed_address_still_calls :
    "AA:BB".toList.length ≠ 17 ∧ Bridge.sample.sGattIf ≠ none ∧
    gattClientConnectNative Bridge.sample Env.sample 1 (some "AA:BB".toList) true 2
      = .done Bridge.sample [.client (.connect 1 Env.sample.uninit_bda true 2)] 0 ∧
    gattClientDisconnectNative Bridge.sample Env.sample 1 (some "AA:BB".toList) 7
      = .done Bridge.sample [.client (.disconnect 1 Env.sample.uninit_bda 7)] 0 ∧
    gattServerDisconnectNative Bridge.sample Env.sample 1 (some "AA:BB".toList) 7
      = .done Bridge.sample [.server (.disconnect 1 Env.sample.uninit_bda 7)] 0 ∧
    gattClientReadRemoteRssiNative Bridge.sample Env.sample 1 (some "AA:BB".toList)
      = .done Bridge.sample [.client (.read_remote_rssi 1 Env.sample.uninit_bda)] 0 := by
  decide

/-- C10: when the stack handle is not initialized (`sGattIf` is null), every outward entry
point returns without issuing any stack call and without changing the bridge state, for
all arguments; `gattClientGetDeviceTypeNative` returns 0. -/
theorem C10_not_initialized_noop (b : Bridge) (env : Env) (call : NativeCall)
    (h : b.sGattIf = none) :
    call.run b env = .done b [] 0 ∧
    ∀ address, gattClientGetDeviceTypeNative b env address = .done b [] 0 := by
  constructor
  · cases call <;>
      simp [NativeCall.run, h, GattJni.gattClientGetDeviceTypeNative,
        GattJni.gattClientRegisterAppNative, GattJni.gattClientUnregisterAppNative,
        GattJni.registerScannerNative, GattJni.unregisterScannerNative,
        GattJni.gattClientScanNative, GattJni.gattClientConnectNative,
        GattJni.gattClientDisconnectNative, GattJni.gattClientRefreshNative,
        GattJni.gattClientSearchServiceNative, GattJni.gattClientGetGattDbNative,
        GattJni.gattClientReadCharacteristicNative, GattJni.gattClientReadDescriptorNative,
        GattJni.gattClientWriteCharacteristicNative, GattJni.gattClientExecuteWriteNative,
        GattJni.gattClientWriteDescriptorNative,
        GattJni.gattClientRegisterForNotificationsNative,
        GattJni.gattClientReadRemoteRssiNative, GattJni.gattSetScanParametersNative,
        GattJni.gattClientScanFilterParamAddNative,
        GattJni.gattClientScanFilterParamDeleteNative,
        GattJni.gattClientScanFilterParamClearAllNative,
        GattJni.gattClientScanFilterAddNative, GattJni.gattClientScanFilterDeleteNative,
        GattJni.gattClientScanFilterClearNative, GattJni.gattClientScanFilterEnableNative,
        GattJni.gattClientConfigureMTUNative, GattJni.gattConnectionParameterUpdateNative,
        GattJni.registerAdvertiserNative, GattJni.startAdvertiserNative,
        GattJni.unregisterAdvertiserNative, GattJni.gattClientEnableAdvNative,
        GattJni.gattClientConfigBatchScanStorageNative,
        GattJni.gattClientStartBatchScanNative, GattJni.gattClientStopBatchScanNative,
        GattJni.gattClientReadScanReportsNative, GattJni.gattServerRegisterAppNative,
        GattJni.gattServerUnregisterAppNative, GattJni.gattServerConnectNative,
        GattJni.gattServerDisconnectNative, GattJni.gattServerAddServiceNative,
        GattJni.gattServerStopServiceNative, GattJni.gattServerDeleteServiceNative,
        GattJni.gattServerSendIndicationNative, GattJni.gattServerSendNotificationNative,
        GattJni.gattServerSendResponseNative, GattJni.gattTestNative]
  · intro address
    simp [GattJni.gattClientGetDeviceTypeNative, h]

theorem C10_not_initialized_noop_witness :
    ({ btIf := some 1, sGattIf := none, mCallbacksObj := none } : Bridge).sGattIf = none ∧
    (NativeCall.gattClientConnectNative 1 (some "AA:BB:CC:DD:EE:FF".toList) true 2).run
        { btIf := some 1, sGattIf := none, mCallbacksObj := none } Env.sample
      = .done { btIf := some 1, sGattIf := none, mCallbacksObj := none } [] 0 ∧
    ∀ address, gattClientGetDeviceTypeNative
        { btIf := some 1, sGattIf := none, mCallbacksObj := none } Env.sample address
      = .done { btIf := some 1, sGattIf := none, mCallbacksObj := none } [] 0 :=
  ⟨rfl, C10_not_initialized_noop { btIf := some 1, sGattIf := none, mCallbacksObj := none }
    Env.sample (NativeCall.gattClientConnectNative 1 (some "AA:BB:CC:DD:EE:FF".toList) true 2)
    rfl⟩

/-! ## Lemmas: byte payloads -/

theorem copy_fold (buf : List Nat) (n : Nat) :
    ∀ array : List Nat, n ≤ array.length → n ≤ buf.length →
      (List.range n).foldl (fun array i => array.set i (buf.getD i 0)) array
        = buf.take n ++ array.drop n := by
  induction n with
  | zero => intro array _ _; simp
  | succ n ih =>
    intro array ha hb
    rw [List.range_succ, List.foldl_append, ih array (by omega) (by omega)]
    simp only [List.foldl_cons, List.foldl_nil]
    have hlen : (List.take n buf).length = n := by simp; omega
    rw [List.set_append_right _ _ (by omega), hlen, Nat.sub_self]
    have hd : List.drop n array = array.getD n 0 :: List.drop (n + 1) array := by
      rw [List.getD_eq_getElem _ _ (by omega : n < array.length)]
      exact List.drop_eq_getElem_cons (by omega)
    have ht : List.take (n + 1) buf = List.take n buf ++ [buf.getD n 0] := by
      rw [List.take_succ, List.getD_eq_getElem?_getD,
        List.getElem?_eq_getElem (by omega : n < buf.length)]
      rfl
    rw [hd, List.set_cons_zero, ht]
    simp

theorem SetByteArrayRegion_new (buf : List Nat) (n : Nat) (h : n ≤ buf.length) :
    SetByteArrayRegion (NewByteArray n) 0 n buf = buf.take n := by
  unfold SetByteArrayRegion NewByteArray
  simp only [Nat.zero_add]
  rw [copy_fold buf n _ (by simp) h]
  simp

theorem toU16_of_lt (n : Nat) (h : n < 65536) : toU16 n = n := by
  unfold toU16; omega

/-- A `jint` in 0..65535 is kept by the conversion to `uint16_t`. -/
theorem jintToU16_of_range (x : Int) (h0 : 0 ≤ x) (h1 : x < 65536) : jintToU16 x = x := by
  unfold jintToU16; omega

/-- A `jint` in 0..255 is kept by the conversion to `uint8_t`. -/
theorem jintToU8_of_range (x : Int) (h0 : 0 ≤ x) (h1 : x < 256) : jintToU8 x = x := by
  unfold jintToU8; omega


theorem isNone_of_live (b : Bridge) (hlive : b.sGattIf ≠ none) : b.sGattIf.isNone = false := by
  cases h : b.sGattIf with
  | none => exact absurd h hlive
  | some _ => rfl

theorem take_multiple_65536 (value : List Nat) (h : value.length = 65536) :
    value.take (value.length % 65536) = [] ∧ [] ≠ value := by
  constructor
  · rw [h]; rfl
  · intro h0
    rw [← h0] at h
    simp at h

/-! ## Claims: byte payloads of outward calls -/

/-- A response value longer than the array it is copied into is not rejected: the copy
loop runs past the end of the array. -/
theorem sendResponse_overrun (b : Bridge) (env : Env)
    (server_if conn_id trans_id status handle offset auth_req : Int) (val : List Nat)
    (hlive : b.sGattIf ≠ none) (hlong : BTGATT_MAX_ATTR_LEN env < toU16 val.length) :
    gattServerSendResponseNative b env server_if conn_id trans_id status handle offset
      (some val) auth_req = .fault .buffer_overrun := by
  simp [gattServerSendResponseNative, isNone_of_live b hlive, hlong]

/-- A response value of 65537 bytes has `(uint16_t) length` 1: one byte is copied and the
call is made. -/
theorem sendResponse_wrapped (b : Bridge) (env : Env)
    (server_if conn_id trans_id status handle offset auth_req : Int) (val : List Nat)
    (hlive : b.sGattIf ≠ none) (hcap : 1 ≤ BTGATT_MAX_ATTR_LEN env)
    (hlen : val.length = 65537) :
    gattServerSendResponseNative b env server_if conn_id trans_id status handle offset
        (some val) auth_req
      = .done b [.server (.send_response conn_id trans_id status
          { handle := jintToU16 handle, auth_req := jintToU8 auth_req,
            offset := jintToU16 offset, len := 1,
            value := env.uninit_value.set 0 (val.getD 0 0) })] 0 := by
  have h16 : toU16 val.length = 1 := by rw [hlen]; rfl
  have hnot : ¬ (1 > BTGATT_MAX_ATTR_LEN env) := by omega
  simp only [gattServerSendResponseNative, isNone_of_live b hlive, h16, hnot]
  simp [List.range, List.range.loop]

theorem sample_max_attr_len : BTGATT_MAX_ATTR_LEN Env.sample = 600 :=
  List.length_replicate _ _

/-- C12 (the code at a failing input): with a maximum attribute length of 600, a response
value of 601 bytes is not rejected before the stack call: the native function copies all
601 bytes into the 600-cell array (a buffer overrun) instead of returning. A value of
65537 bytes is not rejected either: a response with `len` 1 and only the first byte is
forwarded. -/
theorem C12_long_value_not_rejected :
    Bridge.sample.sGattIf ≠ none ∧ BTGATT_MAX_ATTR_LEN Env.sample = 600 ∧
    gattServerSendResponseNative Bridge.sample Env.sample 1 2 3 0 4 0
        (some (List.replicate 601 0xAB)) 0
      = .fault .buffer_overrun ∧
    gattServerSendResponseNative Bridge.sample Env.sample 1 2 3 0 4 0
        (some (List.replicate 601 0xAB)) 0
      ≠ .done Bridge.sample [] 0 ∧
    gattServerSendResponseNative Bridge.sample Env.sample 1 2 3 0 4 0
        (some (List.replicate 65537 0xAB)) 0
      = .done Bridge.sample [.server (.send_response 2 3 0
          { handle := 4, auth_req := 0, offset := 0, len := 1,
            value := Env.sample.uninit_value.set 0
              ((List.replicate 65537 0xAB).getD 0 0) })] 0 :=
  ⟨by decide, sample_max_attr_len,
    sendResponse_overrun Bridge.sample Env.sample 1 2 3 0 4 0 0 _ (by decide)
      (by rw [sample_max_attr_len, List.length_replicate]; decide),
    by
      rw [sendResponse_overrun Bridge.sample Env.sample 1 2 3 0 4 0 0 _ (by decide)
        (by rw [sample_max_attr_len, List.length_replicate]; decide)]
      simp,
    sendResponse_wrapped Bridge.sample Env.sample 1 2 3 0 4 0 0 _ (by decide)
      (by rw [sample_max_attr_len]; decide) (List.length_replicate _ _)⟩

/-- The call of `gattServerSendResponseNative` for a value within the attribute length
limit: the response holds the low 16, 16 and 8 bits of handle, offset and auth_req. -/
theorem sendResponse_call (b : Bridge) (env : Env)
    (server_if conn_id trans_id status handle offset auth_req : Int) (val : Option (List Nat))
    (hlive : b.sGattIf ≠ none) (hmax : BTGATT_MAX_ATTR_LEN env < 65536)
    (hlen : ∀ array, val = some array → array.length ≤ BTGATT_MAX_ATTR_LEN env) :
    ∃ value : List Nat,
      gattServerSendResponseNative b env server_if conn_id trans_id status handle offset val
          auth_req
        = .done b [.server (.send_response conn_id trans_id status
            (Response.mk (jintToU16 handle) (jintToU8 auth_req) (jintToU16 offset)
              (val.getD []).length value))] 0 ∧
      value.take (val.getD []).length = val.getD [] := by
  cases val with
  | none =>
    refine ⟨env.uninit_value, ?_, ?_⟩
    · simp [gattServerSendResponseNative, isNone_of_live b hlive]
    · simp
  | some array =>
    have ha := hlen array rfl
    have h16 : toU16 array.length = array.length := toU16_of_lt _ (by omega)
    have hcap : ¬ (array.length > BTGATT_MAX_ATTR_LEN env) := by omega
    refine ⟨(List.range array.length).foldl (fun value i => value.set i (array.getD i 0))
        env.uninit_value, ?_, ?_⟩
    · simp [gattServerSendResponseNative, isNone_of_live b hlive, h16, hcap]
    · simp only [Option.getD_some]
      rw [copy_fold array array.length env.uninit_value ha (le_refl _)]
      simp

/-- C13 (as stated, refuted): with handle 70000, offset 65541 and auth_req 257 the response
passed to `send_response` holds handle 4464, offset 5 and auth_req 1, not the given ones:
the fields of the response are `uint16_t`, `uint16_t` and `uint8_t`. -/
theorem C13_counterexample :
    Bridge.sample.sGattIf ≠ none ∧
    gattServerSendResponseNative Bridge.sample Env.sample 1 2 3 0 70000 65541 none 257
      = .done Bridge.sample [.server (.send_response 2 3 0
          { handle := 4464, auth_req := 1, offset := 5, len := 0,
            value := Env.sample.uninit_value })] 0 ∧
    (4464 : Int) ≠ 70000 ∧ (5 : Int) ≠ 65541 ∧ (1 : Int) ≠ 257 :=
  ⟨by decide, rfl, by decide, by decide, by decide⟩

/-- C13 (amended): on a live bridge, for every (conn_id, trans_id, status, handle, offset,
auth_req, value) with handle and offset in 0..65535, auth_req in 0..255 and the value
within the attribute length limit, `gattServerSendResponseNative` issues exactly one
`send_response` call with the same conn_id, trans_id and status, and a response whose
handle, offset and auth_req are the given ones, whose `len` is the value's length and whose
first `len` bytes are the value (`len` 0 when the value is null). The limit
`BTGATT_MAX_ATTR_LEN` fits the `uint16_t` field `len`. -/
theorem C13_send_response (b : Bridge) (env : Env)
    (server_if conn_id trans_id status handle offset auth_req : Int) (val : Option (List Nat))
    (hlive : b.sGattIf ≠ none) (hmax : BTGATT_MAX_ATTR_LEN env < 65536)
    (hlen : ∀ array, val = some array → array.length ≤ BTGATT_MAX_ATTR_LEN env)
    (hhandle : 0 ≤ handle ∧ handle < 65536) (hoffset : 0 ≤ offset ∧ offset < 65536)
    (hauth : 0 ≤ auth_req ∧ auth_req < 256) :
    ∃ response : Response,
      gattServerSendResponseNative b env server_if conn_id trans_id status handle offset val
          auth_req
        = .done b [.server (.send_response conn_id trans_id status response)] 0 ∧
      response.handle = handle ∧ response.offset = offset ∧ response.auth_req = auth_req ∧
      response.len = (val.getD []).length ∧
      response.value.take response.len = val.getD [] ∧
      (val = none → response.len = 0) := by
  obtain ⟨value, hcall, htake⟩ := sendResponse_call b env server_if conn_id trans_id status
    handle offset auth_req val hlive hmax hlen
  refine ⟨_, hcall, jintToU16_of_range handle hhandle.1 hhandle.2,
    jintToU16_of_range offset hoffset.1 hoffset.2,
    jintToU8_of_range auth_req hauth.1 hauth.2, rfl, htake, ?_⟩
  intro h
  subst h
  rfl

theorem C13_send_response_witness :
    Bridge.sample.sGattIf ≠ none ∧ BTGATT_MAX_ATTR_LEN Env.sample < 65536 ∧
    (∀ array, some [0x10, 0x20, 0x30] = some array →
      array.length ≤ BTGATT_MAX_ATTR_LEN Env.sample) ∧
    ((0 : Int) ≤ 4 ∧ (4 : Int) < 65536) ∧ ((0 : Int) ≤ 5 ∧ (5 : Int) < 65536) ∧
    ((0 : Int) ≤ 6 ∧ (6 : Int) < 256) ∧
    ∃ response : Response,
      gattServerSendResponseNative Bridge.sample Env.sample 1 2 3 0 4 5
          (some [0x10, 0x20, 0x30]) 6
        = .done Bridge.sample [.server (.send_response 2 3 0 response)] 0 ∧
      response.handle = 4 ∧ response.offset = 5 ∧ response.auth_req = 6 ∧
      response.len = ((some [0x10, 0x20, 0x30] : Option (List Nat)).getD []).length ∧
      response.value.take response.len = (some [0x10, 0x20, 0x30] : Option (List Nat)).getD [] ∧
      ((some [0x10, 0x20, 0x30] : Option (List Nat)) = none → response.len = 0) :=
  have hmax : BTGATT_MAX_ATTR_LEN Env.sample < 65536 := by
    rw [sample_max_attr_len]; decide
  have hlen : ∀ array, some [0x10, 0x20, 0x30] = some array →
      array.length ≤ BTGATT_MAX_ATTR_LEN Env.sample := by
    intro array h
    cases h
    rw [sample_max_attr_len]; decide
  ⟨by decide, hmax, hlen, by decide, by decide, by decide,
    C13_send_response Bridge.sample Env.sample 1 2 3 0 4 5 6 (some [0x10, 0x20, 0x30])
      (by decide) hmax hlen (by decide) (by decide) (by decide)⟩


/-! ## Claims: read completions -/

/-- C14: `btgattc_read_characteristic_cb` marshals the read value as follows: for every
completion with status 0 the delivered payload is exactly the `value.len` bytes of the
stack value (the empty sequence when `value.len` is 0); for every completion with a
non-zero status the payload is the single byte 0, whatever the stack value holds. -/
theorem C14_read_characteristic_payload (b : Bridge) (sCallbackEnv : CallbackEnv)
    (conn_id status : Int) (p_data : ReadParams) (sink : Nat)
    (hvalid : sCallbackEnv.valid = true) (hsink : b.mCallbacksObj = some sink)
    (hlen : p_data.value.len ≤ p_data.value.value.length) :
    (status = 0 →
      btgattc_read_characteristic_cb b sCallbackEnv conn_id status p_data
        = .delivered sink (.onReadCharacteristic conn_id status p_data.handle
            (p_data.value.value.take p_data.value.len)) ∧
      (p_data.value.value.take p_data.value.len).length = p_data.value.len ∧
      (p_data.value.len = 0 → p_data.value.value.take p_data.value.len = [])) ∧
    (status ≠ 0 →
      btgattc_read_characteristic_cb b sCallbackEnv conn_id status p_data
        = .delivered sink (.onReadCharacteristic conn_id status p_data.handle [0])) := by
  constructor
  · intro h0
    refine ⟨?_, ?_, ?_⟩
    · simp [btgattc_read_characteristic_cb, hvalid, h0, CallVoidMethod, hsink,
        SetByteArrayRegion_new _ _ hlen]
    · simp [hlen]
    · intro hz; simp [hz]
  · intro h0
    have h1 : SetByteArrayRegion (NewByteArray 1) 0 1 [0] = [0] := by decide
    simp [btgattc_read_characteristic_cb, hvalid, h0, CallVoidMethod, hsink, h1]

theorem C14_read_characteristic_payload_witness :
    CallbackEnv.sample.valid = true ∧ Bridge.sample.mCallbacksObj = some 3 ∧
    (⟨42, ⟨[0x11, 0x22, 0x33, 0, 0], 3⟩⟩ : ReadParams).value.len
      ≤ (⟨42, ⟨[0x11, 0x22, 0x33, 0, 0], 3⟩⟩ : ReadParams).value.value.length ∧
    ((0 : Int) = 0 →
      btgattc_read_characteristic_cb Bridge.sample CallbackEnv.sample 7 0
          ⟨42, ⟨[0x11, 0x22, 0x33, 0, 0], 3⟩⟩
        = .delivered 3 (.onReadCharacteristic 7 0
            (⟨42, ⟨[0x11, 0x22, 0x33, 0, 0], 3⟩⟩ : ReadParams).handle
            ((⟨42, ⟨[0x11, 0x22, 0x33, 0, 0], 3⟩⟩ : ReadParams).value.value.take
              (⟨42, ⟨[0x11, 0x22, 0x33, 0, 0], 3⟩⟩ : ReadParams).value.len)) ∧
      ((⟨42, ⟨[0x11, 0x22, 0x33, 0, 0], 3⟩⟩ : ReadParams).value.value.take
          (⟨42, ⟨[0x11, 0x22, 0x33, 0, 0], 3⟩⟩ : ReadParams).value.len).length
        = (⟨42, ⟨[0x11, 0x22, 0x33, 0, 0], 3⟩⟩ : ReadParams).value.len ∧
      ((⟨42, ⟨[0x11, 0x22, 0x33, 0, 0], 3⟩⟩ : ReadParams).value.len = 0 →
        (⟨42, ⟨[0x11, 0x22, 0x33, 0, 0], 3⟩⟩ : ReadParams).value.value.take
          (⟨42, ⟨[0x11, 0x22, 0x33, 0, 0], 3⟩⟩ : ReadParams).value.len = [])) ∧
    ((0 : Int) ≠ 0 →
      btgattc_read_characteristic_cb Bridge.sample CallbackEnv.sample 7 0
          ⟨42, ⟨[0x11, 0x22, 0x33, 0, 0], 3⟩⟩
        = .delivered 3 (.onReadCharacteristic 7 0
            (⟨42, ⟨[0x11, 0x22, 0x33, 0, 0], 3⟩⟩ : ReadParams).handle [0])) :=
  ⟨rfl, rfl, by decide,
    C14_read_characteristic_payload Bridge.sample CallbackEnv.sample 7 0
      ⟨42, ⟨[0x11, 0x22, 0x33, 0, 0], 3⟩⟩ 3 rfl rfl (by decide)⟩

/-- C15 (the code at failing inputs): `btgattc_read_descriptor_cb` does not follow the
convention of the read-characteristic path. For a successful (status 0) zero-length value
the characteristic path delivers the empty payload and the descriptor path the single
byte 0; for a failed (status 5) completion whose value holds two bytes the characteristic
path delivers the single byte 0 and the descriptor path the two bytes. -/
theorem C15_read_descriptor_differs :
    btgattc_read_characteristic_cb Bridge.sample CallbackEnv.sample 7 0
        ⟨42, ⟨[0x11, 0x22, 0, 0], 0⟩⟩
      = .delivered 3 (.onReadCharacteristic 7 0 42 []) ∧
    btgattc_read_descriptor_cb Bridge.sample CallbackEnv.sample 7 0
        ⟨42, ⟨[0x11, 0x22, 0, 0], 0⟩⟩
      = .delivered 3 (.onReadDescriptor 7 0 42 [0]) ∧
    btgattc_read_characteristic_cb Bridge.sample CallbackEnv.sample 7 5
        ⟨42, ⟨[0x11, 0x22, 0, 0], 2⟩⟩
      = .delivered 3 (.onReadCharacteristic 7 5 42 [0]) ∧
    btgattc_read_descriptor_cb Bridge.sample CallbackEnv.sample 7 5
        ⟨42, ⟨[0x11, 0x22, 0, 0], 2⟩⟩
      = .delivered 3 (.onReadDescriptor 7 5 42 [0x11, 0x22]) := by
  decide


/-! ## Claims: scan filter codec -/

/-- C16: on a live bridge, a service-UUID filter (filter kind 2) whose mask halves are both
zero is encoded as exactly one `ScanFilterAddRemove` call that carries the UUID built from
(`uuid_msb`, `uuid_lsb`) and no mask (null mask), for every client_if, action, filt_index
and UUID. -/
theorem C16_zero_mask_no_mask (b : Bridge) (env : Env)
    (client_if action filt_index company_id company_id_mask uuid_lsb uuid_msb : Int)
    (name address : Option (List Char)) (addr_type : Int) (data mask : Option (List Nat))
    (hlive : b.sGattIf ≠ none) (huuid : env.uninit_uuid.length = 16) :
    gattClientScanFilterAddRemoveNative b env client_if action 2 filt_index company_id
        company_id_mask uuid_lsb uuid_msb 0 0 name address addr_type data mask
      = .done b [.scanner (.ScanFilterAddRemove client_if action 2 filt_index 0 0
          (some (leBytes (toU64 uuid_lsb) ++ leBytes (toU64 uuid_msb))) none none 0 [] [])] 0 ∧
    gattClientScanFilterAddNative b env client_if 2 filt_index company_id
        company_id_mask uuid_lsb uuid_msb 0 0 name address addr_type data mask
      = .done b [.scanner (.ScanFilterAddRemove client_if 0 2 filt_index 0 0
          (some (leBytes (toU64 uuid_lsb) ++ leBytes (toU64 uuid_msb))) none none 0 [] [])] 0 ∧
    gattClientScanFilterDeleteNative b env client_if 2 filt_index company_id
        company_id_mask uuid_lsb uuid_msb 0 0 name address addr_type data mask
      = .done b [.scanner (.ScanFilterAddRemove client_if 1 2 filt_index 0 0
          (some (leBytes (toU64 uuid_lsb) ++ leBytes (toU64 uuid_msb))) none none 0 [] [])] 0 := by
  have hn := isNone_of_live b hlive
  simp [gattClientScanFilterAddRemoveNative, gattClientScanFilterAddNative,
    gattClientScanFilterDeleteNative, hn, set_uuid_cells _ huuid]

theorem C16_zero_mask_no_mask_witness :
    Bridge.sample.sGattIf ≠ none ∧ Env.sample.uninit_uuid.length = 16 ∧
    gattClientScanFilterAddRemoveNative Bridge.sample Env.sample 1 0 2 5 0 0
        0x0a0b0c0d0e0f1011 0x0102030405060708 0 0 none none 0 none none
      = .done Bridge.sample [.scanner (.ScanFilterAddRemove 1 0 2 5 0 0
          (some (leBytes (toU64 0x0a0b0c0d0e0f1011) ++ leBytes (toU64 0x0102030405060708)))
          none none 0 [] [])] 0 ∧
    gattClientScanFilterAddNative Bridge.sample Env.sample 1 2 5 0 0
        0x0a0b0c0d0e0f1011 0x0102030405060708 0 0 none none 0 none none
      = .done Bridge.sample [.scanner (.ScanFilterAddRemove 1 0 2 5 0 0
          (some (leBytes (toU64 0x0a0b0c0d0e0f1011) ++ leBytes (toU64 0x0102030405060708)))
          none none 0 [] [])] 0 ∧
    gattClientScanFilterDeleteNative Bridge.sample Env.sample 1 2 5 0 0
        0x0a0b0c0d0e0f1011 0x0102030405060708 0 0 none none 0 none none
      = .done Bridge.sample [.scanner (.ScanFilterAddRemove 1 1 2 5 0 0
          (some (leBytes (toU64 0x0a0b0c0d0e0f1011) ++ leBytes (toU64 0x0102030405060708)))
          none none 0 [] [])] 0 :=
  ⟨by decide, by decide,
    C16_zero_mask_no_mask Bridge.sample Env.sample 1 0 5 0 0
      0x0a0b0c0d0e0f1011 0x0102030405060708 none none 0 none none (by decide) (by decide)⟩

/-- C17 (the code at failing inputs): on a live bridge, a service-UUID filter (kind 2) whose
mask has a non-zero least-significant half 0xFFFF and a zero most-significant half is sent
with a null mask; so is a solicitation-UUID filter (kind 3) whose mask has a zero
least-significant half and a non-zero most-significant half. The mask is carried only when
both halves are non-zero. -/
theorem C17_half_zero_mask_dropped :
    gattClientScanFilterAddNative Bridge.sample Env.sample 1 2 5 0 0
        0x0a0b0c0d0e0f1011 0x0102030405060708 0xFFFF 0 none none 0 none none
      = .done Bridge.sample [.scanner (.ScanFilterAddRemove 1 0 2 5 0 0
          (some (set_uuid Env.sample.uninit_uuid 0x0102030405060708 0x0a0b0c0d0e0f1011))
          none none 0 [] [])] 0 ∧
    gattClientScanFilterAddNative Bridge.sample Env.sample 1 3 5 0 0
        0x0a0b0c0d0e0f1011 0x0102030405060708 0 0xFF00 none none 0 none none
      = .done Bridge.sample [.scanner (.ScanFilterAddRemove 1 0 3 5 0 0
          (some (set_uuid Env.sample.uninit_uuid 0x0102030405060708 0x0a0b0c0d0e0f1011))
          none none 0 [] [])] 0 ∧
    gattClientScanFilterAddNative Bridge.sample Env.sample 1 2 5 0 0
        0x0a0b0c0d0e0f1011 0x0102030405060708 0xFFFF 0xFF00 none none 0 none none
      = .done Bridge.sample [.scanner (.ScanFilterAddRemove 1 0 2 5 0 0
          (some (set_uuid Env.sample.uninit_uuid 0x0102030405060708 0x0a0b0c0d0e0f1011))
          (some (set_uuid Env.sample.uninit_uuid 0xFF00 0xFFFF)) none 0 [] [])] 0 := by
  simp [gattClientScanFilterAddNative, gattClientScanFilterAddRemoveNative, Bridge.sample]

/-- C18: on a live bridge, a local-name filter (filter kind 4) with an empty name produces
zero stack calls, for add and for delete and for all other arguments. -/
theorem C18_empty_name_no_call (b : Bridge) (env : Env)
    (client_if action filt_index company_id company_id_mask : Int)
    (uuid_lsb uuid_msb uuid_mask_lsb uuid_mask_msb : Int)
    (address : Option (List Char)) (addr_type : Int) (data mask : Option (List Nat))
    (hlive : b.sGattIf ≠ none) :
    gattClientScanFilterAddNative b env client_if 4 filt_index company_id company_id_mask
        uuid_lsb uuid_msb uuid_mask_lsb uuid_mask_msb (some []) address addr_type data mask
      = .done b [] 0 ∧
    gattClientScanFilterDeleteNative b env client_if 4 filt_index company_id company_id_mask
        uuid_lsb uuid_msb uuid_mask_lsb uuid_mask_msb (some []) address addr_type data mask
      = .done b [] 0 ∧
    gattClientScanFilterAddRemoveNative b env client_if action 4 filt_index company_id
        company_id_mask uuid_lsb uuid_msb uuid_mask_lsb uuid_mask_msb (some []) address
        addr_type data mask
      = .done b [] 0 := by
  have hn := isNone_of_live b hlive
  simp [gattClientScanFilterAddRemoveNative, gattClientScanFilterAddNative,
    gattClientScanFilterDeleteNative, hn]

theorem C18_empty_name_no_call_witness :
    Bridge.sample.sGattIf ≠ none ∧
    gattClientScanFilterAddNative Bridge.sample Env.sample 1 4 5 0 0 0 0 0 0 (some [])
        (some "AA:BB:CC:DD:EE:FF".toList) 0 (some [1]) (some [2])
      = .done Bridge.sample [] 0 ∧
    gattClientScanFilterDeleteNative Bridge.sample Env.sample 1 4 5 0 0 0 0 0 0 (some [])
        (some "AA:BB:CC:DD:EE:FF".toList) 0 (some [1]) (some [2])
      = .done Bridge.sample [] 0 ∧
    gattClientScanFilterAddRemoveNative Bridge.sample Env.sample 1 9 4 5 0 0 0 0 0 0 (some [])
        (some "AA:BB:CC:DD:EE:FF".toList) 0 (some [1]) (some [2])
      = .done Bridge.sample [] 0 :=
  ⟨by decide,
    C18_empty_name_no_call Bridge.sample Env.sample 1 9 5 0 0 0 0 0 0
      (some "AA:BB:CC:DD:EE:FF".toList) 0 (some [1]) (some [2]) (by decide)⟩

/-- The encoding of a scan filter does not depend on the action, which is passed on as
it is. -/
theorem addRemove_action (b : Bridge) (env : Env)
    (client_if action action' filt_type filt_index company_id company_id_mask : Int)
    (uuid_lsb uuid_msb uuid_mask_lsb uuid_mask_msb : Int)
    (name address : Option (List Char)) (addr_type : Int) (data mask : Option (List Nat)) :
    (gattClientScanFilterAddRemoveNative b env client_if action filt_type filt_index
        company_id company_id_mask uuid_lsb uuid_msb uuid_mask_lsb uuid_mask_msb name address
        addr_type data mask).mapCalls (StackCall.withAction action')
      = gattClientScanFilterAddRemoveNative b env client_if action' filt_type filt_index
        company_id company_id_mask uuid_lsb uuid_msb uuid_mask_lsb uuid_mask_msb name address
        addr_type data mask ∧
    ∀ c ∈ (gattClientScanFilterAddRemoveNative b env client_if action filt_type filt_index
        company_id company_id_mask uuid_lsb uuid_msb uuid_mask_lsb uuid_mask_msb name address
        addr_type data mask).calls, c.filterAction = some action := by
  unfold gattClientScanFilterAddRemoveNative
  by_cases h0 : filt_type = 0
  · simp only [h0, if_true]
    cases b.sGattIf.isNone <;>
      simp [Result.mapCalls, Result.calls, StackCall.withAction, ScannerCall.withAction,
        StackCall.filterAction]
  simp only [h0, if_false]
  by_cases h1 : filt_type = 1
  · simp only [h1, if_true]
    cases data <;> cases mask <;> cases b.sGattIf.isNone <;>
      simp [Result.mapCalls, Result.calls, StackCall.withAction, ScannerCall.withAction,
        StackCall.filterAction]
  simp only [h1, if_false]
  by_cases h23 : filt_type = 2 ∨ filt_type = 3
  · simp only [h23, if_true]
    cases b.sGattIf.isNone <;>
      by_cases hm : uuid_mask_lsb ≠ 0 ∧ uuid_mask_msb ≠ 0 <;>
      simp [hm, Result.mapCalls, Result.calls, StackCall.withAction, ScannerCall.withAction,
        StackCall.filterAction]
  simp only [h23, if_false]
  by_cases h4 : filt_type = 4
  · simp only [h4, if_true]
    cases name with
    | none => simp [Result.mapCalls, Result.calls]
    | some c_name =>
      cases b.sGattIf.isNone <;> by_cases hc : c_name.length ≠ 0 <;>
        simp [hc, Result.mapCalls, Result.calls, StackCall.withAction, ScannerCall.withAction,
          StackCall.filterAction]
  simp only [h4, if_false]
  by_cases h56 : filt_type = 5 ∨ filt_type = 6
  · simp only [h56, if_true]
    cases data <;> cases mask <;> cases b.sGattIf.isNone <;>
      simp [Result.mapCalls, Result.calls, StackCall.withAction, ScannerCall.withAction,
        StackCall.filterAction]
  simp only [h56, if_false]
  simp [Result.mapCalls, Result.calls]

/-- C19: for every filter kind and every argument tuple, `gattClientScanFilterAddNative`
and `gattClientScanFilterDeleteNative` issue the same sequence of stack calls with
identical arguments, except that the action argument is 0 for add and 1 for delete (and
where one of them runs into a null reference, so does the other). -/
theorem C19_add_delete_same_encoding (b : Bridge) (env : Env) (a : ScanFilterArgs) :
    ((NativeCall.gattClientScanFilterAddNative a).run b env).mapCalls (StackCall.withAction 1)
      = (NativeCall.gattClientScanFilterDeleteNative a).run b env ∧
    ((NativeCall.gattClientScanFilterDeleteNative a).run b env).mapCalls (StackCall.withAction 0)
      = (NativeCall.gattClientScanFilterAddNative a).run b env ∧
    (∀ c ∈ ((NativeCall.gattClientScanFilterAddNative a).run b env).calls,
      c.filterAction = some 0) ∧
    (∀ c ∈ ((NativeCall.gattClientScanFilterDeleteNative a).run b env).calls,
      c.filterAction = some 1) := by
  simp only [NativeCall.run, gattClientScanFilterAddNative, gattClientScanFilterDeleteNative]
  cases hs : b.sGattIf.isNone
  · simp only [Bool.false_eq_true, if_false]
    exact ⟨(addRemove_action b env _ 0 1 _ _ _ _ _ _ _ _ _ _ _ _ _).1,
      (addRemove_action b env _ 1 0 _ _ _ _ _ _ _ _ _ _ _ _ _).1,
      (addRemove_action b env _ 0 1 _ _ _ _ _ _ _ _ _ _ _ _ _).2,
      (addRemove_action b env _ 1 0 _ _ _ _ _ _ _ _ _ _ _ _ _).2⟩
  · simp [Result.mapCalls, Result.calls]


/-! ## Lemmas: attribute table codec -/

/-- The halves read back from a buffer written by `set_uuid`, as `jlong` values. -/
theorem uuid_halves_of_set_uuid (buf : List Nat) (msb lsb : Int)
    (hbuf : buf.length = 16) (hmsb : IsJlong msb) (hlsb : IsJlong lsb) :
    toJlong (uuid_msb (set_uuid buf msb lsb)) = msb ∧
    toJlong (uuid_lsb (set_uuid buf msb lsb)) = lsb := by
  rw [set_uuid_cells buf hbuf, uuid_msb_leBytes _ _ (toU64_lt _),
    uuid_lsb_leBytes _ (toU64_lt _) _]
  exact ⟨toJlong_toU64 _ hmsb, toJlong_toU64 _ hlsb⟩

theorem fillLoop_eq (sCallbackEnv : CallbackEnv) (db : List DbElement) (n : Nat) :
    ∀ (i : Nat) (array : List JGattDbElement), i + n ≤ db.length →
      fillLoop sCallbackEnv db n i array
        = .ok (array ++ ((db.drop i).take n).map (fillElement sCallbackEnv)) := by
  induction n with
  | zero => intro i array _; simp [fillLoop]
  | succ n ih =>
    intro i array h
    have hi : i < db.length := by omega
    have hd : db.drop i = db[i] :: db.drop (i + 1) := List.drop_eq_getElem_cons hi
    simp only [fillLoop, List.get?_eq_getElem?, List.getElem?_eq_getElem hi]
    rw [ih (i + 1) _ (by omega), hd]
    simp only [List.take_succ_cons, List.map_cons, List.append_assoc, List.singleton_append]

theorem fillGattDbElementArray_eq (b : Bridge) (sCallbackEnv : CallbackEnv)
    (db : List DbElement) (sink : Nat) (hsink : b.mCallbacksObj = some sink) :
    fillGattDbElementArray b sCallbackEnv [] db db.length
      = .ok (db.map (fillElement sCallbackEnv)) := by
  simp [fillGattDbElementArray, hsink, fillLoop_eq sCallbackEnv db db.length 0 [] (by omega)]

/-- Decoding an encoded row whose numeric fields fit the fields of `btgatt_db_element_t`
gives the row back in every field but `permissions`, which `fillGattDbElementArray` never
sets: it keeps the value the Java constructor gave it. -/
theorem fillElement_encodeElement (env : Env) (sCallbackEnv : CallbackEnv)
    (r : JGattDbElement) (hr : IsRow r) (hfit : FitsElement r)
    (huuid : env.uninit_uuid.length = 16) :
    ∃ curr, encodeElement env r = some curr ∧
      fillElement sCallbackEnv curr
        = { r with permissions := sCallbackEnv.new_GattDbElement.permissions } := by
  obtain ⟨u, hu, hm, hl⟩ := hr
  obtain ⟨hid, hah, hsh, heh, hpr⟩ := hfit
  obtain ⟨id, uuid, type, attributeHandle, startHandle, endHandle, properties, permissions⟩ := r
  simp only at hu hid hah hsh heh hpr
  subst hu
  refine ⟨_, rfl, ?_⟩
  have h1 := uuid_halves_of_set_uuid env.uninit_uuid u.msb u.lsb huuid hm hl
  simp [fillElement, h1.1, h1.2, hid, hah, hsh, heh, hpr]

/-- Decoding an encoded table whose numeric fields fit the stack's element gives the rows
back, in order, in every field but `permissions`. -/
theorem decode_encode_rows (b : Bridge) (env : Env) (sCallbackEnv : CallbackEnv)
    (rows : List JGattDbElement) (sink : Nat) (hsink : b.mCallbacksObj = some sink)
    (hrows : ∀ r ∈ rows, IsRow r ∧ FitsElement r) (huuid : env.uninit_uuid.length = 16) :
    ∃ db, encodeElements env rows = some db ∧
      fillGattDbElementArray b sCallbackEnv [] db db.length
        = .ok (rows.map fun r =>
            { r with permissions := sCallbackEnv.new_GattDbElement.permissions }) := by
  have henc : ∃ db, encodeElements env rows = some db ∧
      db.map (fillElement sCallbackEnv) = rows.map fun r =>
        { r with permissions := sCallbackEnv.new_GattDbElement.permissions } := by
    induction rows with
    | nil => exact ⟨[], rfl, rfl⟩
    | cons r rest ih =>
      obtain ⟨db, hdb, hmap⟩ := ih (fun x hx => hrows x (List.mem_cons_of_mem _ hx))
      obtain ⟨curr, hcurr, hfill⟩ :=
        fillElement_encodeElement env sCallbackEnv r (hrows r (List.mem_cons_self _ _)).1
          (hrows r (List.mem_cons_self _ _)).2 huuid
      refine ⟨curr :: db, ?_, ?_⟩
      · simp [encodeElements, hcurr, hdb]
      · simp [hfill, hmap]
  obtain ⟨db, hdb, hmap⟩ := henc
  exact ⟨db, hdb, by rw [fillGattDbElementArray_eq b sCallbackEnv db sink hsink, hmap]⟩

/-! ## Claims: attribute table codec -/

/-- C20 (the code at a failing input): the table of one well-formed row with permissions
17 is encoded by `gattServerAddServiceNative` into one stack element that carries the
permissions, but `fillGattDbElementArray` decodes that element into a row whose
permissions field is the 0 of a new `GattDbElement`: the row that comes back is not the
row that went in. Every other field comes back equal. -/
theorem C20_permissions_not_decoded :
    IsRow JGattDbElement.sample ∧ JGattDbElement.sample.permissions = 17 ∧
    ∃ db : List DbElement,
      gattServerAddServiceNative Bridge.sample Env.sample 1 (some [JGattDbElement.sample])
        = .done Bridge.sample [.server (.add_service 1 db)] 0 ∧
      db.map DbElement.permissions = [17] ∧
      fillGattDbElementArray Bridge.sample CallbackEnv.sample [] db db.length
        = .ok [{ JGattDbElement.sample with permissions := 0 }] ∧
      fillGattDbElementArray Bridge.sample CallbackEnv.sample [] db db.length
        ≠ .ok [JGattDbElement.sample] := by
  have hrow : IsRow JGattDbElement.sample :=
    ⟨{ msb := 0x0102030405060708, lsb := 0x0a0b0c0d0e0f1011 }, rfl, by decide, by decide⟩
  have hfit : FitsElement JGattDbElement.sample := by
    simp [FitsElement, JGattDbElement.sample, jintToU16, jintToU8]
  obtain ⟨db, hdb, hfill⟩ := decode_encode_rows Bridge.sample Env.sample CallbackEnv.sample
    [JGattDbElement.sample] 3 rfl (by simpa using ⟨hrow, hfit⟩) (by decide)
  have hfill' : fillGattDbElementArray Bridge.sample CallbackEnv.sample [] db db.length
      = .ok [{ JGattDbElement.sample with permissions := 0 }] := by
    rw [hfill]; rfl
  refine ⟨hrow, rfl, db, ?_, ?_, hfill', ?_⟩
  · simp [gattServerAddServiceNative, Bridge.sample, hdb]
  · simp only [encodeElements, encodeElement, JGattDbElement.sample] at hdb
    simp only [Option.some.injEq] at hdb
    rw [← hdb]
    rfl
  · rw [hfill']
    intro h
    have hp := congrArg (fun r => match r with
      | Except.ok l => l.map JGattDbElement.permissions
      | Except.error _ => []) h
    revert hp
    decide


/-! ## Claims: callback router -/

/-- C21: for every stack element array of `count` elements, `fillGattDbElementArray`
appends exactly `count` rows to the output list, and row i carries the id, attribute
handle, type, start handle, end handle and properties of element i and the UUID halves
(`uuid_msb`, `uuid_lsb`) of element i's UUID: order is preserved and no element is
dropped, duplicated or reordered. The same rows are what `btgattc_get_gatt_db_cb`
delivers. -/
theorem C21_fill_rows (b : Bridge) (sCallbackEnv : CallbackEnv) (array : List JGattDbElement)
    (db : List DbElement) (conn_id : Int) (sink : Nat)
    (hsink : b.mCallbacksObj = some sink) (hvalid : sCallbackEnv.valid = true) :
    ∃ out : List JGattDbElement,
      fillGattDbElementArray b sCallbackEnv array db db.length = .ok out ∧
      out.length = array.length + db.length ∧
      out.take array.length = array ∧
      (∀ i curr, db[i]? = some curr →
        ∃ row, out[array.length + i]? = some row ∧
          row.id = curr.id ∧ row.attributeHandle = curr.attribute_handle ∧
          row.type = curr.type ∧ row.startHandle = curr.start_handle ∧
          row.endHandle = curr.end_handle ∧ row.properties = curr.properties ∧
          row.uuid = some { msb := toJlong (uuid_msb curr.uuid),
                            lsb := toJlong (uuid_lsb curr.uuid) }) ∧
      btgattc_get_gatt_db_cb b sCallbackEnv conn_id db db.length
        = .delivered sink (.onGetGattDb conn_id (out.drop array.length)) := by
  have hfill : ∀ arr : List JGattDbElement,
      fillGattDbElementArray b sCallbackEnv arr db db.length
        = .ok (arr ++ db.map (fillElement sCallbackEnv)) := by
    intro arr
    simp [fillGattDbElementArray, hsink, fillLoop_eq sCallbackEnv db db.length 0 arr (by omega)]
  refine ⟨array ++ db.map (fillElement sCallbackEnv), hfill array, by simp, by simp, ?_, ?_⟩
  · intro i curr hi
    refine ⟨fillElement sCallbackEnv curr, ?_, rfl, rfl, rfl, rfl, rfl, rfl, rfl⟩
    rw [List.getElem?_append_right (by omega)]
    simp [hi]
  · simp [btgattc_get_gatt_db_cb, hvalid, hfill, CallVoidMethod, hsink]


theorem C21_fill_rows_witness :
    Bridge.sample.mCallbacksObj = some 3 ∧ CallbackEnv.sample.valid = true ∧
    ∃ out : List JGattDbElement,
      fillGattDbElementArray Bridge.sample CallbackEnv.sample []
          [DbElement.mk 1 (List.replicate 16 0) 3 4 5 6 7 17] [DbElement.mk 1 (List.replicate 16 0) 3 4 5 6 7 17].length = .ok out ∧
      out.length = ([] : List JGattDbElement).length
        + [DbElement.mk 1 (List.replicate 16 0) 3 4 5 6 7 17].length ∧
      out.take ([] : List JGattDbElement).length = [] ∧
      (∀ i curr, [DbElement.mk 1 (List.replicate 16 0) 3 4 5 6 7 17][i]? = some curr →
        ∃ row, out[([] : List JGattDbElement).length + i]? = some row ∧
          row.id = curr.id ∧ row.attributeHandle = curr.attribute_handle ∧
          row.type = curr.type ∧ row.startHandle = curr.start_handle ∧
          row.endHandle = curr.end_handle ∧ row.properties = curr.properties ∧
          row.uuid = some { msb := toJlong (uuid_msb curr.uuid),
                            lsb := toJlong (uuid_lsb curr.uuid) }) ∧
      btgattc_get_gatt_db_cb Bridge.sample CallbackEnv.sample 7
          [DbElement.mk 1 (List.replicate 16 0) 3 4 5 6 7 17]
          [DbElement.mk 1 (List.replicate 16 0) 3 4 5 6 7 17].length
        = .delivered 3 (.onGetGattDb 7 (out.drop ([] : List JGattDbElement).length)) :=
  ⟨rfl, rfl,
    C21_fill_rows Bridge.sample CallbackEnv.sample []
      [DbElement.mk 1 (List.replicate 16 0) 3 4 5 6 7 17] 7 3 rfl rfl⟩

/-- C22: registration reports the UUID halves it was given: for every (lsb, msb), when a
client, server, scanner or advertiser is registered with those halves and the stack
completes the registration with the UUID it was passed, the registration-completed event
carries the same least-significant and most-significant halves, in the same argument
positions (lsb first, then msb) as the request. -/
theorem C22_registration_uuid (b : Bridge) (env : Env) (sCallbackEnv : CallbackEnv)
    (lsb msb status id : Int) (sink : Nat)
    (hlive : b.sGattIf ≠ none) (huuid : env.uninit_uuid.length = 16)
    (hlsb : IsJlong lsb) (hmsb : IsJlong msb)
    (hvalid : sCallbackEnv.valid = true) (hsink : b.mCallbacksObj = some sink) :
    ∃ uuid : List Nat,
      gattClientRegisterAppNative b env lsb msb
        = .done b [.client (.register_client uuid)] 0 ∧
      btgattc_register_app_cb b sCallbackEnv status id uuid
        = .delivered sink (.onClientRegistered status id lsb msb) ∧
      gattServerRegisterAppNative b env lsb msb
        = .done b [.server (.register_server uuid)] 0 ∧
      btgatts_register_app_cb b sCallbackEnv status id uuid
        = .delivered sink (.onServerRegistered status id lsb msb) ∧
      registerScannerNative b env lsb msb
        = .done b [.scanner (.RegisterScanner (.btgattc_register_scanner_cb uuid))] 0 ∧
      btgattc_register_scanner_cb b sCallbackEnv uuid id status
        = .delivered sink (.onScannerRegistered status id lsb msb) ∧
      registerAdvertiserNative b env lsb msb
        = .done b [.advertiser (.RegisterAdvertiser (.ble_advertiser_register_cb uuid))] 0 ∧
      ble_advertiser_register_cb b sCallbackEnv uuid id status
        = .delivered sink (.onAdvertiserRegistered status id lsb msb) := by
  have hn := isNone_of_live b hlive
  have hh := uuid_halves_of_set_uuid env.uninit_uuid msb lsb huuid hmsb hlsb
  refine ⟨set_uuid env.uninit_uuid msb lsb, ?_, ?_, ?_, ?_, ?_, ?_, ?_, ?_⟩
  · simp [gattClientRegisterAppNative, hn]
  · simp [btgattc_register_app_cb, hvalid, CallVoidMethod, hsink, hh.1, hh.2]
  · simp [gattServerRegisterAppNative, hn]
  · simp [btgatts_register_app_cb, hvalid, CallVoidMethod, hsink, hh.1, hh.2]
  · simp [registerScannerNative, hn]
  · simp [btgattc_register_scanner_cb, hvalid, CallVoidMethod, hsink, hh.1, hh.2]
  · simp [registerAdvertiserNative, hn]
  · simp [ble_advertiser_register_cb, hvalid, CallVoidMethod, hsink, hh.1, hh.2]

theorem C22_registration_uuid_witness :
    Bridge.sample.sGattIf ≠ none ∧ Env.sample.uninit_uuid.length = 16 ∧
    IsJlong 0x0a0b0c0d0e0f1011 ∧ IsJlong 0x0102030405060708 ∧
    CallbackEnv.sample.valid = true ∧ Bridge.sample.mCallbacksObj = some 3 ∧
    ∃ uuid : List Nat,
      gattClientRegisterAppNative Bridge.sample Env.sample 0x0a0b0c0d0e0f1011
          0x0102030405060708
        = .done Bridge.sample [.client (.register_client uuid)] 0 ∧
      btgattc_register_app_cb Bridge.sample CallbackEnv.sample 0 5 uuid
        = .delivered 3 (.onClientRegistered 0 5 0x0a0b0c0d0e0f1011 0x0102030405060708) ∧
      gattServerRegisterAppNative Bridge.sample Env.sample 0x0a0b0c0d0e0f1011
          0x0102030405060708
        = .done Bridge.sample [.server (.register_server uuid)] 0 ∧
      btgatts_register_app_cb Bridge.sample CallbackEnv.sample 0 5 uuid
        = .delivered 3 (.onServerRegistered 0 5 0x0a0b0c0d0e0f1011 0x0102030405060708) ∧
      registerScannerNative Bridge.sample Env.sample 0x0a0b0c0d0e0f1011 0x0102030405060708
        = .done Bridge.sample
            [.scanner (.RegisterScanner (.btgattc_register_scanner_cb uuid))] 0 ∧
      btgattc_register_scanner_cb Bridge.sample CallbackEnv.sample uuid 5 0
        = .delivered 3 (.onScannerRegistered 0 5 0x0a0b0c0d0e0f1011 0x0102030405060708) ∧
      registerAdvertiserNative Bridge.sample Env.sample 0x0a0b0c0d0e0f1011 0x0102030405060708
        = .done Bridge.sample
            [.advertiser (.RegisterAdvertiser (.ble_advertiser_register_cb uuid))] 0 ∧
      ble_advertiser_register_cb Bridge.sample CallbackEnv.sample uuid 5 0
        = .delivered 3 (.onAdvertiserRegistered 0 5 0x0a0b0c0d0e0f1011 0x0102030405060708) :=
  ⟨by decide, by decide, by decide, by decide, rfl, rfl,
    C22_registration_uuid Bridge.sample Env.sample CallbackEnv.sample 0x0a0b0c0d0e0f1011
      0x0102030405060708 0 5 3 (by decide) (by decide) (by decide) (by decide) rfl rfl⟩

/-- Formatting the bytes parsed from a well-formed address text gives the text in upper
case. -/
theorem format_of_parsed_text (env : Env) (buf : List Nat) (s : List Char)
    (hs : IsAddrText s) (hbuf : buf.length = 6) :
    bdaddr2newjstr (jstr2bdaddr env buf (some s)) = s.map Char.toUpper := by
  obtain ⟨hlen, hk⟩ := hs
  obtain ⟨c0, c1, c2, c3, c4, c5, c6, c7, c8, c9, c10, c11, c12, c13, c14, c15, c16, rfl⟩ :=
    length_17_cases s hlen
  have k : ∀ j, j < 17 → if j % 3 = 2 then
      [c0, c1, c2, c3, c4, c5, c6, c7, c8, c9, c10, c11, c12, c13, c14, c15, c16].getD j ' ' = ':'
      else IsHexChar
        ([c0, c1, c2, c3, c4, c5, c6, c7, c8, c9, c10, c11, c12, c13, c14, c15, c16].getD j ' ') :=
    hk
  have k0 := k 0 (by norm_num)
  have k1 := k 1 (by norm_num)
  have k2 := k 2 (by norm_num)
  have k3 := k 3 (by norm_num)
  have k4 := k 4 (by norm_num)
  have k5 := k 5 (by norm_num)
  have k6 := k 6 (by norm_num)
  have k7 := k 7 (by norm_num)
  have k8 := k 8 (by norm_num)
  have k9 := k 9 (by norm_num)
  have k10 := k 10 (by norm_num)
  have k11 := k 11 (by norm_num)
  have k12 := k 12 (by norm_num)
  have k13 := k 13 (by norm_num)
  have k14 := k 14 (by norm_num)
  have k15 := k 15 (by norm_num)
  have k16 := k 16 (by norm_num)
  norm_num at k0 k1 k2 k3 k4 k5 k6 k7 k8 k9 k10 k11 k12 k13 k14 k15 k16
  subst k2 k5 k8 k11 k14
  obtain ⟨b0, hb0, e0, u0, v0⟩ := group_roundtrip c0 c1 k0 k1
  obtain ⟨b1, hb1, e1, u1, v1⟩ := group_roundtrip c3 c4 k3 k4
  obtain ⟨b2, hb2, e2, u2, v2⟩ := group_roundtrip c6 c7 k6 k7
  obtain ⟨b3, hb3, e3, u3, v3⟩ := group_roundtrip c9 c10 k9 k10
  obtain ⟨b4, hb4, e4, u4, v4⟩ := group_roundtrip c12 c13 k12 k13
  obtain ⟨b5, hb5, e5, u5, v5⟩ := group_roundtrip c15 c16 k15 k16
  obtain ⟨-, -, -, -, n1⟩ := hexChar_cases c1 k1
  obtain ⟨-, -, -, -, n4⟩ := hexChar_cases c4 k4
  obtain ⟨-, -, -, -, n7⟩ := hexChar_cases c7 k7
  obtain ⟨-, -, -, -, n10⟩ := hexChar_cases c10 k10
  obtain ⟨-, -, -, -, n13⟩ := hexChar_cases c13 k13
  obtain ⟨-, -, -, -, n16⟩ := hexChar_cases c16 k16
  rw [jstr2bdaddr_17 env buf _ hlen hbuf]
  have hc0 : cstr [c0, c1, ':', c3, c4, ':', c6, c7, ':', c9, c10, ':', c12, c13, ':',
      c15, c16] env.past 0 = c0 := by simp [cstr]
  rw [hc0, scanBytes_groups env.past c0 c1 c3 c4 c6 c7 c9 c10 c12 c13 c15 c16 n1 n4 n7 n10
    n13 n16, e0, e1, e2, e3, e4, e5, bdaddr2newjstr_eq b0 b1 b2 b3 b4 b5 hb0 hb1 hb2 hb3 hb4
    hb5, u0, u1, u2, u3, u4, u5, v0, v1, v2, v3, v4, v5]
  have hcolon : Char.toUpper ':' = ':' := by decide
  simp [hcolon]

/-- C23: connect and disconnect agree on the address: for every valid 17-character address
text s, `gattClientConnectNative` passes the stack the 6 bytes parsed from s together with
clientif, isDirect and transport unchanged, and when the stack reports a disconnect for
those bytes, `btgattc_close_cb` delivers an event whose address text is s uppercased and
whose clientIf, conn_id and status are the callback's own arguments. -/
theorem C23_connect_disconnect_address (b : Bridge) (env : Env) (sCallbackEnv : CallbackEnv)
    (clientif transport conn_id status clientIf : Int) (isDirect : Bool) (s : List Char)
    (sink : Nat) (hlive : b.sGattIf ≠ none) (hbda : env.uninit_bda.length = 6)
    (hs : IsAddrText s) (hvalid : sCallbackEnv.valid = true)
    (hsink : b.mCallbacksObj = some sink) :
    ∃ bda : List Nat,
      bda = jstr2bdaddr env env.uninit_bda (some s) ∧ IsBdAddr bda ∧
      gattClientConnectNative b env clientif (some s) isDirect transport
        = .done b [.client (.connect clientif bda isDirect transport)] 0 ∧
      btgattc_close_cb b sCallbackEnv conn_id status clientIf bda
        = .delivered sink (.onDisconnected clientIf conn_id status (s.map Char.toUpper)) := by
  have hn := isNone_of_live b hlive
  refine ⟨jstr2bdaddr env env.uninit_bda (some s), rfl, ?_, ?_, ?_⟩
  · rw [jstr2bdaddr_17 env _ s hs.1 hbda]
    exact ⟨scanBytes_length _ _ _ _, scanBytes_lt _ _ _ _⟩
  · simp [gattClientConnectNative, hn]
  · simp [btgattc_close_cb, hvalid, CallVoidMethod, hsink,
      format_of_parsed_text env env.uninit_bda s hs hbda]

theorem C23_connect_disconnect_address_witness :
    Bridge.sample.sGattIf ≠ none ∧ Env.sample.uninit_bda.length = 6 ∧
    IsAddrText "aa:bb:cc:dd:ee:ff".toList ∧ CallbackEnv.sample.valid = true ∧
    Bridge.sample.mCallbacksObj = some 3 ∧
    ∃ bda : List Nat,
      bda = jstr2bdaddr Env.sample Env.sample.uninit_bda (some "aa:bb:cc:dd:ee:ff".toList) ∧
      IsBdAddr bda ∧
      gattClientConnectNative Bridge.sample Env.sample 1 (some "aa:bb:cc:dd:ee:ff".toList)
          true 2
        = .done Bridge.sample [.client (.connect 1 bda true 2)] 0 ∧
      btgattc_close_cb Bridge.sample CallbackEnv.sample 9 0 1 bda
        = .delivered 3 (.onDisconnected 1 9 0 ("aa:bb:cc:dd:ee:ff".toList.map Char.toUpper)) :=
  ⟨by decide, by decide, by decide, rfl, rfl,
    C23_connect_disconnect_address Bridge.sample Env.sample CallbackEnv.sample 1 2 9 0 1 true
      "aa:bb:cc:dd:ee:ff".toList 3 (by decide) (by decide) (by decide) rfl rfl⟩

/-- C24: read completions are never swapped: the event delivered by
`btgattc_read_characteristic_cb` carries the conn_id, status and handle of that callback
invocation and a payload computed from that invocation's value only, so for any two
completions on the same conn_id with different handles, delivered in either order, each
event carries its own handle and its own value. -/
theorem C24_read_completions_not_swapped (b : Bridge) (sCallbackEnv : CallbackEnv)
    (c1 c2 : ReadCompletion) (sink : Nat)
    (hvalid : sCallbackEnv.valid = true) (hsink : b.mCallbacksObj = some sink)
    (_hconn : c1.conn_id = c2.conn_id) (hhandle : c1.p_data.handle ≠ c2.p_data.handle)
    (hlen1 : c1.p_data.value.len ≤ c1.p_data.value.value.length)
    (hlen2 : c2.p_data.value.len ≤ c2.p_data.value.value.length) :
    deliverReadCompletions b sCallbackEnv [c1, c2]
      = [.delivered sink (.onReadCharacteristic c1.conn_id c1.status c1.p_data.handle
            (fromStack c1.status c1.p_data)),
         .delivered sink (.onReadCharacteristic c2.conn_id c2.status c2.p_data.handle
            (fromStack c2.status c2.p_data))] ∧
    deliverReadCompletions b sCallbackEnv [c2, c1]
      = [.delivered sink (.onReadCharacteristic c2.conn_id c2.status c2.p_data.handle
            (fromStack c2.status c2.p_data)),
         .delivered sink (.onReadCharacteristic c1.conn_id c1.status c1.p_data.handle
            (fromStack c1.status c1.p_data))] ∧
    Event.onReadCharacteristic c1.conn_id c1.status c1.p_data.handle
        (fromStack c1.status c1.p_data)
      ≠ Event.onReadCharacteristic c2.conn_id c2.status c2.p_data.handle
        (fromStack c2.status c2.p_data) := by
  have one : ∀ c : ReadCompletion, c.p_data.value.len ≤ c.p_data.value.value.length →
      btgattc_read_characteristic_cb b sCallbackEnv c.conn_id c.status c.p_data
        = .delivered sink (.onReadCharacteristic c.conn_id c.status c.p_data.handle
            (fromStack c.status c.p_data)) := by
    intro c hl
    have h1 : SetByteArrayRegion (NewByteArray 1) 0 1 [0] = [0] := by decide
    by_cases h0 : c.status = 0
    · simp [btgattc_read_characteristic_cb, hvalid, h0, CallVoidMethod, hsink, fromStack,
        SetByteArrayRegion_new _ _ hl]
    · simp [btgattc_read_characteristic_cb, hvalid, h0, CallVoidMethod, hsink, fromStack, h1]
  refine ⟨?_, ?_, ?_⟩
  · simp [deliverReadCompletions, one c1 hlen1, one c2 hlen2]
  · simp [deliverReadCompletions, one c1 hlen1, one c2 hlen2]
  · intro h
    injection h with _ _ h3 _
    exact hhandle h3

theorem C24_read_completions_not_swapped_witness :
    CallbackEnv.sample.valid = true ∧ Bridge.sample.mCallbacksObj = some 3 ∧
    (ReadCompletion.mk 7 0 ⟨42, ⟨[0x11, 0x22, 0], 2⟩⟩).conn_id
      = (ReadCompletion.mk 7 5 ⟨43, ⟨[0x33, 0, 0], 1⟩⟩).conn_id ∧
    (ReadCompletion.mk 7 0 ⟨42, ⟨[0x11, 0x22, 0], 2⟩⟩).p_data.handle
      ≠ (ReadCompletion.mk 7 5 ⟨43, ⟨[0x33, 0, 0], 1⟩⟩).p_data.handle ∧
    deliverReadCompletions Bridge.sample CallbackEnv.sample
        [ReadCompletion.mk 7 0 ⟨42, ⟨[0x11, 0x22, 0], 2⟩⟩,
         ReadCompletion.mk 7 5 ⟨43, ⟨[0x33, 0, 0], 1⟩⟩]
      = [.delivered 3 (.onReadCharacteristic 7 0 42 [0x11, 0x22]),
         .delivered 3 (.onReadCharacteristic 7 5 43 [0])] ∧
    deliverReadCompletions Bridge.sample CallbackEnv.sample
        [ReadCompletion.mk 7 5 ⟨43, ⟨[0x33, 0, 0], 1⟩⟩,
         ReadCompletion.mk 7 0 ⟨42, ⟨[0x11, 0x22, 0], 2⟩⟩]
      = [.delivered 3 (.onReadCharacteristic 7 5 43 [0]),
         .delivered 3 (.onReadCharacteristic 7 0 42 [0x11, 0x22])] :=
  have h := C24_read_completions_not_swapped Bridge.sample CallbackEnv.sample
    (ReadCompletion.mk 7 0 ⟨42, ⟨[0x11, 0x22, 0], 2⟩⟩)
    (ReadCompletion.mk 7 5 ⟨43, ⟨[0x33, 0, 0], 1⟩⟩) 3 rfl rfl rfl (by decide) (by decide)
    (by decide)
  ⟨rfl, rfl, rfl, by decide, h.1, h.2.1⟩

/-! ## Lemmas: scan filters with data and mask -/

/-- The call of the manufacturer-data and service-data-pattern branch carries the whole
data array and the first `(uint16_t) length` bytes of the mask array. -/
theorem manu_data_calls (b : Bridge) (env : Env)
    (client_if action filt_type filt_index company_id company_id_mask : Int)
    (uuid_lsb uuid_msb uuid_mask_lsb uuid_mask_msb : Int)
    (name address : Option (List Char)) (addr_type : Int) (data mask : List Nat)
    (hlive : b.sGattIf ≠ none) (hkind : filt_type = 5 ∨ filt_type = 6) :
    gattClientScanFilterAddRemoveNative b env client_if action filt_type filt_index company_id
        company_id_mask uuid_lsb uuid_msb uuid_mask_lsb uuid_mask_msb name address addr_type
        (some data) (some mask)
      = .done b [.scanner (.ScanFilterAddRemove client_if action filt_type filt_index
          company_id company_id_mask none none none 0 data
          (mask.take (mask.length % 65536)))] 0 := by
  have hn := isNone_of_live b hlive
  rcases hkind with h | h <;> subst h <;>
    simp [gattClientScanFilterAddRemoveNative, hn, toU16, vectorOf]

/-! ## Claims: callbacks that drop their event, scan filter kinds -/

/-- C26 (as stated, refuted): with `mCallbacksObj` null and a callback environment that
is valid, `btgattc_open_cb` does not drop its event: no callback tests `mCallbacksObj`, so
it goes on to `CallVoidMethod` with the null object. -/
theorem C26_counterexample :
    Bridge.initial.mCallbacksObj = none ∧ CallbackEnv.sample.valid = true ∧
    (StackCallback.btgattc_open_cb 7 0 1 [1, 2, 3, 4, 5, 6]).run Bridge.initial
        CallbackEnv.sample = .fault .null_reference ∧
    (StackCallback.btgattc_open_cb 7 0 1 [1, 2, 3, 4, 5, 6]).run Bridge.initial
        CallbackEnv.sample ≠ .dropped := by
  refine ⟨rfl, rfl, rfl, ?_⟩
  intro h
  cases h

/-- C26 (amended): when the callback environment is not valid (`sCallbackEnv.valid()` is
false), every stack callback drops its event, whether or not the delivery sink
`mCallbacksObj` is installed: it returns before any call to the consumer, and, a callback
having no result but the delivery, nothing is kept for later. -/
theorem C26_invalid_env_drops (b : Bridge) (sCallbackEnv : CallbackEnv)
    (callback : StackCallback) (hv : sCallbackEnv.valid = false) :
    callback.run b sCallbackEnv = .dropped := by
  cases callback <;>
    simp [StackCallback.run, hv, btgattc_read_characteristic_cb, btgattc_read_descriptor_cb,
      btgattc_get_gatt_db_cb, btgatts_service_added_cb, btgattc_register_app_cb,
      btgattc_scan_result_cb, btgattc_open_cb, btgattc_close_cb, btgattc_search_complete_cb,
      btgattc_register_for_notification_cb, btgattc_notify_cb, btgattc_write_characteristic_cb,
      btgattc_execute_write_cb, btgattc_write_descriptor_cb, btgattc_remote_rssi_cb,
      btgattc_configure_mtu_cb, btgattc_scan_filter_cfg_cb, btgattc_scan_filter_param_cb,
      btgattc_scan_filter_status_cb, btgattc_congestion_cb, btgattc_batchscan_cfg_storage_cb,
      btgattc_batchscan_startstop_cb, btgattc_batchscan_reports_cb,
      btgattc_batchscan_threshold_cb, btgattc_track_adv_event_cb,
      btgattc_scan_parameter_setup_completed_cb, btgattc_register_scanner_cb,
      ble_advertiser_register_cb, ble_advertiser_enable_cb, ble_advertiser_start_cb,
      btgatts_register_app_cb, btgatts_connection_cb, btgatts_service_stopped_cb,
      btgatts_service_deleted_cb, btgatts_request_read_characteristic_cb,
      btgatts_request_read_descriptor_cb, btgatts_request_write_characteristic_cb,
      btgatts_request_write_descriptor_cb, btgatts_request_exec_write_cb,
      btgatts_response_confirmation_cb, btgatts_indication_sent_cb, btgatts_congestion_cb,
      btgatts_mtu_changed_cb]

theorem C26_invalid_env_drops_witness :
    (CallbackEnv.mk false CallbackEnv.sample.new_GattDbElement true).valid = false ∧
    (StackCallback.btgattc_open_cb 7 0 1 [1, 2, 3, 4, 5, 6]).run Bridge.initial
        (CallbackEnv.mk false CallbackEnv.sample.new_GattDbElement true) = .dropped :=
  ⟨rfl,
    C26_invalid_env_drops Bridge.initial
      (CallbackEnv.mk false CallbackEnv.sample.new_GattDbElement true)
      (StackCallback.btgattc_open_cb 7 0 1 [1, 2, 3, 4, 5, 6]) rfl⟩

/-- C27 (as stated, refuted): with a mask of 65536 bytes the manufacturer-data filter call
carries the empty mask, not the given mask, because the mask length is cut to
`uint16_t`. -/
theorem C27_counterexample :
    Bridge.sample.sGattIf ≠ none ∧
    gattClientScanFilterAddNative Bridge.sample Env.sample 1 5 2 0x4c 0xffff 0 0 0 0 none none 0
        (some [1, 2]) (some (List.replicate 65536 0xFF))
      = .done Bridge.sample [.scanner (.ScanFilterAddRemove 1 0 5 2 0x4c 0xffff none none none
          0 [1, 2] [])] 0 ∧
    ([] : List Nat) ≠ List.replicate 65536 0xFF := by
  have hlive : Bridge.sample.sGattIf ≠ none := by decide
  refine ⟨hlive, ?_, (take_multiple_65536 _ (List.length_replicate _ _)).2⟩
  have h := manu_data_calls Bridge.sample Env.sample 1 0 5 2 0x4c 0xffff 0 0 0 0 none none 0
    [1, 2] (List.replicate 65536 0xFF) hlive (Or.inl rfl)
  rw [(take_multiple_65536 _ (List.length_replicate _ _)).1] at h
  rw [← h]
  simp only [gattClientScanFilterAddNative, isNone_of_live _ hlive]
  rfl

/-- C27 (amended): on a live bridge, for a manufacturer-data (kind 5) or
service-data-pattern (kind 6) filter and every company_id, company_id_mask, non-null data
and non-null mask of fewer than 65536 bytes, add, delete and the shared encoder each issue
exactly one `ScanFilterAddRemove` call that carries company_id, company_id_mask, data bytes
equal to the given data and mask bytes equal to the given mask, with no UUID, no UUID mask
and no address; the two kinds are encoded identically apart from the kind tag. -/
theorem C27_manufacturer_data_filter (b : Bridge) (env : Env)
    (client_if action filt_type filt_index company_id company_id_mask : Int)
    (uuid_lsb uuid_msb uuid_mask_lsb uuid_mask_msb : Int)
    (name address : Option (List Char)) (addr_type : Int) (data mask : List Nat)
    (hlive : b.sGattIf ≠ none) (hkind : filt_type = 5 ∨ filt_type = 6)
    (hmask : mask.length < 65536) :
    gattClientScanFilterAddRemoveNative b env client_if action filt_type filt_index company_id
        company_id_mask uuid_lsb uuid_msb uuid_mask_lsb uuid_mask_msb name address addr_type
        (some data) (some mask)
      = .done b [.scanner (.ScanFilterAddRemove client_if action filt_type filt_index
          company_id company_id_mask none none none 0 data mask)] 0 ∧
    gattClientScanFilterAddNative b env client_if filt_type filt_index company_id
        company_id_mask uuid_lsb uuid_msb uuid_mask_lsb uuid_mask_msb name address addr_type
        (some data) (some mask)
      = .done b [.scanner (.ScanFilterAddRemove client_if 0 filt_type filt_index
          company_id company_id_mask none none none 0 data mask)] 0 ∧
    gattClientScanFilterDeleteNative b env client_if filt_type filt_index company_id
        company_id_mask uuid_lsb uuid_msb uuid_mask_lsb uuid_mask_msb name address addr_type
        (some data) (some mask)
      = .done b [.scanner (.ScanFilterAddRemove client_if 1 filt_type filt_index
          company_id company_id_mask none none none 0 data mask)] 0 := by
  have hn := isNone_of_live b hlive
  have htake : mask.take (mask.length % 65536) = mask := by
    rw [Nat.mod_eq_of_lt hmask, List.take_length]
  have h := fun action => manu_data_calls b env client_if action filt_type filt_index
    company_id company_id_mask uuid_lsb uuid_msb uuid_mask_lsb uuid_mask_msb name address
    addr_type data mask hlive hkind
  simp only [htake] at h
  refine ⟨h action, ?_, ?_⟩
  · simp only [gattClientScanFilterAddNative, hn]
    exact h 0
  · simp only [gattClientScanFilterDeleteNative, hn]
    exact h 1

theorem C27_manufacturer_data_filter_witness :
    Bridge.sample.sGattIf ≠ none ∧ ((6 : Int) = 5 ∨ (6 : Int) = 6) ∧
    [0xF0, 0x0F, 0xFF].length < 65536 ∧
    gattClientScanFilterAddNative Bridge.sample Env.sample 1 6 2 0x4c 0xffff 0 0 0 0 none none 0
        (some [1, 2, 3]) (some [0xF0, 0x0F, 0xFF])
      = .done Bridge.sample [.scanner (.ScanFilterAddRemove 1 0 6 2 0x4c 0xffff none none none
          0 [1, 2, 3] [0xF0, 0x0F, 0xFF])] 0 :=
  ⟨by decide, by decide, by decide,
    (C27_manufacturer_data_filter Bridge.sample Env.sample 1 0 6 2 0x4c 0xffff 0 0 0 0 none none
      0 [1, 2, 3] [0xF0, 0x0F, 0xFF] (by decide) (by decide) (by decide)).2.1⟩

/-- C28: a scan-filter add or delete whose kind tag is not one of the known kinds 0..6
reaches the `default: break` of the shared encoder: for every other filt_type value, every
bridge state and all other arguments, add, delete and the shared encoder return having
issued zero stack calls. -/
theorem C28_unknown_kind_no_call (b : Bridge) (env : Env)
    (client_if action filt_type filt_index company_id company_id_mask : Int)
    (uuid_lsb uuid_msb uuid_mask_lsb uuid_mask_msb : Int)
    (name address : Option (List Char)) (addr_type : Int) (data mask : Option (List Nat))
    (hkind : filt_type < 0 ∨ 6 < filt_type) :
    gattClientScanFilterAddRemoveNative b env client_if action filt_type filt_index company_id
        company_id_mask uuid_lsb uuid_msb uuid_mask_lsb uuid_mask_msb name address addr_type
        data mask = .done b [] 0 ∧
    gattClientScanFilterAddNative b env client_if filt_type filt_index company_id
        company_id_mask uuid_lsb uuid_msb uuid_mask_lsb uuid_mask_msb name address addr_type
        data mask = .done b [] 0 ∧
    gattClientScanFilterDeleteNative b env client_if filt_type filt_index company_id
        company_id_mask uuid_lsb uuid_msb uuid_mask_lsb uuid_mask_msb name address addr_type
        data mask = .done b [] 0 := by
  have h0 : filt_type ≠ 0 := by omega
  have h1 : filt_type ≠ 1 := by omega
  have h2 : filt_type ≠ 2 := by omega
  have h3 : filt_type ≠ 3 := by omega
  have h4 : filt_type ≠ 4 := by omega
  have h5 : filt_type ≠ 5 := by omega
  have h6 : filt_type ≠ 6 := by omega
  have h : ∀ action, gattClientScanFilterAddRemoveNative b env client_if action filt_type
      filt_index company_id company_id_mask uuid_lsb uuid_msb uuid_mask_lsb uuid_mask_msb name
      address addr_type data mask = .done b [] 0 := by
    intro action
    simp [gattClientScanFilterAddRemoveNative, h0, h1, h2, h3, h4, h5, h6]
  refine ⟨h action, ?_, ?_⟩
  · by_cases hn : b.sGattIf.isNone = true
    · simp [gattClientScanFilterAddNative, hn]
    · simp only [gattClientScanFilterAddNative, hn]
      exact h 0
  · by_cases hn : b.sGattIf.isNone = true
    · simp [gattClientScanFilterDeleteNative, hn]
    · simp only [gattClientScanFilterDeleteNative, hn]
      exact h 1

theorem C28_unknown_kind_no_call_witness :
    ((7 : Int) < 0 ∨ (6 : Int) < 7) ∧
    gattClientScanFilterAddNative Bridge.sample Env.sample 1 7 2 0x4c 0xffff 1 2 3 4
        (some "name".toList) (some "aa:bb:cc:dd:ee:ff".toList) 0 (some [1]) (some [0xFF])
      = .done Bridge.sample [] 0 :=
  ⟨by decide,
    (C28_unknown_kind_no_call Bridge.sample Env.sample 1 0 7 2 0x4c 0xffff 1 2 3 4
      (some "name".toList) (some "aa:bb:cc:dd:ee:ff".toList) 0 (some [1]) (some [0xFF])
      (by decide)).2.1⟩

/-! ## Lemmas: lifecycle -/

/-- One lifecycle call keeps the invariant: the stack handle is set exactly when the
delivery sink is, and only while `btIf` is. -/
theorem lifecycle_step_inv (b : Bridge) (op : LifecycleOp)
    (h : (b.sGattIf ≠ none ↔ b.mCallbacksObj ≠ none) ∧ (b.sGattIf ≠ none → b.btIf ≠ none)) :
    ((op.step b).sGattIf ≠ none ↔ (op.step b).mCallbacksObj ≠ none) ∧
    ((op.step b).sGattIf ≠ none → (op.step b).btIf ≠ none) := by
  obtain ⟨bt, g, o⟩ := b
  cases op with
  | cleanupNative =>
    cases bt <;> cases g <;> cases o <;>
      simp [LifecycleOp.step, cleanupNative, cleanGattIf, cleanCallbacksObj] at h ⊢
  | initializeNative env =>
    obtain ⟨gb, gp, ok, ref⟩ := env
    cases bt <;> cases g <;> cases o <;> cases gb <;> cases gp <;> cases ok <;>
      simp [LifecycleOp.step, initializeNative, cleanGattIf, cleanCallbacksObj] at h ⊢

theorem lifecycle_run_inv (ops : List LifecycleOp) : ∀ b : Bridge,
    ((b.sGattIf ≠ none ↔ b.mCallbacksObj ≠ none) ∧ (b.sGattIf ≠ none → b.btIf ≠ none)) →
    (((runLifecycle b ops).sGattIf ≠ none ↔ (runLifecycle b ops).mCallbacksObj ≠ none) ∧
     ((runLifecycle b ops).sGattIf ≠ none → (runLifecycle b ops).btIf ≠ none)) := by
  induction ops with
  | nil => intro b h; exact h
  | cons op rest ih =>
    intro b h
    exact ih (op.step b) (lifecycle_step_inv b op h)

theorem lifecycle_reachable_inv (ops : List LifecycleOp) :
    ((runLifecycle Bridge.initial ops).sGattIf ≠ none ↔
      (runLifecycle Bridge.initial ops).mCallbacksObj ≠ none) ∧
    ((runLifecycle Bridge.initial ops).sGattIf ≠ none →
      (runLifecycle Bridge.initial ops).btIf ≠ none) :=
  lifecycle_run_inv ops Bridge.initial (by simp [Bridge.initial])

/-- A call of `initializeNative` while `btIf` is set returns at once. -/
theorem initializeNative_early_return (b : Bridge) (env : InitEnv) (h : b.btIf ≠ none) :
    initializeNative b env = (b, []) := by
  cases hb : b.btIf with
  | none => exact absurd hb h
  | some bt => simp [initializeNative, hb]

/-! ## Claims: lifecycle -/

/-- C25 (as stated, refuted): on the live bridge that one successful `initializeNative`
leaves (handles 1, 2, 3), a second `initializeNative` makes no call: the stack's `cleanup`
is not called, the sink 3 is not released, and the state keeps stack handle 2 and sink 3
where the platform offered the new handle 20 and the new sink 30. -/
theorem C25_counterexample :
    runLifecycle Bridge.initial [.initializeNative ⟨some 1, some 2, true, 3⟩] = Bridge.sample ∧
    Bridge.sample.sGattIf ≠ none ∧
    initializeNative Bridge.sample InitEnv.sample = (Bridge.sample, []) ∧
    LifecycleCall.cleanup 2 ∉ (initializeNative Bridge.sample InitEnv.sample).2 ∧
    LifecycleCall.DeleteGlobalRef 3 ∉ (initializeNative Bridge.sample InitEnv.sample).2 ∧
    (initializeNative Bridge.sample InitEnv.sample).1.sGattIf ≠ some 20 ∧
    (initializeNative Bridge.sample InitEnv.sample).1.mCallbacksObj ≠ some 30 := by
  decide

/-- C25 (amended): `initializeNative` called on a bridge that is already live, in any state
the bridge can reach from the initial state, returns at its guard `if (btIf) return;`: it
makes no call at all (the stack's `cleanup` is not called, the previous delivery sink is
not released) and leaves the previous stack handle and the previous delivery sink in
place; the new handle and the new sink are not installed. -/
theorem C25_reinit_is_noop (ops : List LifecycleOp) (env : InitEnv)
    (hlive : (runLifecycle Bridge.initial ops).sGattIf ≠ none) :
    initializeNative (runLifecycle Bridge.initial ops) env
      = (runLifecycle Bridge.initial ops, []) :=
  initializeNative_early_return _ env ((lifecycle_reachable_inv ops).2 hlive)

theorem C25_reinit_is_noop_witness :
    (runLifecycle Bridge.initial [.initializeNative ⟨some 1, some 2, true, 3⟩]).sGattIf ≠ none ∧
    runLifecycle Bridge.initial [.initializeNative ⟨some 1, some 2, true, 3⟩] = Bridge.sample ∧
    initializeNative (runLifecycle Bridge.initial [.initializeNative ⟨some 1, some 2, true, 3⟩])
        InitEnv.sample
      = (runLifecycle Bridge.initial [.initializeNative ⟨some 1, some 2, true, 3⟩], []) :=
  ⟨by decide, by decide,
    C25_reinit_is_noop [.initializeNative ⟨some 1, some 2, true, 3⟩] InitEnv.sample
      (by decide)⟩

/-- C29: lifecycle invariant: in every state reachable from the initial all-null state by
any sequence of `initializeNative` and `cleanupNative` calls, with any outcomes of the
platform's lookups and of the stack's init, `sGattIf` is non-null exactly when
`mCallbacksObj` is non-null, and `sGattIf` non-null implies `btIf` non-null; hence a
further `initializeNative` in such a state never takes one of its two cleaning-up
branches: it calls neither the stack's `cleanup` nor `DeleteGlobalRef`. -/
theorem C29_lifecycle_invariant (ops : List LifecycleOp) (env : InitEnv) :
    ((runLifecycle Bridge.initial ops).sGattIf ≠ none ↔
      (runLifecycle Bridge.initial ops).mCallbacksObj ≠ none) ∧
    ((runLifecycle Bridge.initial ops).sGattIf ≠ none →
      (runLifecycle Bridge.initial ops).btIf ≠ none) ∧
    (∀ call ∈ (initializeNative (runLifecycle Bridge.initial ops) env).2,
      (∀ gattIf, call ≠ .cleanup gattIf) ∧ (∀ obj, call ≠ .DeleteGlobalRef obj)) := by
  have hinv := lifecycle_reachable_inv ops
  refine ⟨hinv.1, hinv.2, ?_⟩
  generalize runLifecycle Bridge.initial ops = b at hinv
  obtain ⟨bt, g, o⟩ := b
  obtain ⟨gb, gp, ok, ref⟩ := env
  cases bt <;> cases g <;> cases o <;> cases gb <;> cases gp <;> cases ok <;>
    simp [initializeNative, cleanGattIf, cleanCallbacksObj] at hinv ⊢

/-- C30: a failed initialization is never retried without a cleanup: after an
`initializeNative` call that obtained the Bluetooth interface but whose GATT profile lookup
or GATT init failed, `sGattIf` and `mCallbacksObj` are null, every later
`initializeNative` call returns without any call and leaves the state as it is, however
many follow; after `cleanupNative` all three references are null and a second
`cleanupNative` makes no call and changes nothing. -/
theorem C30_failed_init_not_retried (b0 : Bridge) (env : InitEnv) (bt : Nat)
    (hnull : b0.btIf = none) (hbt : env.getBluetoothInterface = some bt)
    (hfail : env.get_profile_interface = none ∨ env.init_success = false) :
    (initializeNative b0 env).1 = { btIf := some bt, sGattIf := none, mCallbacksObj := none } ∧
    (∀ later : InitEnv,
      initializeNative (initializeNative b0 env).1 later = ((initializeNative b0 env).1, [])) ∧
    (∀ later : List InitEnv,
      runLifecycle (initializeNative b0 env).1 (later.map .initializeNative)
        = (initializeNative b0 env).1) ∧
    (cleanupNative (initializeNative b0 env).1).1 = Bridge.initial ∧
    cleanupNative (cleanupNative (initializeNative b0 env).1).1 = (Bridge.initial, []) := by
  have h1 : (initializeNative b0 env).1
      = { btIf := some bt, sGattIf := none, mCallbacksObj := none } := by
    obtain ⟨bt0, g, o⟩ := b0
    obtain ⟨gb, gp, ok, ref⟩ := env
    simp only at hnull hbt hfail
    subst hnull hbt
    rcases hfail with hf | hf
    · subst hf
      cases g <;> cases o <;> simp [initializeNative, cleanGattIf, cleanCallbacksObj]
    · subst hf
      cases g <;> cases o <;> cases gp <;>
        simp [initializeNative, cleanGattIf, cleanCallbacksObj]
  rw [h1]
  refine ⟨rfl, fun later => initializeNative_early_return _ later (by simp), ?_, ?_, ?_⟩
  · intro later
    induction later with
    | nil => rfl
    | cons e rest ih =>
      simpa [runLifecycle, LifecycleOp.step, initializeNative] using ih
  · simp [cleanupNative, cleanGattIf, cleanCallbacksObj, Bridge.initial]
  · simp [cleanupNative, cleanGattIf, cleanCallbacksObj, Bridge.initial]

theorem C30_failed_init_not_retried_witness :
    Bridge.initial.btIf = none ∧
    (InitEnv.mk (some 10) (some 20) false 30).getBluetoothInterface = some 10 ∧
    ((InitEnv.mk (some 10) (some 20) false 30).get_profile_interface = none ∨
      (InitEnv.mk (some 10) (some 20) false 30).init_success = false) ∧
    (initializeNative Bridge.initial (InitEnv.mk (some 10) (some 20) false 30)).1
      = { btIf := some 10, sGattIf := none, mCallbacksObj := none } ∧
    initializeNative
        (initializeNative Bridge.initial (InitEnv.mk (some 10) (some 20) false 30)).1
        InitEnv.sample
      = ((initializeNative Bridge.initial (InitEnv.mk (some 10) (some 20) false 30)).1, []) :=
  have h := C30_failed_init_not_retried Bridge.initial (InitEnv.mk (some 10) (some 20) false 30)
    10 rfl rfl (Or.inr rfl)
  ⟨rfl, rfl, Or.inr rfl, h.1, h.2.1 InitEnv.sample⟩

end GattJni
